import Mathlib

/-!
# CrashRollbackGuard: a shallow embedding of `src/CrashRollbackGuard.cpp`

The guard is embedded as pure functions over an explicit durable store
(`Store`, the `Preferences` handle), the guard object's fields (`Guard`) and
the platform the guard consults (`Platform`).

Conventions of the embedding

* `uint32_t` / `uint8_t` values are `Nat`; every place where the C++ code
  truncates (a typed parameter, a cast, an increment) carries an explicit
  `% 2 ^ 32` or `% 256`.
* A C string is the list of its bytes before the terminating NUL; a raw byte
  buffer read as a C string is cut at its first NUL byte by `cstr`.
* The compile-time feature switches keep the defaults of the header
  (`CRG_FEATURE_FACTORY_FALLBACK`, `CRG_FEATURE_STABLE_TICK` and
  `CRG_FEATURE_PENDING_VERIFY_FIX` all 1).
* `log(...)` calls only print and are left out, except for what evaluating
  their arguments does to the store (`attemptRollback_`).
* A routine that ends in `esp_restart()` does not return: its result carries no
  return value, and the calls it made are kept in a trace.
-/

namespace crg

/-! ## C strings -/

/-- The C string held by a byte buffer: the bytes before the first NUL. -/
def cstr (buf : List Nat) : List Nat :=
  buf.takeWhile (fun b => b != 0)

/-- The body of `copyLabel_(dst, len, src)`: `strncpy` of at most `len - 1`
bytes followed by a terminator; the result is the C string left in `dst`. -/
def copyLabel_ (len : Nat) (src : Option (List Nat)) : List Nat :=
  match src with
  | none => []
  | some bytes =>
    let maxCopy := if len > 0 then len - 1 else 0
    if maxCopy = 0 then [] else (cstr bytes).take maxCopy

/-- The value of `CRG_LABEL_BUFFER_SIZE` (`ESP_PARTITION_LABEL_MAX_LEN + 1`). -/
def CRG_LABEL_BUFFER_SIZE : Nat := 16 + 1

/-! ## CRC-32 (`crc32_`) -/

/-- One turn of the inner `for` loop of `crc32_`:
`mask = -(crc & 1u); crc = (crc >> 1) ^ (0xEDB88320u & mask)`. -/
def crcBit (crc : Nat) : Nat :=
  let mask := (2 ^ 32 - (crc &&& 1)) % 2 ^ 32
  (crc >>> 1) ^^^ (0xEDB88320 &&& mask)

/-- The inner loop `for (uint8_t i = 0; i < 8; ++i)`, with `n` turns left. -/
def crcBits : Nat → Nat → Nat
  | 0, crc => crc
  | n + 1, crc => crcBits n (crcBit crc)

/-- One turn of the outer `while (len--)` loop: `crc ^= *ptr++` and the eight
bit steps. The byte is a `uint8_t`. -/
def crcByte (crc : Nat) (b : Nat) : Nat :=
  crcBits 8 (crc ^^^ (b % 256))

/-- The function `crc32_(data, len)` over the `len` bytes of `data`. -/
def crc32_ (data : List Nat) : Nat :=
  (data.foldl crcByte 0xFFFFFFFF) ^^^ 0xFFFFFFFF

/-! ### The reference CRC-32 of the specification

The definition below follows the words of the specification (IEEE 802.3,
bit-reflected, polynomial `0xEDB88320`, initial value `0xFFFFFFFF`, final XOR
`0xFFFFFFFF`), not the code: the register is shifted right one bit at a time
and the polynomial is subtracted (XORed in) whenever the bit shifted out is
set. -/

/-- One bit of reflected polynomial division by `0xEDB88320`. -/
def specCrcShift (reg : Nat) : Nat :=
  if reg % 2 = 1 then (reg / 2) ^^^ 0xEDB88320 else reg / 2

/-- One message byte of the reference CRC: XOR it into the low byte of the
register and divide eight bits out. -/
def specCrcByte (reg : Nat) (b : Nat) : Nat :=
  specCrcShift (specCrcShift (specCrcShift (specCrcShift
    (specCrcShift (specCrcShift (specCrcShift (specCrcShift (reg ^^^ (b % 256)))))))))

/-- The reference IEEE 802.3 CRC-32 of a byte sequence. -/
def specCrc32 (data : List Nat) : Nat :=
  (data.foldl specCrcByte 0xFFFFFFFF) ^^^ 0xFFFFFFFF

/-- The inverse of `specCrcShift` on 32-bit registers: the top bit of the result
tells whether the polynomial was XORed in, that is, which bit was shifted out. -/
def specCrcUnshift (y : Nat) : Nat :=
  if y ≥ 2 ^ 31 then 2 * (y ^^^ 0xEDB88320) + 1 else 2 * y

/-! ## The durable key-value store (`Preferences`) -/

/-- The NVS keys of the guard (`K_FAILS` ... `K_PENDING_CRC` in the header). -/
inductive Key where
  | fails
  | failsInv
  | prev
  | prevCrc
  | rbCnt
  | rbCntInv
  | pendAct
  | pendLbl
  | pendCrc
  deriving DecidableEq, Repr

def K_FAILS : Key := Key.fails
def K_FAILS_INV : Key := Key.failsInv
def K_PREV_LABEL : Key := Key.prev
def K_PREV_CRC : Key := Key.prevCrc
def K_ROLL_COUNT : Key := Key.rbCnt
def K_ROLL_COUNT_INV : Key := Key.rbCntInv
def K_PENDING_ACT : Key := Key.pendAct
def K_PENDING_LABEL : Key := Key.pendLbl
def K_PENDING_CRC : Key := Key.pendCrc

/-- Modelled from the spec: the `Preferences` class (Arduino-ESP32) is not part
of the repository. This is the store of spec section 3 and 4.2: the nine
records, each absent (`none`) or present with a value of its type, behind typed
get / put / exists / remove. A string record holds its raw bytes (without the
terminator the platform appends).

`failAfter` scripts the outcome of the write attempts still to come: the head
is the number of puts that succeed before the next one fails (returns 0 and
writes nothing); the empty script means every put succeeds. -/
structure Store where
  fails : Option Nat := none
  failsInv : Option Nat := none
  prev : Option (List Nat) := none
  prevCrc : Option Nat := none
  rbCnt : Option Nat := none
  rbCntInv : Option Nat := none
  pendAct : Option Nat := none
  pendLbl : Option (List Nat) := none
  pendCrc : Option Nat := none
  failAfter : List Nat := []
  deriving DecidableEq, Repr

namespace Store

/-- Whether the next put succeeds, and the store with that attempt consumed
from the script. -/
def tick (s : Store) : Bool × Store :=
  match s.failAfter with
  | [] => (true, s)
  | 0 :: rest => (false, { s with failAfter := rest })
  | (n + 1) :: rest => (true, { s with failAfter := n :: rest })

/-- `getUInt(key, defaultValue)`: the stored `uint32_t`, or the default when
the key holds no such value. -/
def getUInt (s : Store) (k : Key) (d : Nat) : Nat :=
  match k with
  | .fails => s.fails.getD d
  | .failsInv => s.failsInv.getD d
  | .prevCrc => s.prevCrc.getD d
  | .pendCrc => s.pendCrc.getD d
  | _ => d

/-- `getUChar(key, defaultValue)`. -/
def getUChar (s : Store) (k : Key) (d : Nat) : Nat :=
  match k with
  | .rbCnt => s.rbCnt.getD d
  | .rbCntInv => s.rbCntInv.getD d
  | .pendAct => s.pendAct.getD d
  | _ => d

/-- The raw bytes of a stored string record. -/
def strRecord (s : Store) (k : Key) : Option (List Nat) :=
  match k with
  | .prev => s.prev
  | .pendLbl => s.pendLbl
  | _ => none

/-- `getString(key, buf, maxLen)`: the number of bytes read (the string and its
terminator) and the bytes placed in the buffer; 0 and nothing when the key is
missing or the record does not fit in `maxLen` bytes. -/
def getString (s : Store) (k : Key) (maxLen : Nat) : Nat × List Nat :=
  match s.strRecord k with
  | none => (0, [])
  | some bytes =>
    if maxLen = 0 ∨ bytes.length + 1 > maxLen then (0, []) else (bytes.length + 1, bytes)

/-- `isKey(key)`. -/
def isKey (s : Store) (k : Key) : Bool :=
  match k with
  | .fails => s.fails.isSome
  | .failsInv => s.failsInv.isSome
  | .prev => s.prev.isSome
  | .prevCrc => s.prevCrc.isSome
  | .rbCnt => s.rbCnt.isSome
  | .rbCntInv => s.rbCntInv.isSome
  | .pendAct => s.pendAct.isSome
  | .pendLbl => s.pendLbl.isSome
  | .pendCrc => s.pendCrc.isSome

/-- `remove(key)`. -/
def remove (s : Store) (k : Key) : Store :=
  match k with
  | .fails => { s with fails := none }
  | .failsInv => { s with failsInv := none }
  | .prev => { s with prev := none }
  | .prevCrc => { s with prevCrc := none }
  | .rbCnt => { s with rbCnt := none }
  | .rbCntInv => { s with rbCntInv := none }
  | .pendAct => { s with pendAct := none }
  | .pendLbl => { s with pendLbl := none }
  | .pendCrc => { s with pendCrc := none }

/-- `putUInt(key, value)`: the store afterwards and the number of bytes written
(4, or 0 when the write fails). -/
def putUInt (s : Store) (k : Key) (v : Nat) : Store × Nat :=
  let t := s.tick
  if t.1 then
    match k with
    | .fails => ({ t.2 with fails := some (v % 2 ^ 32) }, 4)
    | .failsInv => ({ t.2 with failsInv := some (v % 2 ^ 32) }, 4)
    | .prevCrc => ({ t.2 with prevCrc := some (v % 2 ^ 32) }, 4)
    | .pendCrc => ({ t.2 with pendCrc := some (v % 2 ^ 32) }, 4)
    | _ => (t.2, 0)
  else (t.2, 0)

/-- `putUChar(key, value)`: the store afterwards and the number of bytes
written (1, or 0 when the write fails). -/
def putUChar (s : Store) (k : Key) (v : Nat) : Store × Nat :=
  let t := s.tick
  if t.1 then
    match k with
    | .rbCnt => ({ t.2 with rbCnt := some (v % 256) }, 1)
    | .rbCntInv => ({ t.2 with rbCntInv := some (v % 256) }, 1)
    | .pendAct => ({ t.2 with pendAct := some (v % 256) }, 1)
    | _ => (t.2, 0)
  else (t.2, 0)

/-- `putString(key, value)`: stores the C string `value` and returns the number
of bytes written, which is its length (so 0 for the empty string), or 0 when
the write fails. -/
def putString (s : Store) (k : Key) (value : List Nat) : Store × Nat :=
  let t := s.tick
  if t.1 then
    match k with
    | .prev => ({ t.2 with prev := some (cstr value) }, (cstr value).length)
    | .pendLbl => ({ t.2 with pendLbl := some (cstr value) }, (cstr value).length)
    | _ => (t.2, 0)
  else (t.2, 0)

end Store

/-! ## Labels with a CRC -/

/-- The enum `LabelStatus`. -/
inductive LabelStatus where
  | Missing
  | Ok
  | Corrupted
  deriving DecidableEq, Repr

/-- The function `storeLabelPref_(store, key, value)`. -/
def storeLabelPref_ (store : Store) (key : Key) (value : Option (List Nat)) : Store × Bool :=
  match value with
  | none => (store, false)
  | some v =>
    let r := store.putString key v
    (r.1, decide (r.2 > 0))

/-- The function `storeLabelWithCrc_(store, labelKey, crcKey, value)`. -/
def storeLabelWithCrc_ (store : Store) (labelKey crcKey : Key) (value : Option (List Nat)) :
    Store × Bool :=
  match value with
  | none => (store, false)
  | some v =>
    let r := storeLabelPref_ store labelKey (some v)
    if !r.2 then
      (((r.1).remove labelKey).remove crcKey, false)
    else
      let crc := crc32_ (cstr v)
      let w := (r.1).putUInt crcKey crc
      if w.2 = 0 then
        (((w.1).remove labelKey).remove crcKey, false)
      else (w.1, true)

/-- The function `loadLabelWithCrc_(store, labelKey, crcKey, out, len)`: the
status and the C string left in `out`. -/
def loadLabelWithCrc_ (store : Store) (labelKey crcKey : Key) (len : Nat) :
    LabelStatus × List Nat :=
  if len = 0 then (LabelStatus.Missing, [])
  else
    let r := store.getString labelKey len
    if r.1 = 0 then (LabelStatus.Missing, [])
    else
      let storedCrc := store.getUInt crcKey 0
      if !store.isKey crcKey then (LabelStatus.Corrupted, [])
      else
        let calcCrc := crc32_ (cstr r.2)
        if storedCrc ≠ calcCrc then (LabelStatus.Corrupted, [])
        else (LabelStatus.Ok, cstr r.2)

/-! ## Redundant counters -/

/-- Runs a sequence of single-key writes, in order. -/
def runWrites (writes : List (Store → Store)) (store : Store) : Store :=
  writes.foldl (fun st w => w st) store

/-- The two single-key writes of `writeFailCounter_(store, value)`, in program
order: `putUInt(K_FAILS, value)`, then `putUInt(K_FAILS_INV, value ^ 0xFFFFFFFFu)`. -/
def writeFailCounterWrites (value : Nat) : List (Store → Store) :=
  [fun st => (st.putUInt K_FAILS value).1,
   fun st => (st.putUInt K_FAILS_INV ((value % 2 ^ 32) ^^^ 0xFFFFFFFF)).1]

/-- The function `writeFailCounter_(store, value)`. -/
def writeFailCounter_ (store : Store) (value : Nat) : Store :=
  runWrites (writeFailCounterWrites value) store

/-- The function `readFailCounter_(store, allowRepair)`: the value returned and
the store afterwards. -/
def readFailCounter_ (store : Store) (allowRepair : Bool) : Nat × Store :=
  let primary := store.getUInt K_FAILS 0
  let mirror := store.getUInt K_FAILS_INV (primary ^^^ 0xFFFFFFFF)
  if (primary ^^^ mirror) ≠ 0xFFFFFFFF then
    (0, if allowRepair then writeFailCounter_ store 0 else store)
  else (primary, store)

/-- The function `resetFailCounter_(store)`. -/
def resetFailCounter_ (store : Store) : Store :=
  writeFailCounter_ store 0

/-- The two single-key writes of `writeRollbackCount_(store, value)`, in program
order: `putUChar(K_ROLL_COUNT, value)`, then `putUChar(K_ROLL_COUNT_INV, value ^ 0xFFu)`. -/
def writeRollbackCountWrites (value : Nat) : List (Store → Store) :=
  [fun st => (st.putUChar K_ROLL_COUNT value).1,
   fun st => (st.putUChar K_ROLL_COUNT_INV ((value % 256) ^^^ 0xFF)).1]

/-- The function `writeRollbackCount_(store, value)`. -/
def writeRollbackCount_ (store : Store) (value : Nat) : Store :=
  runWrites (writeRollbackCountWrites value) store

/-- The function `readRollbackCount_(store, allowRepair)`: the value returned
and the store afterwards. -/
def readRollbackCount_ (store : Store) (allowRepair : Bool) : Nat × Store :=
  let primary := store.getUChar K_ROLL_COUNT 0
  let mirror := store.getUChar K_ROLL_COUNT_INV ((primary ^^^ 0xFF) % 256)
  if (primary ^^^ mirror) % 256 ≠ 0xFF then
    (0, if allowRepair then writeRollbackCount_ store 0 else store)
  else (primary, store)

/-- The function `resetRollbackCount_(store)`. -/
def resetRollbackCount_ (store : Store) : Store :=
  writeRollbackCount_ store 0

/-- The function `bumpRollbackCount_(store)`. -/
def bumpRollbackCount_ (store : Store) : Store :=
  let r := readRollbackCount_ store true
  if r.1 ≠ 0xFF then writeRollbackCount_ r.2 (r.1 + 1) else r.2

/-! ## Enumerations and configuration -/

/-- The enum `PendingAction`, with the codes of the header. -/
inductive PendingAction where
  | None
  | RollbackPrev
  | RollbackFactory
  | ControlledRestart
  deriving DecidableEq, Repr

/-- The byte written for an action: `static_cast<uint8_t>(action)`. -/
def PendingAction.code : PendingAction → Nat
  | .None => 0
  | .RollbackPrev => 1
  | .RollbackFactory => 2
  | .ControlledRestart => 3

/-- The action read back from an in-range byte:
`static_cast<PendingAction>(raw)` for `raw <= 3`. -/
def PendingAction.ofCode (raw : Nat) : PendingAction :=
  if raw = 1 then .RollbackPrev
  else if raw = 2 then .RollbackFactory
  else if raw = 3 then .ControlledRestart
  else .None

/-- The enum `Decision`. -/
inductive Decision where
  | None
  | RollbackToPrev
  | RollbackToFactory
  | SkippedNoPrev
  | SkippedSameSlot
  | FailedSwitch
  deriving DecidableEq, Repr

/-- Modelled from the spec: the platform enum `esp_reset_reason_t` (ESP-IDF
header, not part of the repository), with the values of section 6
(`POWERON, EXT, SW, BROWNOUT, WDT_*, PANIC, UNKNOWN, ...`). -/
inductive ResetReason where
  | UNKNOWN
  | POWERON
  | EXT
  | SW
  | PANIC
  | INT_WDT
  | TASK_WDT
  | WDT
  | DEEPSLEEP
  | BROWNOUT
  | SDIO
  deriving DecidableEq, Repr

/-- Modelled from the spec: the platform enum `esp_ota_img_states_t`
(`UNDEFINED, NEW, PENDING_VERIFY, VALID, INVALID, ABORTED`, section 6). -/
inductive OtaState where
  | NEW
  | PENDING_VERIFY
  | VALID
  | INVALID
  | ABORTED
  | UNDEFINED
  deriving DecidableEq, Repr

/-- The fields of `struct Options` the decision logic reads, as held in `opt_`
(the namespace and the log settings are left out). `factoryLabel` is `none`
for a null pointer; its default is the string "factory". -/
structure Options where
  failLimit : Nat := 3
  stableTimeMs : Nat := 60000
  autoSavePrevSlot : Bool := false
  fallbackToFactory : Bool := false
  factoryLabel : Option (List Nat) := some [0x66, 0x61, 0x63, 0x74, 0x6F, 0x72, 0x79]
  maxRollbackAttempts : Nat := 1
  swResetCountsAsCrash : Bool := false
  brownoutCountsAsCrash : Bool := false

/-- The data members of `CrashRollbackGuard` (the `Preferences` handle is the
`Store` passed alongside). -/
structure Guard where
  opt : Options := {}
  suspiciousPred : Option (ResetReason → Bool) := none
  healthyMarked : Bool := false
  resetReason : ResetReason := ResetReason.UNKNOWN
  pendingVerify : Bool := false
  stableStartMs : Nat := 0
  runningImgState : OtaState := OtaState.UNDEFINED

/-- An `esp_partition_t`: where it lies and the bytes of its `label` field. -/
structure Partition where
  address : Nat
  label : List Nat
  deriving DecidableEq, Repr

/-- Modelled from the spec: the platform contract of section 6, as the answers
the platform gives during one call of the guard. -/
structure Platform where
  /-- The value of `esp_reset_reason()`. -/
  resetReason : ResetReason
  /-- The value of `millis()`. -/
  millis : Nat
  /-- The value of `esp_ota_get_running_partition()` (`none`: null). -/
  running : Option Partition
  /-- The result of `esp_partition_find_first(APP, ANY, label)`. -/
  findApp : List Nat → Option Partition
  /-- The state `esp_ota_get_state_partition` yields (`none`: not `ESP_OK`). -/
  otaState : Partition → Option OtaState
  /-- Whether `esp_ota_set_boot_partition` returns `ESP_OK`. -/
  setBootOk : Partition → Bool
  /-- Whether `Preferences::begin` succeeds. -/
  nvsOpen : Bool
  /-- Whether `esp_ota_mark_app_valid_cancel_rollback` returns `ESP_OK`. -/
  markValidOk : Bool

/-- The calls a guard operation makes that are visible outside it. -/
inductive Event where
  /-- A call of `Preferences::begin`. -/
  | nvsBegin
  /-- Control entered `attemptRollback_`. -/
  | attemptRollback
  /-- A call of `esp_ota_set_boot_partition`. -/
  | setBootPartition (part : Partition)
  /-- A call of `esp_restart`. -/
  | restart
  /-- A call of `esp_ota_mark_app_valid_cancel_rollback`. -/
  | otaMarkValid
  deriving DecidableEq, Repr

/-- What a decision routine leaves behind: the store, the calls it made, and
the value it returned (`none` when it ended in `esp_restart()`, which does not
return). -/
structure Res where
  store : Store
  trace : List Event
  ret : Option Decision
  deriving DecidableEq, Repr

/-! ## Platform helpers -/

/-- The function `isSuspicious(r)`. -/
def isSuspicious (g : Guard) (r : ResetReason) : Bool :=
  match g.suspiciousPred with
  | some pred => pred r
  | none =>
    match r with
    | .POWERON => false
    | .EXT => false
    | .SW => g.opt.swResetCountsAsCrash
    | .BROWNOUT => g.opt.brownoutCountsAsCrash
    | _ => true

/-- The function `findAppPartitionByLabel_(label)`. -/
def findAppPartitionByLabel_ (p : Platform) (label : Option (List Nat)) : Option Partition :=
  match label with
  | none => none
  | some l => if cstr l = [] then none else p.findApp (cstr l)

/-- The function `switchBootPartitionByLabel_(label)`: its result and the
platform calls made. -/
def switchBootPartitionByLabel_ (p : Platform) (label : Option (List Nat)) : Bool × List Event :=
  match findAppPartitionByLabel_ p label with
  | none => (false, [])
  | some part => (p.setBootOk part, [Event.setBootPartition part])

/-- The function `readRunningLabel_(out, len)` for a non-null `out`: its result
and the C string left in `out`. -/
def readRunningLabel_ (p : Platform) (len : Nat) : Bool × List Nat :=
  if len = 0 then (false, [])
  else
    match p.running with
    | none => (false, [])
    | some running => (true, copyLabel_ len (some running.label))

/-! ## The pending-action record -/

/-- The function `clearPendingAction_(store)`. -/
def clearPendingAction_ (store : Store) : Store :=
  let store := (store.putUChar K_PENDING_ACT PendingAction.None.code).1
  let store := store.remove K_PENDING_LABEL
  store.remove K_PENDING_CRC

/-- The function `storePendingAction_(store, action, label)`. -/
def storePendingAction_ (store : Store) (action : PendingAction) (label : Option (List Nat)) :
    Store :=
  let w := store.putUChar K_PENDING_ACT PendingAction.None.code
  if w.2 = 0 then w.1
  else
    let hasLabel : Bool :=
      match label with
      | none => false
      | some l => decide (cstr l ≠ [])
    let r : Store × Bool :=
      if hasLabel then
        let r := storeLabelWithCrc_ w.1 K_PENDING_LABEL K_PENDING_CRC label
        if !r.2 then (((r.1).remove K_PENDING_LABEL).remove K_PENDING_CRC, false)
        else (r.1, true)
      else (((w.1).remove K_PENDING_LABEL).remove K_PENDING_CRC, true)
    if !r.2 then r.1
    else
      let w2 := (r.1).putUChar K_PENDING_ACT action.code
      if w2.2 = 0 then ((w2.1).remove K_PENDING_LABEL).remove K_PENDING_CRC
      else w2.1

/-- The function `readPendingAction_(store, labelBuf, bufLen)`; `buf` is `none`
for a null `labelBuf` and the buffer length otherwise. Yields the action, the C
string left in the buffer and the store afterwards. -/
def readPendingAction_ (store : Store) (buf : Option Nat) : PendingAction × List Nat × Store :=
  let hasBuf : Bool :=
    match buf with
    | none => false
    | some n => decide (n > 0)
  let raw := store.getUChar K_PENDING_ACT 0
  if raw > PendingAction.ControlledRestart.code then
    (PendingAction.None, [], clearPendingAction_ store)
  else
    let action := PendingAction.ofCode raw
    if action = PendingAction.None then
      if store.isKey K_PENDING_LABEL || store.isKey K_PENDING_CRC then
        (PendingAction.None, [], (store.remove K_PENDING_LABEL).remove K_PENDING_CRC)
      else (PendingAction.None, [], store)
    else if !hasBuf && action ≠ PendingAction.ControlledRestart then
      (PendingAction.None, [], clearPendingAction_ store)
    else if hasBuf then
      let r := loadLabelWithCrc_ store K_PENDING_LABEL K_PENDING_CRC (buf.getD 0)
      if r.1 ≠ LabelStatus.Ok then
        if action = PendingAction.ControlledRestart then (action, [], store)
        else (PendingAction.None, [], clearPendingAction_ store)
      else (action, r.2, store)
    else (action, [], store)

/-- The function `armControlledRestart()`: the store afterwards and the calls
made. -/
def armControlledRestart (p : Platform) (store : Store) : Store × List Event :=
  if !p.nvsOpen then (store, [Event.nvsBegin])
  else
    let r := readRunningLabel_ p CRG_LABEL_BUFFER_SIZE
    (storePendingAction_ store PendingAction.ControlledRestart (if r.1 then some r.2 else none),
     [Event.nvsBegin])

/-! ## The boot decision -/

/-- The function `tryFactoryFallback_(store, failureDecision, cause)`. -/
def tryFactoryFallback_ (g : Guard) (p : Platform) (store : Store) (failureDecision : Decision) :
    Res :=
  let labelSet : Bool :=
    match g.opt.factoryLabel with
    | none => false
    | some l => decide (cstr l ≠ [])
  if !g.opt.fallbackToFactory || !labelSet then ⟨store, [], some failureDecision⟩
  else
    let store := storePendingAction_ store PendingAction.RollbackFactory g.opt.factoryLabel
    let sw := switchBootPartitionByLabel_ p g.opt.factoryLabel
    if sw.1 then ⟨store, sw.2 ++ [Event.restart], none⟩
    else ⟨clearPendingAction_ store, sw.2, some Decision.FailedSwitch⟩

/-- Puts the calls `pre`, made before a routine was entered, in front of its
trace. -/
def Res.after (pre : List Event) (r : Res) : Res :=
  { r with trace := pre ++ r.trace }

/-- The function `attemptRollback_(store, why)`. The argument list of its first
`log` call evaluates `readFailCounter_(store)`, which may repair the counter. -/
def attemptRollback_ (g : Guard) (p : Platform) (store : Store) : Res :=
  let current := (readRunningLabel_ p CRG_LABEL_BUFFER_SIZE).2
  let prevLoad := loadLabelWithCrc_ store K_PREV_LABEL K_PREV_CRC CRG_LABEL_BUFFER_SIZE
  let store :=
    if prevLoad.1 = LabelStatus.Corrupted then (store.remove K_PREV_LABEL).remove K_PREV_CRC
    else store
  let prev := if prevLoad.1 = LabelStatus.Corrupted then [] else prevLoad.2
  let store := (readFailCounter_ store true).2
  if prev = [] then
    (tryFactoryFallback_ g p store Decision.SkippedNoPrev).after [Event.attemptRollback]
  else if prev = current then
    (tryFactoryFallback_ g p store Decision.SkippedSameSlot).after [Event.attemptRollback]
  else
    match findAppPartitionByLabel_ p (some prev) with
    | none => (tryFactoryFallback_ g p store Decision.SkippedNoPrev).after [Event.attemptRollback]
    | some prevPartition =>
      if p.otaState prevPartition = some OtaState.INVALID
          ∨ p.otaState prevPartition = some OtaState.ABORTED then
        (tryFactoryFallback_ g p store Decision.FailedSwitch).after [Event.attemptRollback]
      else
        let store := storePendingAction_ store PendingAction.RollbackPrev (some prev)
        let sw := switchBootPartitionByLabel_ p (some prev)
        if sw.1 then
          ⟨bumpRollbackCount_ store, [Event.attemptRollback] ++ sw.2 ++ [Event.restart], none⟩
        else
          (tryFactoryFallback_ g p (clearPendingAction_ store) Decision.FailedSwitch).after
            ([Event.attemptRollback] ++ sw.2)

/-- The first lines of `beginEarly()`: latch the reset reason and the clock,
reset the flags, and read the running partition's OTA state. -/
def latchBoot (g : Guard) (p : Platform) : Guard :=
  let g : Guard :=
    { g with
      resetReason := p.resetReason
      healthyMarked := false
      stableStartMs := p.millis % 2 ^ 32
      pendingVerify := false
      runningImgState := OtaState.UNDEFINED }
  match p.running with
  | none => g
  | some running =>
    match p.otaState running with
    | none => g
    | some st => { g with runningImgState := st, pendingVerify := decide (st = OtaState.PENDING_VERIFY) }

/-- What `beginEarly()` holds in its locals after the pending-action and
auto-save steps: `fails`, `pendingBoot` and the store. -/
structure Prelude where
  fails : Nat
  pendingBoot : Bool
  store : Store
  deriving DecidableEq, Repr

/-- The pending-action block of `beginEarly()` (from
`readPendingAction_(prefs_, pendingLabel, sizeof(pendingLabel))` to the end of
`if (pendingAction != PendingAction::None)`), run with the running label and
the value of `fails` read before it. -/
def reconcilePending (runningLabel : List Nat) (fails : Nat) (store : Store) : Prelude :=
  let rp := readPendingAction_ store (some CRG_LABEL_BUFFER_SIZE)
  let pendingAction := rp.1
  let pendingLabel := rp.2.1
  let store := rp.2.2
  if pendingAction ≠ PendingAction.None then
    let labelPresent : Bool := decide (pendingLabel ≠ [])
    let labelMatches : Bool :=
      labelPresent && decide (runningLabel ≠ []) && decide (pendingLabel = runningLabel)
    if pendingAction = PendingAction.ControlledRestart then
      ⟨0, true, resetFailCounter_ (clearPendingAction_ store)⟩
    else if labelMatches then
      ⟨0, true, resetFailCounter_ (clearPendingAction_ store)⟩
    else
      ⟨fails, false, clearPendingAction_ store⟩
  else ⟨fails, false, store⟩

/-- The `if (opt_.autoSavePrevSlot)` block of `beginEarly()`. -/
def autoSavePrev (g : Guard) (runningLabel : List Nat) (store : Store) : Store :=
  if g.opt.autoSavePrevSlot then
    let status := (loadLabelWithCrc_ store K_PREV_LABEL K_PREV_CRC CRG_LABEL_BUFFER_SIZE).1
    if status = LabelStatus.Missing ∧ runningLabel ≠ [] then
      let w := storeLabelWithCrc_ store K_PREV_LABEL K_PREV_CRC (some runningLabel)
      if w.2 then resetRollbackCount_ w.1 else w.1
    else if status = LabelStatus.Corrupted then
      (store.remove K_PREV_LABEL).remove K_PREV_CRC
    else store
  else store

/-- The part of `beginEarly()` from `readFailCounter_(prefs_)` to the end of the
`autoSavePrevSlot` block. -/
def beginEarlyPrelude (g : Guard) (p : Platform) (store : Store) : Prelude :=
  let rf := readFailCounter_ store true
  let runningLabel := (readRunningLabel_ p CRG_LABEL_BUFFER_SIZE).2
  let st := reconcilePending runningLabel rf.1 rf.2
  { st with store := autoSavePrev g runningLabel st.store }

/-- The crash-counting block of `beginEarly()`
(`if (fails < 0xFFFFFFFFu) { ... ++fails; writeFailCounter_(prefs_, fails); ... }`):
the value of `fails` and the store after it. -/
def countCrash (g : Guard) (fails : Nat) (store : Store) : Nat × Store :=
  if fails < 0xFFFFFFFF then
    let cap := if g.opt.failLimit > 0 then g.opt.failLimit else 0xFFFFFFFF
    if fails < cap then
      let fails := (fails + 1) % 2 ^ 32
      (fails, writeFailCounter_ store fails)
    else (fails, store)
  else (fails, store)

/-- The part of `beginEarly()` from `const bool suspicious = ...` to the end,
run on the locals left by the part before it. -/
def beginEarlyDecide (g : Guard) (p : Platform) (st : Prelude) : Res :=
  let suspicious : Bool := !st.pendingBoot && isSuspicious g g.resetReason
  if !suspicious then
    ⟨if st.fails ≠ 0 then writeFailCounter_ st.store 0 else st.store, [Event.nvsBegin],
      some Decision.None⟩
  else if !st.pendingBoot ∧ g.runningImgState = OtaState.INVALID then
    (attemptRollback_ g p st.store).after [Event.nvsBegin]
  else
    let counted := countCrash g st.fails st.store
    let fails := counted.1
    let store := counted.2
    if fails ≥ g.opt.failLimit ∧ g.opt.failLimit > 0 then
      if g.opt.maxRollbackAttempts > 0 then
        let guard := readRollbackCount_ store true
        if guard.1 ≥ g.opt.maxRollbackAttempts then
          (tryFactoryFallback_ g p guard.2 Decision.SkippedNoPrev).after [Event.nvsBegin]
        else (attemptRollback_ g p guard.2).after [Event.nvsBegin]
      else (attemptRollback_ g p store).after [Event.nvsBegin]
    else ⟨store, [Event.nvsBegin], some Decision.None⟩

/-- The function `beginEarly()`: the guard object afterwards and the outcome. -/
def beginEarly (g : Guard) (p : Platform) (store : Store) : Guard × Res :=
  let g := latchBoot g p
  if !p.nvsOpen then (g, ⟨store, [Event.nvsBegin], some Decision.None⟩)
  else (g, beginEarlyDecide g p (beginEarlyPrelude g p store))

/-! ## The write sequence of `storePendingAction_` -/

/-- The single-key writes `storePendingAction_(store, action, label)` performs
when none of them fails, in program order: `putUChar(K_PENDING_ACT, None)`;
then, for a non-empty label, `putString(K_PENDING_LABEL, label)` and
`putUInt(K_PENDING_CRC, crc)` (inside `storeLabelWithCrc_`), otherwise
`remove(K_PENDING_LABEL)` and `remove(K_PENDING_CRC)`; then
`putUChar(K_PENDING_ACT, action)`. -/
def storePendingActionWrites (action : PendingAction) (label : Option (List Nat)) :
    List (Store → Store) :=
  let hasLabel : Bool :=
    match label with
    | none => false
    | some l => decide (cstr l ≠ [])
  [fun st => (st.putUChar K_PENDING_ACT PendingAction.None.code).1] ++
    (if hasLabel then
      [fun st => (st.putString K_PENDING_LABEL (label.getD [])).1,
       fun st => (st.putUInt K_PENDING_CRC (crc32_ (cstr (label.getD [])))).1]
    else
      [fun st => st.remove K_PENDING_LABEL,
       fun st => st.remove K_PENDING_CRC]) ++
    [fun st => (st.putUChar K_PENDING_ACT action.code).1]

/-! ## The steps of `tryFactoryFallback_` -/

/-- One step of a routine: an operation on the store, or a run of platform
calls. -/
inductive Step where
  | onStore (f : Store → Store)
  | calls (es : List Event)

/-- Runs steps in order, from a store and the platform calls made so far. -/
def runSteps (steps : List Step) (start : Store × List Event) : Store × List Event :=
  steps.foldl
    (fun st step =>
      match step with
      | Step.onStore f => (f st.1, st.2)
      | Step.calls es => (st.1, st.2 ++ es))
    start

/-- The steps of `tryFactoryFallback_(store, failureDecision, cause)` past its
first `if`, in program order:
`storePendingAction_(store, PendingAction::RollbackFactory, opt_.factoryLabel)`;
`switchBootPartitionByLabel_(opt_.factoryLabel)`; then `esp_restart()` when the
switch succeeded and `clearPendingAction_(store)` when it failed. -/
def tryFactoryFallbackSteps (g : Guard) (p : Platform) : List Step :=
  [Step.onStore
      (fun st => storePendingAction_ st PendingAction.RollbackFactory g.opt.factoryLabel),
    Step.calls (switchBootPartitionByLabel_ p g.opt.factoryLabel).2,
    if (switchBootPartitionByLabel_ p g.opt.factoryLabel).1 then Step.calls [Event.restart]
    else Step.onStore clearPendingAction_]

/-! ## Health marking and the previous slot -/

/-- The function `markHealthyNow()`: the guard object and the store afterwards,
and the calls made. -/
def markHealthyNow (g : Guard) (p : Platform) (store : Store) : Guard × Store × List Event :=
  if g.healthyMarked then (g, store, [])
  else if !p.nvsOpen then (g, store, [Event.nvsBegin])
  else
    let rf := readFailCounter_ store true
    let fails := rf.1
    let rr := readRollbackCount_ rf.2 true
    let rbCnt := rr.1
    let needOtaMark := g.pendingVerify
    if fails = 0 ∧ rbCnt = 0 ∧ !needOtaMark then
      ({ g with healthyMarked := true }, rr.2, [Event.nvsBegin])
    else
      let store := resetRollbackCount_ (resetFailCounter_ rr.2)
      if g.pendingVerify then
        ({ g with pendingVerify := false, runningImgState := OtaState.VALID,
                  healthyMarked := true },
          store, [Event.nvsBegin, Event.otaMarkValid])
      else ({ g with healthyMarked := true }, store, [Event.nvsBegin])

/-- The time `(uint32_t)(millis() - stableStartMs_)` of `loopTick()`: a
subtraction of 32-bit unsigned values. -/
def stableElapsed (g : Guard) (p : Platform) : Nat :=
  (p.millis % 2 ^ 32 + 2 ^ 32 - g.stableStartMs % 2 ^ 32) % 2 ^ 32

/-- The function `loopTick()`. -/
def loopTick (g : Guard) (p : Platform) (store : Store) : Guard × Store × List Event :=
  if g.healthyMarked ∨ g.opt.stableTimeMs = 0 then (g, store, [])
  else if stableElapsed g p ≥ g.opt.stableTimeMs then markHealthyNow g p store
  else (g, store, [])

/-- The function `getPreviousSlot(out, len)` for a non-null `out`: its result,
the C string left in `out`, the store afterwards and the calls made (the reader
handle is opened first, the writer handle only to clear a corrupt record). -/
def getPreviousSlot (p : Platform) (store : Store) (len : Nat) :
    Bool × List Nat × Store × List Event :=
  if len = 0 then (false, [], store, [])
  else if !p.nvsOpen then (false, [], store, [Event.nvsBegin])
  else
    let r := loadLabelWithCrc_ store K_PREV_LABEL K_PREV_CRC len
    if r.1 = LabelStatus.Corrupted then
      if p.nvsOpen then
        (false, [], (store.remove K_PREV_LABEL).remove K_PREV_CRC,
          [Event.nvsBegin, Event.nvsBegin])
      else (false, [], store, [Event.nvsBegin, Event.nvsBegin])
    else if r.1 ≠ LabelStatus.Ok then (false, [], store, [Event.nvsBegin])
    else (true, r.2, store, [Event.nvsBegin])

/-! ## Vocabulary of the claims -/

/-- The fail counter holds the value `a`: either the valid pair
`(a, a ^ 0xFFFFFFFF)`, or no counter keys at all (which reads as 0). -/
def FailsReadAs (s : Store) (a : Nat) : Prop :=
  (s.fails = some a ∧ s.failsInv = some (a ^^^ 0xFFFFFFFF)) ∨
    (s.fails = none ∧ s.failsInv = none ∧ a = 0)

instance (s : Store) (a : Nat) : Decidable (FailsReadAs s a) := by
  unfold FailsReadAs
  infer_instance

/-- The rollback counter holds the value `a`: either the valid pair
`(a, a ^ 0xFF)`, or no counter keys at all (which reads as 0). -/
def RollbackReadsAs (s : Store) (a : Nat) : Prop :=
  (s.rbCnt = some a ∧ s.rbCntInv = some (a ^^^ 0xFF)) ∨
    (s.rbCnt = none ∧ s.rbCntInv = none ∧ a = 0)

instance (s : Store) (a : Nat) : Decidable (RollbackReadsAs s a) := by
  unfold RollbackReadsAs
  infer_instance

/-- A slot label in the sense of spec section 3: a non-empty string of at most
16 bytes, none of them NUL. -/
def SlotLabel (l : List Nat) : Prop :=
  l ≠ [] ∧ l.length ≤ 16 ∧ ∀ b ∈ l, b ≠ 0 ∧ b < 256

instance (l : List Nat) : Decidable (SlotLabel l) := by
  unfold SlotLabel
  infer_instance

/-- The key holds a string record. -/
def Key.isString (k : Key) : Bool :=
  k = Key.prev || k = Key.pendLbl

/-- The key holds a `uint32_t` record. -/
def Key.isUInt (k : Key) : Bool :=
  k = Key.fails || k = Key.failsInv || k = Key.prevCrc || k = Key.pendCrc

/-- The damage the claim about label records speaks of, taking a store `good`
to a store `bad`: one byte of the stored label replaced by a different, non-NUL
byte; or the stored CRC replaced by a different value; or the CRC key removed
while the label stays. -/
inductive LabelDamage (labelKey crcKey : Key) (good bad : Store) : Prop where
  | labelByte (p q : List Nat) (b b' : Nat)
      (hgood : good.strRecord labelKey = some (p ++ b :: q))
      (hbad : bad.strRecord labelKey = some (p ++ b' :: q))
      (hne : b' ≠ b) (hbyte : b' < 256) (hnul : b' ≠ 0)
      (hkey : bad.isKey crcKey = true)
      (hcrc : bad.getUInt crcKey 0 = good.getUInt crcKey 0) :
      LabelDamage labelKey crcKey good bad
  | crcValue
      (hlabel : bad.strRecord labelKey = good.strRecord labelKey)
      (hkey : bad.isKey crcKey = true)
      (hcrc : bad.getUInt crcKey 0 ≠ good.getUInt crcKey 0) :
      LabelDamage labelKey crcKey good bad
  | crcRemoved
      (hlabel : bad.strRecord labelKey = good.strRecord labelKey)
      (hkey : bad.isKey crcKey = false) :
      LabelDamage labelKey crcKey good bad

/-- No pending record: `pendAct` absent or `None`, `pendLbl` and `pendCrc`
absent (invariants I4 and I5 with nothing pending). -/
def PendingClear (s : Store) : Prop :=
  s.pendAct.getD 0 = 0 ∧ s.pendLbl = none ∧ s.pendCrc = none

instance (s : Store) : Decidable (PendingClear s) := by
  unfold PendingClear
  infer_instance

/-- The store left by the first `n` boots of a run in which boot `i` meets the
platform `boots i`: each boot calls `beginEarly()` on the store the one before
left behind (the application does not touch the store in between). -/
def bootRun (g : Guard) (boots : Nat → Platform) : Nat → Store → Store
  | 0, s => s
  | n + 1, s => (beginEarly g (boots n) (bootRun g boots n s)).2.store

/-- The slot label "app0". -/
def app0 : List Nat := [0x61, 0x70, 0x70, 0x30]

/-- The slot label "app1". -/
def app1 : List Nat := [0x61, 0x70, 0x70, 0x31]

/-- The configuration of the end-to-end scenarios of spec section 8:
`failLimit = 3`, `maxRollbackAttempts = 1`, `fallbackToFactory = false`. -/
def scenarioGuard : Guard :=
  { opt := { failLimit := 3, maxRollbackAttempts := 1, fallbackToFactory := false } }

/-- A platform for the scenarios of spec section 8: two application slots
"app0" and "app1", both VALID, every platform call succeeding; the reset reason
and the running slot are given. -/
def scenarioPlatform (reason : ResetReason) (running : List Nat) : Platform :=
  { resetReason := reason
    millis := 1000
    running := some ⟨0x10000, running⟩
    findApp := fun l =>
      if l = app0 then some ⟨0x10000, app0⟩
      else if l = app1 then some ⟨0x150000, app1⟩
      else none
    otaState := fun _ => some OtaState.VALID
    setBootOk := fun _ => true
    nvsOpen := true
    markValidOk := true }

/-- The complement check of `readFailCounter_` passes on the store: `fails`
XOR `failsInv` (an absent `failsInv` counting as the complement) is
`0xFFFFFFFF`. -/
def FailsPairValid (s : Store) : Prop :=
  s.getUInt K_FAILS 0 ^^^ s.getUInt K_FAILS_INV (s.getUInt K_FAILS 0 ^^^ 0xFFFFFFFF) = 0xFFFFFFFF

instance (s : Store) : Decidable (FailsPairValid s) := by
  unfold FailsPairValid
  infer_instance

/-- The complement check of `readRollbackCount_` passes on the store. -/
def RollbackPairValid (s : Store) : Prop :=
  (s.getUChar K_ROLL_COUNT 0 ^^^
    s.getUChar K_ROLL_COUNT_INV ((s.getUChar K_ROLL_COUNT 0 ^^^ 0xFF) % 256)) % 256 = 0xFF

instance (s : Store) : Decidable (RollbackPairValid s) := by
  unfold RollbackPairValid
  infer_instance

/-- A routine gave up with the decision `d`: it returned `d`, did not call
`esp_restart()`, and left no pending record behind. -/
def Res.refused (r : Res) (d : Decision) : Prop :=
  r.ret = some d ∧ Event.restart ∉ r.trace ∧ PendingClear r.store

instance (r : Res) (d : Decision) : Decidable (r.refused d) := by
  unfold Res.refused
  infer_instance

end crg

/-! # Theorems -/

set_option maxRecDepth 100000

namespace crg

/-! ## Bit-level facts -/

theorem xor_mask_iff (x y m : Nat) : x ^^^ (y ^^^ m) = m ↔ x = y := by
  rw [← Nat.xor_assoc]
  constructor
  · intro h
    have h2 : (x ^^^ y) ^^^ m = 0 ^^^ m := by simpa using h
    exact Nat.xor_eq_zero.mp (Nat.xor_left_injective h2)
  · intro h
    subst h
    simp

theorem xor_lt_u32 {x : Nat} (h : x < 2 ^ 32) : x ^^^ 0xFFFFFFFF < 2 ^ 32 :=
  Nat.xor_lt_two_pow h (by decide)

theorem xor_lt_u8 {x y : Nat} (hx : x < 256) (hy : y < 256) : x ^^^ y < 256 :=
  @Nat.xor_lt_two_pow x y 8 hx hy

/-! ## The CRC of the code is the CRC of the specification -/

theorem crcBit_eq_spec (x : Nat) : crcBit x = specCrcShift x := by
  unfold crcBit specCrcShift
  rcases Nat.mod_two_eq_zero_or_one x with h | h
  · have h1 : x &&& 1 = 0 := by rw [Nat.and_one_is_mod]; exact h
    simp [h1, h, Nat.shiftRight_one]
  · have h1 : x &&& 1 = 1 := by rw [Nat.and_one_is_mod]; exact h
    simp [h1, h, Nat.shiftRight_one]
    decide

theorem crcByte_eq_spec (x b : Nat) : crcByte x b = specCrcByte x b := by
  simp [crcByte, specCrcByte, crcBits, crcBit_eq_spec]

/-! ## Redundant counters -/

theorem readFailCounter_val (s : Store) (r : Bool) :
    (readFailCounter_ s r).1 = s.fails.getD 0 ∨ (readFailCounter_ s r).1 = 0 := by
  unfold readFailCounter_
  simp only [Store.getUInt, K_FAILS, K_FAILS_INV]
  split <;> simp

theorem readRollbackCount_val (s : Store) (r : Bool) :
    (readRollbackCount_ s r).1 = s.rbCnt.getD 0 ∨ (readRollbackCount_ s r).1 = 0 := by
  unfold readRollbackCount_
  simp only [Store.getUChar, K_ROLL_COUNT, K_ROLL_COUNT_INV]
  split <;> simp

theorem putUInt_fails (s : Store) (k : Key) (v : Nat) :
    (s.putUInt k v).1.fails = s.fails ∨
      (k = Key.fails ∧ (s.putUInt k v).1.fails = some (v % 2 ^ 32)) := by
  unfold Store.putUInt Store.tick
  cases k <;> (split <;> simp)

theorem putUChar_rbCnt (s : Store) (k : Key) (v : Nat) :
    (s.putUChar k v).1.rbCnt = s.rbCnt ∨
      (k = Key.rbCnt ∧ (s.putUChar k v).1.rbCnt = some (v % 256)) := by
  unfold Store.putUChar Store.tick
  cases k <;> (split <;> simp)

theorem writeFail_cut_fails (s : Store) (b k : Nat) :
    (runWrites ((writeFailCounterWrites b).take k) s).fails = s.fails ∨
    (runWrites ((writeFailCounterWrites b).take k) s).fails = some (b % 2 ^ 32) := by
  match k with
  | 0 => simp [runWrites]
  | 1 =>
    simp only [runWrites, writeFailCounterWrites, List.take, List.foldl, K_FAILS]
    rcases putUInt_fails s Key.fails b with h | ⟨_, h⟩
    · exact Or.inl h
    · exact Or.inr h
  | k + 2 =>
    simp only [runWrites, writeFailCounterWrites, List.take, List.foldl, List.take_nil, K_FAILS,
      K_FAILS_INV]
    rcases putUInt_fails (s.putUInt Key.fails b).1 Key.failsInv ((b % 2 ^ 32) ^^^ 0xFFFFFFFF)
      with h | ⟨h0, _⟩
    · rw [h]
      rcases putUInt_fails s Key.fails b with h | ⟨_, h⟩
      · exact Or.inl h
      · exact Or.inr h
    · exact absurd h0 (by decide)

theorem writeRollback_cut_rbCnt (s : Store) (b k : Nat) :
    (runWrites ((writeRollbackCountWrites b).take k) s).rbCnt = s.rbCnt ∨
    (runWrites ((writeRollbackCountWrites b).take k) s).rbCnt = some (b % 256) := by
  match k with
  | 0 => simp [runWrites]
  | 1 =>
    simp only [runWrites, writeRollbackCountWrites, List.take, List.foldl, K_ROLL_COUNT]
    rcases putUChar_rbCnt s Key.rbCnt b with h | ⟨_, h⟩
    · exact Or.inl h
    · exact Or.inr h
  | k + 2 =>
    simp only [runWrites, writeRollbackCountWrites, List.take, List.foldl, List.take_nil,
      K_ROLL_COUNT, K_ROLL_COUNT_INV]
    rcases putUChar_rbCnt (s.putUChar Key.rbCnt b).1 Key.rbCntInv ((b % 256) ^^^ 0xFF)
      with h | ⟨h0, _⟩
    · rw [h]
      rcases putUChar_rbCnt s Key.rbCnt b with h | ⟨_, h⟩
      · exact Or.inl h
      · exact Or.inr h
    · exact absurd h0 (by decide)

/-- C4: if `writeFailCounter_(b)` is cut off after any number `k` of its two
single-key writes (0: none, 1: only `fails`, 2 or more: both), the next
`readFailCounter_` on a counter that held `a` returns `a`, `b` or 0, whatever
the outcome of the individual writes; likewise for the 8-bit rollback counter
with `writeRollbackCount_` and `readRollbackCount_`. -/
theorem C4_interrupted_counter_write (s : Store) (a32 b32 a8 b8 k : Nat) (allowRepair : Bool)
    (hb32 : b32 < 2 ^ 32) (hb8 : b8 < 256)
    (hf : FailsReadAs s a32) (hr : RollbackReadsAs s a8) :
    ((readFailCounter_ (runWrites ((writeFailCounterWrites b32).take k) s) allowRepair).1 = a32 ∨
      (readFailCounter_ (runWrites ((writeFailCounterWrites b32).take k) s) allowRepair).1 = b32 ∨
      (readFailCounter_ (runWrites ((writeFailCounterWrites b32).take k) s) allowRepair).1 = 0) ∧
    ((readRollbackCount_ (runWrites ((writeRollbackCountWrites b8).take k) s) allowRepair).1 = a8 ∨
      (readRollbackCount_ (runWrites ((writeRollbackCountWrites b8).take k) s) allowRepair).1 = b8 ∨
      (readRollbackCount_ (runWrites ((writeRollbackCountWrites b8).take k) s) allowRepair).1 = 0) := by
  constructor
  · have hold : s.fails.getD 0 = a32 := by
      rcases hf with ⟨h1, _⟩ | ⟨h1, _, h3⟩
      · simp [h1]
      · simp [h1, h3]
    rcases readFailCounter_val (runWrites ((writeFailCounterWrites b32).take k) s) allowRepair
      with h | h
    · rcases writeFail_cut_fails s b32 k with h2 | h2
      · rw [h2, hold] at h; exact Or.inl h
      · rw [h2, Nat.mod_eq_of_lt hb32] at h; exact Or.inr (Or.inl h)
    · exact Or.inr (Or.inr h)
  · have hold : s.rbCnt.getD 0 = a8 := by
      rcases hr with ⟨h1, _⟩ | ⟨h1, _, h3⟩
      · simp [h1]
      · simp [h1, h3]
    rcases readRollbackCount_val (runWrites ((writeRollbackCountWrites b8).take k) s) allowRepair
      with h | h
    · rcases writeRollback_cut_rbCnt s b8 k with h2 | h2
      · rw [h2, hold] at h; exact Or.inl h
      · rw [h2, Nat.mod_eq_of_lt hb8] at h; exact Or.inr (Or.inl h)
    · exact Or.inr (Or.inr h)

/-- C8: `crc32_` computes the reference IEEE 802.3 CRC-32 of every byte
sequence; the empty input gives 0 and the ASCII bytes of "123456789" give
`0xCBF43926`. -/
theorem C8_crc32_is_ieee (data : List Nat) :
    crc32_ data = specCrc32 data ∧ crc32_ [] = 0 ∧
      crc32_ [0x31, 0x32, 0x33, 0x34, 0x35, 0x36, 0x37, 0x38, 0x39] = 0xCBF43926 := by
  refine ⟨?_, by decide, by decide⟩
  unfold crc32_ specCrc32
  have h : crcByte = specCrcByte := by
    funext x b
    exact crcByte_eq_spec x b
  rw [h]

/-- C9: without a user predicate `isSuspicious` is false for POWERON and EXT,
is `swResetCountsAsCrash` for SW, is `brownoutCountsAsCrash` for BROWNOUT and
is true for every other reset reason; with a user predicate it is the
predicate's answer, whatever the option flags are. -/
theorem C9_isSuspicious_policy (g : Guard) (pred : ResetReason → Bool) (r : ResetReason) :
    isSuspicious { g with suspiciousPred := none } ResetReason.POWERON = false ∧
    isSuspicious { g with suspiciousPred := none } ResetReason.EXT = false ∧
    isSuspicious { g with suspiciousPred := none } ResetReason.SW = g.opt.swResetCountsAsCrash ∧
    isSuspicious { g with suspiciousPred := none } ResetReason.BROWNOUT
      = g.opt.brownoutCountsAsCrash ∧
    (r = ResetReason.POWERON ∨ r = ResetReason.EXT ∨ r = ResetReason.SW ∨
      r = ResetReason.BROWNOUT ∨ isSuspicious { g with suspiciousPred := none } r = true) ∧
    isSuspicious { g with suspiciousPred := some pred } r = pred r := by
  refine ⟨?_, ?_, ?_, ?_, ?_, ?_⟩ <;> simp [isSuspicious]
  cases r <;> simp

/-! ## CRC-32: range and injectivity -/

theorem specCrcShift_lt {x : Nat} (h : x < 2 ^ 32) : specCrcShift x < 2 ^ 32 := by
  unfold specCrcShift
  have h2 : x / 2 < 2 ^ 32 := by omega
  split
  · exact Nat.xor_lt_two_pow h2 (by decide)
  · exact h2

theorem specCrcUnshift_shift {x : Nat} (h : x < 2 ^ 32) : specCrcUnshift (specCrcShift x) = x := by
  unfold specCrcShift specCrcUnshift
  have h2 : x / 2 < 2 ^ 31 := by omega
  split
  · next hodd =>
    have hb : (x / 2 ^^^ 0xEDB88320).testBit 31 = true := by
      rw [Nat.testBit_xor, Nat.testBit_lt_two_pow h2]
      decide
    have hge : x / 2 ^^^ 0xEDB88320 ≥ 2 ^ 31 := Nat.testBit_implies_ge hb
    rw [if_pos hge, Nat.xor_cancel_right]
    omega
  · next heven =>
    rw [if_neg (by omega)]
    omega

theorem crcBits_lt (n : Nat) {x : Nat} (h : x < 2 ^ 32) : crcBits n x < 2 ^ 32 := by
  induction n generalizing x with
  | zero => simpa [crcBits] using h
  | succ n ih =>
    simp only [crcBits]
    apply ih
    rw [crcBit_eq_spec]
    exact specCrcShift_lt h

theorem crcBits_inj (n : Nat) {x y : Nat} (hx : x < 2 ^ 32) (hy : y < 2 ^ 32)
    (h : crcBits n x = crcBits n y) : x = y := by
  induction n generalizing x y with
  | zero => simpa [crcBits] using h
  | succ n ih =>
    simp only [crcBits, crcBit_eq_spec] at h
    have h2 := ih (specCrcShift_lt hx) (specCrcShift_lt hy) h
    have h3 := congrArg specCrcUnshift h2
    rwa [specCrcUnshift_shift hx, specCrcUnshift_shift hy] at h3

theorem crcByte_lt {x : Nat} (b : Nat) (h : x < 2 ^ 32) : crcByte x b < 2 ^ 32 := by
  unfold crcByte
  apply crcBits_lt
  exact Nat.xor_lt_two_pow h (by omega)

theorem crcByte_inj {x y : Nat} (b : Nat) (hx : x < 2 ^ 32) (hy : y < 2 ^ 32)
    (h : crcByte x b = crcByte y b) : x = y := by
  unfold crcByte at h
  have hb : b % 256 < 2 ^ 32 := by omega
  have h2 := crcBits_inj 8 (Nat.xor_lt_two_pow hx hb) (Nat.xor_lt_two_pow hy hb) h
  exact Nat.xor_left_injective h2

theorem foldl_crcByte_lt (q : List Nat) {x : Nat} (h : x < 2 ^ 32) :
    q.foldl crcByte x < 2 ^ 32 := by
  induction q generalizing x with
  | nil => simpa using h
  | cons b q ih => exact ih (crcByte_lt b h)

theorem foldl_crcByte_inj (q : List Nat) {x y : Nat} (hx : x < 2 ^ 32) (hy : y < 2 ^ 32)
    (h : q.foldl crcByte x = q.foldl crcByte y) : x = y := by
  induction q generalizing x y with
  | nil => simpa using h
  | cons b q ih =>
    exact crcByte_inj b hx hy (ih (crcByte_lt b hx) (crcByte_lt b hy) h)

theorem crc32_lt (data : List Nat) : crc32_ data < 2 ^ 32 := by
  unfold crc32_
  exact xor_lt_u32 (foldl_crcByte_lt data (by decide))

/-- Two byte strings that differ in exactly one byte have different CRCs. -/
theorem crc32_one_byte (p q : List Nat) (b b' : Nat) (hb : b < 256) (hb' : b' < 256)
    (hne : b ≠ b') : crc32_ (p ++ b :: q) ≠ crc32_ (p ++ b' :: q) := by
  intro h
  unfold crc32_ at h
  have h1 := Nat.xor_left_injective h
  simp only [List.foldl_append, List.foldl_cons] at h1
  have hp : p.foldl crcByte 0xFFFFFFFF < 2 ^ 32 := foldl_crcByte_lt p (by decide)
  have h2 := foldl_crcByte_inj q (crcByte_lt b hp) (crcByte_lt b' hp) h1
  unfold crcByte at h2
  have h3 := crcBits_inj 8 (Nat.xor_lt_two_pow hp (by omega)) (Nat.xor_lt_two_pow hp (by omega)) h2
  have h4 := Nat.xor_right_injective h3
  rw [Nat.mod_eq_of_lt hb, Nat.mod_eq_of_lt hb'] at h4
  exact hne h4

theorem cstr_eq_self {l : List Nat} (h : ∀ b ∈ l, b ≠ 0) : cstr l = l := by
  unfold cstr
  rw [List.takeWhile_eq_self_iff]
  intro b hb
  simpa using h b hb

/-! ## Label records -/

theorem storeLabelWithCrc_ok (s : Store) (labelKey crcKey : Key) (L : List Nat)
    (hk : labelKey.isString = true) (hc : crcKey.isUInt = true)
    (hne : L ≠ []) (hnul : ∀ b ∈ L, b ≠ 0) (hw : s.failAfter = []) :
    (storeLabelWithCrc_ s labelKey crcKey (some L)).2 = true ∧
    (storeLabelWithCrc_ s labelKey crcKey (some L)).1.strRecord labelKey = some L ∧
    (storeLabelWithCrc_ s labelKey crcKey (some L)).1.isKey crcKey = true ∧
    (storeLabelWithCrc_ s labelKey crcKey (some L)).1.getUInt crcKey 0 = crc32_ L := by
  have hcs := cstr_eq_self hnul
  have hcrc : crc32_ L % 4294967296 = crc32_ L := Nat.mod_eq_of_lt (crc32_lt L)
  have hlen : 0 < L.length := List.length_pos.mpr hne
  have hlen' : L.length ≠ 0 := by omega
  cases labelKey <;> simp [Key.isString] at hk <;>
    cases crcKey <;> simp [Key.isUInt] at hc <;>
      simp [storeLabelWithCrc_, storeLabelPref_, Store.putString, Store.putUInt, Store.tick, hw,
        hcs, hcrc, hlen, hlen', Store.strRecord, Store.isKey, Store.getUInt]

theorem loadLabelWithCrc_of (s : Store) (labelKey crcKey : Key) (L : List Nat)
    (hL : s.strRecord labelKey = some L) (hlen : L.length ≤ 16) (hnul : ∀ b ∈ L, b ≠ 0) :
    loadLabelWithCrc_ s labelKey crcKey CRG_LABEL_BUFFER_SIZE =
      if s.isKey crcKey = true ∧ s.getUInt crcKey 0 = crc32_ L then (LabelStatus.Ok, L)
      else (LabelStatus.Corrupted, []) := by
  have hcs := cstr_eq_self hnul
  have h17 : ¬ (17 < L.length + 1) := by omega
  simp only [loadLabelWithCrc_, Store.getString, hL, CRG_LABEL_BUFFER_SIZE]
  by_cases hk : s.isKey crcKey = true <;> by_cases hc : s.getUInt crcKey 0 = crc32_ L <;>
    simp [hk, hc, hcs, h17]

/-! ## Claims about the counters, the label records and the CRC -/

/-- Witness of C4: a fail counter holding 5 and a rollback counter holding 1,
each rewritten (to 9 and to 2) and cut off after the first write. -/
theorem C4_interrupted_counter_write_witness :
    ((readFailCounter_ (runWrites ((writeFailCounterWrites 9).take 1)
        { fails := some 5, failsInv := some 0xFFFFFFFA, rbCnt := some 1, rbCntInv := some 0xFE })
        true).1 = 5 ∨
      (readFailCounter_ (runWrites ((writeFailCounterWrites 9).take 1)
        { fails := some 5, failsInv := some 0xFFFFFFFA, rbCnt := some 1, rbCntInv := some 0xFE })
        true).1 = 9 ∨
      (readFailCounter_ (runWrites ((writeFailCounterWrites 9).take 1)
        { fails := some 5, failsInv := some 0xFFFFFFFA, rbCnt := some 1, rbCntInv := some 0xFE })
        true).1 = 0) ∧
    ((readRollbackCount_ (runWrites ((writeRollbackCountWrites 2).take 1)
        { fails := some 5, failsInv := some 0xFFFFFFFA, rbCnt := some 1, rbCntInv := some 0xFE })
        true).1 = 1 ∨
      (readRollbackCount_ (runWrites ((writeRollbackCountWrites 2).take 1)
        { fails := some 5, failsInv := some 0xFFFFFFFA, rbCnt := some 1, rbCntInv := some 0xFE })
        true).1 = 2 ∨
      (readRollbackCount_ (runWrites ((writeRollbackCountWrites 2).take 1)
        { fails := some 5, failsInv := some 0xFFFFFFFA, rbCnt := some 1, rbCntInv := some 0xFE })
        true).1 = 0) :=
  C4_interrupted_counter_write
    { fails := some 5, failsInv := some 0xFFFFFFFA, rbCnt := some 1, rbCntInv := some 0xFE }
    5 9 1 2 1 true (by decide) (by decide) (by decide) (by decide)

/-- C5: for each redundant counter with both keys stored: if value XOR
complement is not the all-ones mask of its width, the read returns 0 and, when
repair is allowed (and the store accepts the writes), leaves the store holding
the pair (0, all-ones) and nothing else changed; if value XOR complement is the
all-ones mask, the read returns the stored value and leaves the store as it
was. -/
theorem C5_counter_read (s : Store) (v32 c32 v8 c8 : Nat) (allowRepair : Bool) :
    (s.fails = some v32 → s.failsInv = some c32 →
      (v32 ^^^ c32 ≠ 0xFFFFFFFF →
        (readFailCounter_ s allowRepair).1 = 0 ∧
        (allowRepair = true → s.failAfter = [] →
          (readFailCounter_ s allowRepair).2
            = { s with fails := some 0, failsInv := some 0xFFFFFFFF })) ∧
      (v32 ^^^ c32 = 0xFFFFFFFF → readFailCounter_ s allowRepair = (v32, s))) ∧
    (s.rbCnt = some v8 → s.rbCntInv = some c8 → v8 < 256 → c8 < 256 →
      (v8 ^^^ c8 ≠ 0xFF →
        (readRollbackCount_ s allowRepair).1 = 0 ∧
        (allowRepair = true → s.failAfter = [] →
          (readRollbackCount_ s allowRepair).2
            = { s with rbCnt := some 0, rbCntInv := some 0xFF })) ∧
      (v8 ^^^ c8 = 0xFF → readRollbackCount_ s allowRepair = (v8, s))) := by
  constructor
  · intro h1 h2
    constructor
    · intro hx
      constructor
      · simp [readFailCounter_, Store.getUInt, K_FAILS, K_FAILS_INV, h1, h2, hx]
      · intro hr hw
        simp [readFailCounter_, Store.getUInt, K_FAILS, K_FAILS_INV, h1, h2, hx, hr,
          writeFailCounter_, runWrites, writeFailCounterWrites, Store.putUInt, Store.tick, hw]
    · intro hx
      simp [readFailCounter_, Store.getUInt, K_FAILS, K_FAILS_INV, h1, h2, hx]
  · intro h1 h2 hv hc
    have hlt : (v8 ^^^ c8) % 256 = v8 ^^^ c8 := Nat.mod_eq_of_lt (xor_lt_u8 hv hc)
    constructor
    · intro hx
      constructor
      · simp [readRollbackCount_, Store.getUChar, K_ROLL_COUNT, K_ROLL_COUNT_INV, h1, h2, hx,
          hlt]
      · intro hr hw
        simp [readRollbackCount_, Store.getUChar, K_ROLL_COUNT, K_ROLL_COUNT_INV, h1, h2, hx,
          hr, hlt, writeRollbackCount_, runWrites, writeRollbackCountWrites, Store.putUChar,
          Store.tick, hw]
    · intro hx
      simp [readRollbackCount_, Store.getUChar, K_ROLL_COUNT, K_ROLL_COUNT_INV, h1, h2, hx, hlt]

/-- Witness of C5: a store whose fail counter pair (5, 7) is corrupt and whose
rollback counter pair (3, 0xFC) is valid: the fail counter reads 0 and is
repaired to (0, 0xFFFFFFFF), the rollback counter reads 3 and nothing is
written. -/
theorem C5_counter_read_witness :
    ((readFailCounter_
        { fails := some 5, failsInv := some 7, rbCnt := some 3, rbCntInv := some 0xFC } true).1 = 0 ∧
      (readFailCounter_
        { fails := some 5, failsInv := some 7, rbCnt := some 3, rbCntInv := some 0xFC } true).2
        = { fails := some 0, failsInv := some 0xFFFFFFFF, rbCnt := some 3,
            rbCntInv := some 0xFC }) ∧
    readRollbackCount_
        { fails := some 5, failsInv := some 7, rbCnt := some 3, rbCntInv := some 0xFC } true
      = (3, { fails := some 5, failsInv := some 7, rbCnt := some 3, rbCntInv := some 0xFC }) :=
  ⟨⟨(((C5_counter_read
          { fails := some 5, failsInv := some 7, rbCnt := some 3, rbCntInv := some 0xFC }
          5 7 3 0xFC true).1 rfl rfl).1 (by decide)).1,
      (((C5_counter_read
          { fails := some 5, failsInv := some 7, rbCnt := some 3, rbCntInv := some 0xFC }
          5 7 3 0xFC true).1 rfl rfl).1 (by decide)).2 rfl rfl⟩,
    ((C5_counter_read
        { fails := some 5, failsInv := some 7, rbCnt := some 3, rbCntInv := some 0xFC }
        5 7 3 0xFC true).2 rfl rfl (by decide) (by decide)).2 (by decide)⟩

/-- C6: for every non-empty label `L` of at most 16 bytes without a NUL, every
string key and `uint32_t` key, and every store whose writes succeed,
`storeLabelWithCrc_` succeeds and `loadLabelWithCrc_` with a 17-byte buffer then
returns `LabelStatus::Ok` with the output equal to `L`. -/
theorem C6_label_roundtrip (s : Store) (labelKey crcKey : Key) (L : List Nat)
    (hk : labelKey.isString = true) (hc : crcKey.isUInt = true)
    (hne : L ≠ []) (hlen : L.length ≤ 16) (hnul : ∀ b ∈ L, b ≠ 0) (hw : s.failAfter = []) :
    (storeLabelWithCrc_ s labelKey crcKey (some L)).2 = true ∧
    loadLabelWithCrc_ (storeLabelWithCrc_ s labelKey crcKey (some L)).1 labelKey crcKey
      CRG_LABEL_BUFFER_SIZE = (LabelStatus.Ok, L) := by
  obtain ⟨h1, h2, h3, h4⟩ := storeLabelWithCrc_ok s labelKey crcKey L hk hc hne hnul hw
  refine ⟨h1, ?_⟩
  rw [loadLabelWithCrc_of _ labelKey crcKey L h2 hlen hnul]
  simp [h3, h4]

/-- Witness of C6: the label "app1" stored under `prev` / `prevCrc` in an empty
store. -/
theorem C6_label_roundtrip_witness :
    (storeLabelWithCrc_ {} K_PREV_LABEL K_PREV_CRC (some [0x61, 0x70, 0x70, 0x31])).2 = true ∧
    loadLabelWithCrc_
      (storeLabelWithCrc_ {} K_PREV_LABEL K_PREV_CRC (some [0x61, 0x70, 0x70, 0x31])).1
      K_PREV_LABEL K_PREV_CRC CRG_LABEL_BUFFER_SIZE = (LabelStatus.Ok, [0x61, 0x70, 0x70, 0x31]) :=
  C6_label_roundtrip {} K_PREV_LABEL K_PREV_CRC [0x61, 0x70, 0x70, 0x31]
    (by decide) (by decide) (by decide) (by decide) (by decide) rfl

/-- C7, the claim as stated fails: the label "a5DU]V" is written with its CRC
(`0xE8B7BE43`, which is also the CRC of "a"); its second byte is then changed
to a different value, NUL; `loadLabelWithCrc_` reads the buffer as the C string
"a", finds the CRC matching and returns `LabelStatus::Ok` with the output "a". -/
theorem C7_counterexample :
    (storeLabelWithCrc_ {} K_PREV_LABEL K_PREV_CRC (some [0x61, 0x35, 0x44, 0x55, 0x5D, 0x56]))
      = ({ prev := some [0x61, 0x35, 0x44, 0x55, 0x5D, 0x56], prevCrc := some 0xE8B7BE43 },
          true) ∧
    loadLabelWithCrc_
      { prev := some [0x61, 0x00, 0x44, 0x55, 0x5D, 0x56], prevCrc := some 0xE8B7BE43 }
      K_PREV_LABEL K_PREV_CRC CRG_LABEL_BUFFER_SIZE = (LabelStatus.Ok, [0x61]) := by
  constructor <;> decide

/-- C7 as amended: for every label record written by `storeLabelWithCrc_` for a
slot label `L` (non-empty, at most 16 bytes, no NUL): if afterwards a single
byte of the stored label is changed to a different value other than NUL, or the
stored CRC is changed, or the CRC key is removed while the label remains, then
`loadLabelWithCrc_` returns `LabelStatus::Corrupted` with an empty output. -/
theorem C7_damaged_label_is_corrupted (s bad : Store) (labelKey crcKey : Key) (L : List Nat)
    (hk : labelKey.isString = true) (hc : crcKey.isUInt = true)
    (hL : SlotLabel L) (hw : s.failAfter = [])
    (hd : LabelDamage labelKey crcKey (storeLabelWithCrc_ s labelKey crcKey (some L)).1 bad) :
    loadLabelWithCrc_ bad labelKey crcKey CRG_LABEL_BUFFER_SIZE = (LabelStatus.Corrupted, []) := by
  obtain ⟨hne, hlen, hbytes⟩ := hL
  have hnul : ∀ b ∈ L, b ≠ 0 := fun b hb => (hbytes b hb).1
  obtain ⟨_, h2, h3, h4⟩ := storeLabelWithCrc_ok s labelKey crcKey L hk hc hne hnul hw
  cases hd with
  | labelByte p q b b' hgood hbad hne' hbyte hnul' hkey hcrc =>
    rw [h2] at hgood
    have hLeq : L = p ++ b :: q := Option.some.inj hgood
    have hlen2 : (p ++ b' :: q).length ≤ 16 := by
      have : (p ++ b' :: q).length = L.length := by simp [hLeq]
      omega
    have hnul2 : ∀ x ∈ p ++ b' :: q, x ≠ 0 := by
      intro x hx
      simp only [List.mem_append, List.mem_cons] at hx
      rcases hx with hx | hx | hx
      · exact hnul x (by simp [hLeq, hx])
      · rw [hx]; exact hnul'
      · exact hnul x (by simp [hLeq, hx])
    have hb : b < 256 := (hbytes b (by simp [hLeq])).2
    rw [loadLabelWithCrc_of bad labelKey crcKey _ hbad hlen2 hnul2]
    have hdiff := crc32_one_byte p q b b' hb hbyte (Ne.symm hne')
    rw [hcrc, h4, hLeq]
    simp [hdiff]
  | crcValue hlabel hkey hcrc =>
    rw [h2] at hlabel
    rw [loadLabelWithCrc_of bad labelKey crcKey L hlabel hlen hnul]
    rw [h4] at hcrc
    simp [hcrc]
  | crcRemoved hlabel hkey =>
    rw [h2] at hlabel
    rw [loadLabelWithCrc_of bad labelKey crcKey L hlabel hlen hnul]
    simp [hkey]

/-- Witness of C7: the record of "app1" with its first byte changed to "b". -/
theorem C7_damaged_label_is_corrupted_witness :
    loadLabelWithCrc_ { prev := some [0x62, 0x70, 0x70, 0x31], prevCrc := some 2295226086 }
      K_PREV_LABEL K_PREV_CRC CRG_LABEL_BUFFER_SIZE = (LabelStatus.Corrupted, []) :=
  C7_damaged_label_is_corrupted {}
    { prev := some [0x62, 0x70, 0x70, 0x31], prevCrc := some 2295226086 }
    K_PREV_LABEL K_PREV_CRC [0x61, 0x70, 0x70, 0x31] (by decide) (by decide) (by decide) rfl
    (LabelDamage.labelByte [] [0x70, 0x70, 0x31] 0x61 0x62 (by decide) (by decide) (by decide)
      (by decide) (by decide) (by decide) (by decide))

/-! ## Store operations when every write succeeds -/

theorem clearPendingAction_ok (s : Store) (hw : s.failAfter = []) :
    clearPendingAction_ s = { s with pendAct := some 0, pendLbl := none, pendCrc := none } := by
  simp [clearPendingAction_, Store.putUChar, Store.tick, hw, K_PENDING_ACT, K_PENDING_LABEL,
    K_PENDING_CRC, Store.remove, PendingAction.code]

theorem writeFailCounter_ok (s : Store) (v : Nat) (hw : s.failAfter = []) :
    writeFailCounter_ s v =
      { s with fails := some (v % 2 ^ 32), failsInv := some ((v % 2 ^ 32) ^^^ 0xFFFFFFFF) } := by
  have h : ((v % 2 ^ 32) ^^^ 0xFFFFFFFF) % 2 ^ 32 = (v % 2 ^ 32) ^^^ 0xFFFFFFFF :=
    Nat.mod_eq_of_lt (xor_lt_u32 (Nat.mod_lt _ (by decide)))
  simp only [Nat.reducePow] at h
  simp [writeFailCounter_, runWrites, writeFailCounterWrites, Store.putUInt, Store.tick, hw,
    K_FAILS, K_FAILS_INV, h]

theorem writeRollbackCount_ok (s : Store) (v : Nat) (hw : s.failAfter = []) :
    writeRollbackCount_ s v =
      { s with rbCnt := some (v % 256), rbCntInv := some ((v % 256) ^^^ 0xFF) } := by
  have h : ((v % 256) ^^^ 0xFF) % 256 = (v % 256) ^^^ 0xFF :=
    Nat.mod_eq_of_lt (xor_lt_u8 (Nat.mod_lt _ (by decide)) (by decide))
  simp [writeRollbackCount_, runWrites, writeRollbackCountWrites, Store.putUChar, Store.tick, hw,
    K_ROLL_COUNT, K_ROLL_COUNT_INV, h]

theorem ofCode_eq_None {raw : Nat} (h : raw ≤ 3) :
    PendingAction.ofCode raw = PendingAction.None ↔ raw = 0 := by
  unfold PendingAction.ofCode
  interval_cases raw <;> simp

theorem readPendingAction_store (s : Store) (buf : Option Nat) (hw : s.failAfter = []) :
    (readPendingAction_ s buf).2.2.failAfter = [] ∧
    (readPendingAction_ s buf).2.2.fails = s.fails ∧
    (readPendingAction_ s buf).2.2.failsInv = s.failsInv ∧
    (readPendingAction_ s buf).2.2.rbCnt = s.rbCnt ∧
    (readPendingAction_ s buf).2.2.rbCntInv = s.rbCntInv ∧
    (readPendingAction_ s buf).2.2.prev = s.prev ∧
    (readPendingAction_ s buf).2.2.prevCrc = s.prevCrc ∧
    ((readPendingAction_ s buf).1 = PendingAction.None → PendingClear (readPendingAction_ s buf).2.2) ∧
    ((readPendingAction_ s buf).1 ≠ PendingAction.None → (readPendingAction_ s buf).2.2 = s) := by
  unfold readPendingAction_
  simp only [clearPendingAction_ok s hw]
  split_ifs with h1 h2 <;>
    simp_all [PendingClear, Store.remove, K_PENDING_LABEL, K_PENDING_CRC, Store.isKey,
      Store.getUChar, K_PENDING_ACT, PendingAction.code, ofCode_eq_None]
  

theorem reconcilePending_clear (rl : List Nat) (f : Nat) (s : Store) (hw : s.failAfter = []) :
    PendingClear (reconcilePending rl f s).store ∧
    (reconcilePending rl f s).store.failAfter = [] ∧
    (reconcilePending rl f s).store.rbCnt = s.rbCnt ∧
    (reconcilePending rl f s).store.rbCntInv = s.rbCntInv ∧
    (reconcilePending rl f s).store.prev = s.prev ∧
    (reconcilePending rl f s).store.prevCrc = s.prevCrc ∧
    (((reconcilePending rl f s).pendingBoot = false ∧ (reconcilePending rl f s).fails = f ∧
        (reconcilePending rl f s).store.fails = s.fails ∧
        (reconcilePending rl f s).store.failsInv = s.failsInv) ∨
      ((reconcilePending rl f s).pendingBoot = true ∧ (reconcilePending rl f s).fails = 0 ∧
        (reconcilePending rl f s).store.fails = some 0 ∧
        (reconcilePending rl f s).store.failsInv = some 0xFFFFFFFF)) := by
  obtain ⟨h1, h2, h3, h4, h5, h6, h7, h8, h9⟩ := readPendingAction_store s (some CRG_LABEL_BUFFER_SIZE) hw
  unfold reconcilePending
  by_cases hn : (readPendingAction_ s (some CRG_LABEL_BUFFER_SIZE)).1 = PendingAction.None
  · simp [hn, h8 hn, h1, h2, h3, h4, h5, h6, h7]
  · have h10 := h9 hn
    simp only [hn, ne_eq, not_false_eq_true, if_true, h10]
    simp only [resetFailCounter_, clearPendingAction_ok s hw]
    rw [writeFailCounter_ok _ _ (by simpa using hw)]
    split_ifs <;> simp [PendingClear, hw]

theorem readFailCounter_frame (s : Store) (hw : s.failAfter = []) :
    (readFailCounter_ s true).2.failAfter = [] ∧
    (readFailCounter_ s true).2.rbCnt = s.rbCnt ∧
    (readFailCounter_ s true).2.rbCntInv = s.rbCntInv ∧
    (readFailCounter_ s true).2.prev = s.prev ∧
    (readFailCounter_ s true).2.prevCrc = s.prevCrc ∧
    (readFailCounter_ s true).2.pendAct = s.pendAct ∧
    (readFailCounter_ s true).2.pendLbl = s.pendLbl ∧
    (readFailCounter_ s true).2.pendCrc = s.pendCrc ∧
    (readFailCounter_ (readFailCounter_ s true).2 true).1 = (readFailCounter_ s true).1 := by
  unfold readFailCounter_
  simp only [writeFailCounter_ok _ _ hw]
  split_ifs <;> simp_all [Store.getUInt, K_FAILS, K_FAILS_INV]

theorem readFailCounter_congr (s t : Store) (r r' : Bool) (h1 : s.fails = t.fails)
    (h2 : s.failsInv = t.failsInv) : (readFailCounter_ s r).1 = (readFailCounter_ t r').1 := by
  unfold readFailCounter_
  simp only [Store.getUInt, K_FAILS, K_FAILS_INV, h1, h2]
  split_ifs <;> rfl

theorem readRollbackCount_congr (s t : Store) (r r' : Bool) (h1 : s.rbCnt = t.rbCnt)
    (h2 : s.rbCntInv = t.rbCntInv) : (readRollbackCount_ s r).1 = (readRollbackCount_ t r').1 := by
  unfold readRollbackCount_
  simp only [Store.getUChar, K_ROLL_COUNT, K_ROLL_COUNT_INV, h1, h2]
  split_ifs <;> rfl

theorem readFailCounter_pair (s : Store) (v : Nat) (h1 : s.fails = some v)
    (h2 : s.failsInv = some (v ^^^ 0xFFFFFFFF)) (r : Bool) : readFailCounter_ s r = (v, s) := by
  simp [readFailCounter_, Store.getUInt, K_FAILS, K_FAILS_INV, h1, h2, xor_mask_iff]

theorem readRollbackCount_frame (s : Store) (hw : s.failAfter = []) :
    (readRollbackCount_ s true).2.failAfter = [] ∧
    (readRollbackCount_ s true).2.fails = s.fails ∧
    (readRollbackCount_ s true).2.failsInv = s.failsInv ∧
    (readRollbackCount_ s true).2.prev = s.prev ∧
    (readRollbackCount_ s true).2.prevCrc = s.prevCrc ∧
    (readRollbackCount_ s true).2.pendAct = s.pendAct ∧
    (readRollbackCount_ s true).2.pendLbl = s.pendLbl ∧
    (readRollbackCount_ s true).2.pendCrc = s.pendCrc := by
  unfold readRollbackCount_
  simp only [writeRollbackCount_ok _ _ hw]
  split_ifs <;> simp_all

theorem storeLabelWithCrc_prev_frame (s : Store) (v : Option (List Nat)) (hw : s.failAfter = []) :
    (storeLabelWithCrc_ s K_PREV_LABEL K_PREV_CRC v).1.failAfter = [] ∧
    (storeLabelWithCrc_ s K_PREV_LABEL K_PREV_CRC v).1.fails = s.fails ∧
    (storeLabelWithCrc_ s K_PREV_LABEL K_PREV_CRC v).1.failsInv = s.failsInv ∧
    (storeLabelWithCrc_ s K_PREV_LABEL K_PREV_CRC v).1.rbCnt = s.rbCnt ∧
    (storeLabelWithCrc_ s K_PREV_LABEL K_PREV_CRC v).1.rbCntInv = s.rbCntInv ∧
    (storeLabelWithCrc_ s K_PREV_LABEL K_PREV_CRC v).1.pendAct = s.pendAct ∧
    (storeLabelWithCrc_ s K_PREV_LABEL K_PREV_CRC v).1.pendLbl = s.pendLbl ∧
    (storeLabelWithCrc_ s K_PREV_LABEL K_PREV_CRC v).1.pendCrc = s.pendCrc := by
  cases v with
  | none => simp [storeLabelWithCrc_, hw]
  | some l =>
    simp only [storeLabelWithCrc_, storeLabelPref_, Store.putString, Store.putUInt, Store.tick, hw,
      K_PREV_LABEL, K_PREV_CRC, Store.remove]
    split_ifs <;> simp_all

theorem autoSavePrev_frame (g : Guard) (rl : List Nat) (s : Store) (hw : s.failAfter = []) :
    (autoSavePrev g rl s).failAfter = [] ∧
    (autoSavePrev g rl s).fails = s.fails ∧
    (autoSavePrev g rl s).failsInv = s.failsInv ∧
    (autoSavePrev g rl s).pendAct = s.pendAct ∧
    (autoSavePrev g rl s).pendLbl = s.pendLbl ∧
    (autoSavePrev g rl s).pendCrc = s.pendCrc ∧
    (((autoSavePrev g rl s).rbCnt = s.rbCnt ∧ (autoSavePrev g rl s).rbCntInv = s.rbCntInv) ∨
      ((autoSavePrev g rl s).rbCnt = some 0 ∧ (autoSavePrev g rl s).rbCntInv = some 0xFF)) := by
  obtain ⟨h1, h2, h3, h4, h5, h6, h7, h8⟩ := storeLabelWithCrc_prev_frame s (some rl) hw
  unfold autoSavePrev
  simp only [resetRollbackCount_, writeRollbackCount_ok _ _ h1]
  split_ifs <;> simp_all [Store.remove, K_PREV_LABEL, K_PREV_CRC]

theorem storeLabelWithCrc_pend_ok (s : Store) (L : List Nat) (hne : cstr L ≠ [])
    (hw : s.failAfter = []) :
    storeLabelWithCrc_ s K_PENDING_LABEL K_PENDING_CRC (some L) =
      ({ s with pendLbl := some (cstr L), pendCrc := some (crc32_ (cstr L)) }, true) := by
  have hcrc : crc32_ (cstr L) % 4294967296 = crc32_ (cstr L) := Nat.mod_eq_of_lt (crc32_lt _)
  have hlen : 0 < (cstr L).length := List.length_pos.mpr hne
  have hlen' : (cstr L).length ≠ 0 := by omega
  simp [storeLabelWithCrc_, storeLabelPref_, Store.putString, Store.putUInt, Store.tick, hw,
    hcrc, hlen, hlen', K_PENDING_LABEL, K_PENDING_CRC, hne]

/-- The record `storePendingAction_` leaves when every write succeeds. -/
theorem storePendingAction_ok (s : Store) (a : PendingAction) (label : Option (List Nat))
    (hw : s.failAfter = []) :
    storePendingAction_ s a label =
      match label with
      | none => { s with pendAct := some a.code, pendLbl := none, pendCrc := none }
      | some l =>
        if cstr l = [] then { s with pendAct := some a.code, pendLbl := none, pendCrc := none }
        else { s with pendAct := some a.code, pendLbl := some (cstr l),
                      pendCrc := some (crc32_ (cstr l)) } := by
  have hcode : a.code % 256 = a.code := by cases a <;> rfl
  cases label with
  | none =>
    simp [storePendingAction_, Store.putUChar, Store.tick, hw, K_PENDING_ACT, Store.remove,
      K_PENDING_LABEL, K_PENDING_CRC, hcode]
  | some l =>
    by_cases hl : cstr l = []
    · simp [storePendingAction_, Store.putUChar, Store.tick, hw, K_PENDING_ACT, Store.remove,
        K_PENDING_LABEL, K_PENDING_CRC, hcode, hl]
    · obtain ⟨x1, x2, x3, x4, x5, x6, x7, x8, x9, x10⟩ := s
      simp only at hw
      subst hw
      have h1 := storeLabelWithCrc_pend_ok
        { fails := x1, failsInv := x2, prev := x3, prevCrc := x4, rbCnt := x5, rbCntInv := x6,
          pendAct := some 0, pendLbl := x8, pendCrc := x9, failAfter := [] } l hl rfl
      have h0 : PendingAction.None.code = 0 := rfl
      simp [storePendingAction_, Store.putUChar, Store.tick, K_PENDING_ACT, hcode, hl, h1, h0]

/-! ## The steps of `beginEarly` -/

theorem latchBoot_opt (g : Guard) (p : Platform) :
    (latchBoot g p).opt = g.opt ∧ (latchBoot g p).suspiciousPred = g.suspiciousPred ∧
    (latchBoot g p).resetReason = p.resetReason := by
  unfold latchBoot
  split
  · simp
  · split <;> simp

theorem isSuspicious_latch (g : Guard) (p : Platform) (r : ResetReason) :
    isSuspicious (latchBoot g p) r = isSuspicious g r := by
  obtain ⟨h1, h2, _⟩ := latchBoot_opt g p
  simp [isSuspicious, h1, h2]

theorem autoSavePrev_latch (g : Guard) (p : Platform) (rl : List Nat) (s : Store) :
    autoSavePrev (latchBoot g p) rl s = autoSavePrev g rl s := by
  simp [autoSavePrev, (latchBoot_opt g p).1]

theorem beginEarlyPrelude_latch (g : Guard) (p : Platform) (s : Store) :
    beginEarlyPrelude (latchBoot g p) p s = beginEarlyPrelude g p s := by
  simp [beginEarlyPrelude, autoSavePrev_latch]

theorem readPendingAction_of_clear (s : Store) (buf : Option Nat) (h : PendingClear s) :
    readPendingAction_ s buf = (PendingAction.None, [], s) := by
  obtain ⟨h1, h2, h3⟩ := h
  simp [readPendingAction_, Store.getUChar, K_PENDING_ACT, h1, PendingAction.code,
    PendingAction.ofCode, Store.isKey, K_PENDING_LABEL, K_PENDING_CRC, h2, h3]

/-- What the prelude of `beginEarly` leaves when every write succeeds. -/
theorem beginEarlyPrelude_facts (g : Guard) (p : Platform) (s : Store) (hw : s.failAfter = []) :
    PendingClear (beginEarlyPrelude g p s).store ∧
    (beginEarlyPrelude g p s).store.failAfter = [] ∧
    (beginEarlyPrelude g p s).pendingBoot =
      (reconcilePending (readRunningLabel_ p CRG_LABEL_BUFFER_SIZE).2 (readFailCounter_ s true).1
        (readFailCounter_ s true).2).pendingBoot ∧
    (((beginEarlyPrelude g p s).pendingBoot = false ∧
        (beginEarlyPrelude g p s).fails = (readFailCounter_ s true).1 ∧
        (readFailCounter_ (beginEarlyPrelude g p s).store true).1 = (readFailCounter_ s true).1) ∨
      ((beginEarlyPrelude g p s).pendingBoot = true ∧ (beginEarlyPrelude g p s).fails = 0 ∧
        (beginEarlyPrelude g p s).store.fails = some 0 ∧
        (beginEarlyPrelude g p s).store.failsInv = some 0xFFFFFFFF)) ∧
    ((readRollbackCount_ (beginEarlyPrelude g p s).store true).1 = (readRollbackCount_ s true).1 ∨
      (readRollbackCount_ (beginEarlyPrelude g p s).store true).1 = 0) := by
  obtain ⟨f1, f2, f3, f4, f5, f6, f7, f8, f9⟩ := readFailCounter_frame s hw
  obtain ⟨r1, r2, r3, r4, r5, r6, r7⟩ :=
    reconcilePending_clear (readRunningLabel_ p CRG_LABEL_BUFFER_SIZE).2 (readFailCounter_ s true).1
      (readFailCounter_ s true).2 f1
  obtain ⟨a1, a2, a3, a4, a5, a6, a7⟩ :=
    autoSavePrev_frame g (readRunningLabel_ p CRG_LABEL_BUFFER_SIZE).2 _ r2
  have hs : (beginEarlyPrelude g p s).store =
      autoSavePrev g (readRunningLabel_ p CRG_LABEL_BUFFER_SIZE).2
        (reconcilePending (readRunningLabel_ p CRG_LABEL_BUFFER_SIZE).2 (readFailCounter_ s true).1
          (readFailCounter_ s true).2).store := rfl
  have hpb : (beginEarlyPrelude g p s).pendingBoot =
      (reconcilePending (readRunningLabel_ p CRG_LABEL_BUFFER_SIZE).2 (readFailCounter_ s true).1
        (readFailCounter_ s true).2).pendingBoot := rfl
  have hf : (beginEarlyPrelude g p s).fails =
      (reconcilePending (readRunningLabel_ p CRG_LABEL_BUFFER_SIZE).2 (readFailCounter_ s true).1
        (readFailCounter_ s true).2).fails := rfl
  rw [hs, hpb, hf]
  refine ⟨?_, a1, rfl, ?_, ?_⟩
  · obtain ⟨c1, c2, c3⟩ := r1
    exact ⟨by rw [a4]; exact c1, by rw [a5]; exact c2, by rw [a6]; exact c3⟩
  · rcases r7 with ⟨b1, b2, b3, b4⟩ | ⟨b1, b2, b3, b4⟩
    · refine Or.inl ⟨b1, b2, ?_⟩
      rw [readFailCounter_congr _ (readFailCounter_ s true).2 true true (by rw [a2, b3])
        (by rw [a3, b4])]
      exact f9
    · exact Or.inr ⟨b1, b2, by rw [a2, b3], by rw [a3, b4]⟩
  · rcases a7 with ⟨b1, b2⟩ | ⟨b1, b2⟩
    · left
      exact readRollbackCount_congr _ _ true true (by rw [b1, r3, f2]) (by rw [b2, r4, f3])
    · right
      simp [readRollbackCount_, Store.getUChar, K_ROLL_COUNT, K_ROLL_COUNT_INV, b1, b2]

/-- A boot that consumed a pending record: `beginEarly` returns `None`, calls
nothing on the platform, and leaves no pending record and a zero fail counter. -/
theorem beginEarly_of_pendingBoot (g : Guard) (p : Platform) (s : Store)
    (hopen : p.nvsOpen = true) (hw : s.failAfter = [])
    (hpb : (beginEarlyPrelude g p s).pendingBoot = true) :
    (beginEarly g p s).2.ret = some Decision.None ∧
    (beginEarly g p s).2.trace = [Event.nvsBegin] ∧
    PendingClear (beginEarly g p s).2.store ∧
    (beginEarly g p s).2.store.fails = some 0 ∧
    (beginEarly g p s).2.store.failsInv = some 0xFFFFFFFF := by
  obtain ⟨h1, h2, h3, h4, h5⟩ := beginEarlyPrelude_facts g p s hw
  rcases h4 with ⟨b1, _⟩ | ⟨b1, b2, b3, b4⟩
  · rw [hpb] at b1; exact absurd b1 (by decide)
  · simp [beginEarly, hopen, beginEarlyPrelude_latch, beginEarlyDecide, hpb, b2, h1, b3, b4]

theorem readPendingAction_controlled (s : Store) (buf : Option Nat)
    (h : s.pendAct = some PendingAction.ControlledRestart.code) :
    (readPendingAction_ s buf).1 = PendingAction.ControlledRestart ∧
    (readPendingAction_ s buf).2.2 = s := by
  simp only [readPendingAction_, Store.getUChar, K_PENDING_ACT, h, PendingAction.code,
    PendingAction.ofCode, Option.getD_some]
  simp
  split_ifs <;> simp

theorem reconcilePending_controlled (rl : List Nat) (f : Nat) (s : Store)
    (h : s.pendAct = some PendingAction.ControlledRestart.code) :
    (reconcilePending rl f s).pendingBoot = true := by
  obtain ⟨h1, h2⟩ := readPendingAction_controlled s (some CRG_LABEL_BUFFER_SIZE) h
  simp [reconcilePending, h1]

theorem readRunningLabel_wf (p : Platform) :
    (readRunningLabel_ p CRG_LABEL_BUFFER_SIZE).2.length ≤ 16 ∧
    ∀ b ∈ (readRunningLabel_ p CRG_LABEL_BUFFER_SIZE).2, b ≠ 0 := by
  unfold readRunningLabel_ copyLabel_ cstr CRG_LABEL_BUFFER_SIZE
  cases p.running with
  | none => simp
  | some r =>
    simp only [Nat.reduceAdd, OfNat.ofNat_ne_zero, if_false, gt_iff_lt, Nat.ofNat_pos, if_true,
      Nat.add_one_sub_one]
    constructor
    · exact List.length_take_le _ _
    · intro b hb
      have h := List.mem_takeWhile_imp (List.mem_of_mem_take hb)
      simpa using h

theorem readPendingAction_match (s : Store) (L : List Nat)
    (hlen : L.length ≤ 16) (hnul : ∀ b ∈ L, b ≠ 0)
    (a : PendingAction) (ha : a = PendingAction.RollbackPrev ∨ a = PendingAction.RollbackFactory)
    (hact : s.pendAct = some a.code)
    (hlbl : s.pendLbl = some L) (hcrc : s.pendCrc = some (crc32_ L)) :
    readPendingAction_ s (some CRG_LABEL_BUFFER_SIZE) = (a, L, s) := by
  have hload := loadLabelWithCrc_of s K_PENDING_LABEL K_PENDING_CRC L
    (by simp [Store.strRecord, K_PENDING_LABEL, hlbl]) hlen hnul
  simp only [Store.isKey, K_PENDING_CRC, hcrc, Store.getUInt, Option.isSome_some, Option.getD_some,
    and_self, if_true] at hload
  have h17 : 0 < CRG_LABEL_BUFFER_SIZE := by decide
  rcases ha with h | h <;> subst h <;>
    simp [readPendingAction_, Store.getUChar, K_PENDING_ACT, hact,
      PendingAction.code, PendingAction.ofCode, hload, K_PENDING_CRC, h17]

theorem reconcilePending_match (f : Nat) (s : Store) (L : List Nat)
    (hne : L ≠ []) (hlen : L.length ≤ 16) (hnul : ∀ b ∈ L, b ≠ 0)
    (a : PendingAction) (ha : a = PendingAction.RollbackPrev ∨ a = PendingAction.RollbackFactory)
    (hact : s.pendAct = some a.code)
    (hlbl : s.pendLbl = some L) (hcrc : s.pendCrc = some (crc32_ L)) :
    (reconcilePending L f s).pendingBoot = true := by
  have h := readPendingAction_match s L hlen hnul a ha hact hlbl hcrc
  rcases ha with h' | h' <;> subst h' <;> simp [reconcilePending, h, hne]

theorem loadLabelWithCrc_pend_congr (s t : Store) (n : Nat)
    (h2 : s.pendLbl = t.pendLbl) (h3 : s.pendCrc = t.pendCrc) :
    loadLabelWithCrc_ s K_PENDING_LABEL K_PENDING_CRC n =
      loadLabelWithCrc_ t K_PENDING_LABEL K_PENDING_CRC n := by
  simp only [loadLabelWithCrc_, Store.getString, Store.strRecord, Store.getUInt, Store.isKey,
    K_PENDING_LABEL, K_PENDING_CRC, h2, h3]

theorem readPendingAction_congr (s t : Store) (buf : Option Nat) (h1 : s.pendAct = t.pendAct)
    (h2 : s.pendLbl = t.pendLbl) (h3 : s.pendCrc = t.pendCrc) :
    (readPendingAction_ s buf).1 = (readPendingAction_ t buf).1 ∧
    (readPendingAction_ s buf).2.1 = (readPendingAction_ t buf).2.1 := by
  unfold readPendingAction_
  rw [loadLabelWithCrc_pend_congr s t _ h2 h3]
  simp only [Store.getUChar, Store.isKey, K_PENDING_ACT, K_PENDING_LABEL, K_PENDING_CRC,
    h1, h2, h3]
  constructor <;> (split_ifs <;> rfl)

theorem reconcilePending_none (rl : List Nat) (f : Nat) (s : Store)
    (h : (readPendingAction_ s (some CRG_LABEL_BUFFER_SIZE)).1 = PendingAction.None) :
    (reconcilePending rl f s).pendingBoot = false := by
  simp [reconcilePending, h]

theorem countCrash_frame (g : Guard) (f : Nat) (s : Store) (hw : s.failAfter = []) :
    (countCrash g f s).2.failAfter = [] ∧
    (countCrash g f s).2.rbCnt = s.rbCnt ∧
    (countCrash g f s).2.rbCntInv = s.rbCntInv ∧
    (countCrash g f s).2.prev = s.prev ∧
    (countCrash g f s).2.prevCrc = s.prevCrc ∧
    (countCrash g f s).2.pendAct = s.pendAct ∧
    (countCrash g f s).2.pendLbl = s.pendLbl ∧
    (countCrash g f s).2.pendCrc = s.pendCrc := by
  unfold countCrash
  simp only [writeFailCounter_ok _ _ hw]
  split_ifs <;> simp_all

theorem mem_after_head (e : Event) (rest : List Event) (r : Res) :
    e ∈ (r.after (e :: rest)).trace := by
  simp [Res.after]

theorem attemptRollback_trace (g : Guard) (p : Platform) (s : Store) :
    Event.attemptRollback ∈ (attemptRollback_ g p s).trace := by
  unfold attemptRollback_
  dsimp only
  repeat' split
  all_goals first | exact mem_after_head _ _ _ | simp [Res.after]

/-- The shape of `beginEarly` on a boot that is counted as a crash: the store
opens, nothing pending was consumed, the reset reason is suspicious and the
running image is not INVALID. -/
theorem beginEarly_counted (g : Guard) (p : Platform) (s : Store)
    (hopen : p.nvsOpen = true)
    (hpb : (beginEarlyPrelude g p s).pendingBoot = false)
    (hsusp : isSuspicious g p.resetReason = true)
    (hvalid : (latchBoot g p).runningImgState ≠ OtaState.INVALID) :
    (beginEarly g p s).2 =
      if (countCrash g (beginEarlyPrelude g p s).fails (beginEarlyPrelude g p s).store).1
            ≥ g.opt.failLimit ∧ g.opt.failLimit > 0 then
        if g.opt.maxRollbackAttempts > 0 then
          if (readRollbackCount_
                (countCrash g (beginEarlyPrelude g p s).fails (beginEarlyPrelude g p s).store).2
                true).1 ≥ g.opt.maxRollbackAttempts then
            (tryFactoryFallback_ (latchBoot g p) p
              (readRollbackCount_
                (countCrash g (beginEarlyPrelude g p s).fails (beginEarlyPrelude g p s).store).2
                true).2 Decision.SkippedNoPrev).after [Event.nvsBegin]
          else
            (attemptRollback_ (latchBoot g p) p
              (readRollbackCount_
                (countCrash g (beginEarlyPrelude g p s).fails (beginEarlyPrelude g p s).store).2
                true).2).after [Event.nvsBegin]
        else
          (attemptRollback_ (latchBoot g p) p
            (countCrash g (beginEarlyPrelude g p s).fails
              (beginEarlyPrelude g p s).store).2).after [Event.nvsBegin]
      else
        ⟨(countCrash g (beginEarlyPrelude g p s).fails (beginEarlyPrelude g p s).store).2,
          [Event.nvsBegin], some Decision.None⟩ := by
  obtain ⟨h1, h2, h3⟩ := latchBoot_opt g p
  have hcc : ∀ f st, countCrash (latchBoot g p) f st = countCrash g f st := by
    intro f st
    simp [countCrash, h1]
  simp only [beginEarly, hopen, beginEarlyPrelude_latch, beginEarlyDecide, hpb, h3,
    isSuspicious_latch, hsusp, hvalid, hcc, h1]
  simp

theorem tryFactoryFallback_disabled (g : Guard) (p : Platform) (s : Store) (d : Decision)
    (h : g.opt.fallbackToFactory = false) :
    tryFactoryFallback_ g p s d = ⟨s, [], some d⟩ := by
  simp [tryFactoryFallback_, h]

/-- One counted boot below the limit: `fails` goes from `k` to `k + 1`. -/
theorem counted_step (g : Guard) (p : Platform) (s : Store) (k : Nat)
    (hw : s.failAfter = [])
    (hpend : (readPendingAction_ s (some CRG_LABEL_BUFFER_SIZE)).1 = PendingAction.None)
    (hfails : (readFailCounter_ s true).1 = k)
    (hk : k < g.opt.failLimit) (h32 : g.opt.failLimit < 2 ^ 32) :
    (beginEarlyPrelude g p s).pendingBoot = false ∧
    (countCrash g (beginEarlyPrelude g p s).fails (beginEarlyPrelude g p s).store).1 = k + 1 ∧
    (readFailCounter_
      (countCrash g (beginEarlyPrelude g p s).fails (beginEarlyPrelude g p s).store).2 true).1
      = k + 1 ∧
    PendingClear
      (countCrash g (beginEarlyPrelude g p s).fails (beginEarlyPrelude g p s).store).2 ∧
    (countCrash g (beginEarlyPrelude g p s).fails (beginEarlyPrelude g p s).store).2.failAfter
      = [] ∧
    ((readRollbackCount_
        (countCrash g (beginEarlyPrelude g p s).fails (beginEarlyPrelude g p s).store).2 true).1
        = (readRollbackCount_ s true).1 ∨
      (readRollbackCount_
        (countCrash g (beginEarlyPrelude g p s).fails (beginEarlyPrelude g p s).store).2 true).1
        = 0) := by
  obtain ⟨f1, f2, f3, f4, f5, f6, f7, f8, f9⟩ := readFailCounter_frame s hw
  obtain ⟨h1, h2, h3, h4, h5⟩ := beginEarlyPrelude_facts g p s hw
  have hpb : (beginEarlyPrelude g p s).pendingBoot = false := by
    rw [h3]
    apply reconcilePending_none
    rw [(readPendingAction_congr _ s _ f6 f7 f8).1]
    exact hpend
  have hfl : (beginEarlyPrelude g p s).fails = k := by
    rcases h4 with ⟨_, b2, _⟩ | ⟨b1, _⟩
    · rw [b2, hfails]
    · rw [hpb] at b1; exact absurd b1 (by decide)
  obtain ⟨c1, c2, c3, c4, c5, c6, c7, c8⟩ :=
    countCrash_frame g (beginEarlyPrelude g p s).fails (beginEarlyPrelude g p s).store h2
  have hk1 : k < 4294967295 := by
    have : (2 : Nat) ^ 32 = 4294967296 := by norm_num
    omega
  have hk2 : (k + 1) % 4294967296 = k + 1 := Nat.mod_eq_of_lt (by omega)
  have hpos : 0 < g.opt.failLimit := by omega
  have hcc : countCrash g k (beginEarlyPrelude g p s).store =
      (k + 1, { (beginEarlyPrelude g p s).store with
                  fails := some (k + 1), failsInv := some ((k + 1) ^^^ 0xFFFFFFFF) }) := by
    simp [countCrash, hk1, hpos, hk, hk2, writeFailCounter_ok _ _ h2]
  refine ⟨hpb, ?_, ?_, ?_, c1, ?_⟩
  · rw [hfl, hcc]
  · rw [hfl, hcc]
    exact congrArg Prod.fst (readFailCounter_pair _ (k + 1) rfl rfl true)
  · exact ⟨by rw [c6]; exact h1.1, by rw [c7]; exact h1.2.1, by rw [c8]; exact h1.2.2⟩
  · rcases h5 with b | b
    · left
      rw [← b]
      exact readRollbackCount_congr _ _ true true c2 c3
    · right
      rw [← b]
      exact readRollbackCount_congr _ _ true true c2 c3

/-! ## Claims about the boot decision -/

/-- C1: for every configuration with `failLimit = N > 0` (a `uint32_t`), in a
run of consecutive suspicious boots that starts with `fails` reading 0, nothing
pending, the rollback guard not tripped, every boot opening the store with a
running image that is not INVALID, and all store writes succeeding: each of the
first `N - 1` calls of `beginEarly` finds `fails` reading `k`, returns
`Decision::None`, leaves `fails` reading `k + 1` and makes no call besides
opening the store (so it does not enter `attemptRollback_`); the `N`-th call
enters `attemptRollback_`. -/
theorem C1_rollback_after_limit (g : Guard) (boots : Nat → Platform) (s0 : Store) (N : Nat)
    (hN : g.opt.failLimit = N) (hpos : 0 < N) (h32 : N < 2 ^ 32)
    (hfails : (readFailCounter_ s0 true).1 = 0)
    (hpend : (readPendingAction_ s0 (some CRG_LABEL_BUFFER_SIZE)).1 = PendingAction.None)
    (hguard : g.opt.maxRollbackAttempts = 0 ∨
      (readRollbackCount_ s0 true).1 < g.opt.maxRollbackAttempts)
    (hw : s0.failAfter = [])
    (hboots : ∀ i, i < N →
      (boots i).nvsOpen = true ∧ isSuspicious g (boots i).resetReason = true ∧
      (latchBoot g (boots i)).runningImgState ≠ OtaState.INVALID) :
    (∀ k, k + 1 < N →
      (readFailCounter_ (bootRun g boots k s0) true).1 = k ∧
      (beginEarly g (boots k) (bootRun g boots k s0)).2.ret = some Decision.None ∧
      (readFailCounter_ (beginEarly g (boots k) (bootRun g boots k s0)).2.store true).1 = k + 1 ∧
      (beginEarly g (boots k) (bootRun g boots k s0)).2.trace = [Event.nvsBegin]) ∧
    Event.attemptRollback ∈
      (beginEarly g (boots (N - 1)) (bootRun g boots (N - 1) s0)).2.trace := by
  have hlim32 : g.opt.failLimit < 2 ^ 32 := by rw [hN]; exact h32
  -- the invariant of the run
  have inv : ∀ k, k < N →
      (bootRun g boots k s0).failAfter = [] ∧
      (readPendingAction_ (bootRun g boots k s0) (some CRG_LABEL_BUFFER_SIZE)).1
        = PendingAction.None ∧
      (readFailCounter_ (bootRun g boots k s0) true).1 = k ∧
      (g.opt.maxRollbackAttempts = 0 ∨
        (readRollbackCount_ (bootRun g boots k s0) true).1 < g.opt.maxRollbackAttempts) := by
    intro k
    induction k with
    | zero => intro _; exact ⟨hw, hpend, hfails, hguard⟩
    | succ k ih =>
      intro hk
      obtain ⟨i1, i2, i3, i4⟩ := ih (by omega)
      obtain ⟨b1, b2, b3⟩ := hboots k (by omega)
      obtain ⟨s1, s2, s3, s4, s5, s6⟩ :=
        counted_step g (boots k) (bootRun g boots k s0) k i1 i2 i3 (by omega) hlim32
      have hrun : bootRun g boots (k + 1) s0 =
          (countCrash g (beginEarlyPrelude g (boots k) (bootRun g boots k s0)).fails
            (beginEarlyPrelude g (boots k) (bootRun g boots k s0)).store).2 := by
        show (beginEarly g (boots k) (bootRun g boots k s0)).2.store = _
        rw [beginEarly_counted g (boots k) _ b1 s1 b2 b3, s2]
        have hlt : ¬ (g.opt.failLimit ≤ k + 1 ∧ 0 < g.opt.failLimit) := by omega
        simp only [ge_iff_le, gt_iff_lt, hlt, if_false]
      rw [hrun]
      refine ⟨s5, by rw [readPendingAction_of_clear _ _ s4], s3, ?_⟩
      rcases i4 with h | h
      · exact Or.inl h
      · right
        rcases s6 with e | e <;> rw [e] <;> omega
  constructor
  · intro k hk
    obtain ⟨i1, i2, i3, i4⟩ := inv k (by omega)
    obtain ⟨b1, b2, b3⟩ := hboots k (by omega)
    obtain ⟨s1, s2, s3, s4, s5, s6⟩ :=
      counted_step g (boots k) (bootRun g boots k s0) k i1 i2 i3 (by omega) hlim32
    rw [beginEarly_counted g (boots k) _ b1 s1 b2 b3, s2]
    have hlt : ¬ (g.opt.failLimit ≤ k + 1 ∧ 0 < g.opt.failLimit) := by omega
    simp only [ge_iff_le, gt_iff_lt, hlt, if_false]
    exact ⟨i3, trivial, s3, trivial⟩
  · obtain ⟨i1, i2, i3, i4⟩ := inv (N - 1) (by omega)
    obtain ⟨b1, b2, b3⟩ := hboots (N - 1) (by omega)
    obtain ⟨s1, s2, s3, s4, s5, s6⟩ :=
      counted_step g (boots (N - 1)) (bootRun g boots (N - 1) s0) (N - 1) i1 i2 i3 (by omega)
        hlim32
    rw [beginEarly_counted g (boots (N - 1)) _ b1 s1 b2 b3, s2]
    have hge : g.opt.failLimit ≤ N - 1 + 1 ∧ 0 < g.opt.failLimit := by omega
    simp only [ge_iff_le, gt_iff_lt, hge, and_self, if_true]
    have hmem : ∀ st, Event.attemptRollback ∈
        ((attemptRollback_ (latchBoot g (boots (N - 1))) (boots (N - 1)) st).after
          [Event.nvsBegin]).trace := by
      intro st
      simp only [Res.after, List.mem_append, List.mem_singleton]
      right
      exact attemptRollback_trace _ _ _
    rcases i4 with h | h
    · simp only [h, lt_irrefl, if_false]
      exact hmem _
    · have hmax : 0 < g.opt.maxRollbackAttempts := by omega
      have hnot : ¬ (g.opt.maxRollbackAttempts ≤ (readRollbackCount_
          (countCrash g (beginEarlyPrelude g (boots (N - 1)) (bootRun g boots (N - 1) s0)).fails
            (beginEarlyPrelude g (boots (N - 1)) (bootRun g boots (N - 1) s0)).store).2
          true).1) := by
        rcases s6 with e | e <;> rw [e] <;> omega
      simp only [hmax, if_true, hnot, if_false]
      exact hmem _

/-- Witness of C1: the scenario configuration (`failLimit = 3`) on an empty
store, every boot a PANIC reset of slot "app0": the first boot returns `None`
with `fails` reading 1, the third enters `attemptRollback_`. -/
theorem C1_rollback_after_limit_witness :
    (beginEarly scenarioGuard (scenarioPlatform ResetReason.PANIC app0) {}).2.ret
      = some Decision.None ∧
    (readFailCounter_
      (beginEarly scenarioGuard (scenarioPlatform ResetReason.PANIC app0) {}).2.store true).1
      = 1 ∧
    Event.attemptRollback ∈
      (beginEarly scenarioGuard (scenarioPlatform ResetReason.PANIC app0)
        (bootRun scenarioGuard (fun _ => scenarioPlatform ResetReason.PANIC app0) 2 {})).2.trace :=
  have h := C1_rollback_after_limit scenarioGuard
    (fun _ => scenarioPlatform ResetReason.PANIC app0) {} 3 rfl (by decide) (by decide)
    (by decide) (by decide) (Or.inr (by decide)) rfl
    (fun _ _ => ⟨rfl,
      (by decide : isSuspicious scenarioGuard
        (scenarioPlatform ResetReason.PANIC app0).resetReason = true),
      (by decide : (latchBoot scenarioGuard
        (scenarioPlatform ResetReason.PANIC app0)).runningImgState ≠ OtaState.INVALID)⟩)
  ⟨(h.1 0 (by decide)).2.1, (h.1 0 (by decide)).2.2.1, h.2⟩

/-- C2: for every store whose pending record is (`RollbackPrev` or
`RollbackFactory`, label `L`) with a matching CRC, and a running slot whose
label is `L` (a slot has a non-empty label), `beginEarly` (on a store that opens and accepts its writes)
returns `Decision::None` for every reset reason and every option setting, and
afterwards the pending action reads `None`, `pendLbl` and `pendCrc` are absent
and the fail counter reads 0. -/
theorem C2_rollback_round_trip (g : Guard) (p : Platform) (s : Store) (L : List Nat)
    (a : PendingAction)
    (ha : a = PendingAction.RollbackPrev ∨ a = PendingAction.RollbackFactory)
    (hact : s.pendAct = some a.code) (hlbl : s.pendLbl = some L)
    (hcrc : s.pendCrc = some (crc32_ L)) (hne : L ≠ [])
    (hrun : (readRunningLabel_ p CRG_LABEL_BUFFER_SIZE).2 = L)
    (hopen : p.nvsOpen = true) (hw : s.failAfter = []) :
    (beginEarly g p s).2.ret = some Decision.None ∧
    (readPendingAction_ (beginEarly g p s).2.store (some CRG_LABEL_BUFFER_SIZE)).1
      = PendingAction.None ∧
    (beginEarly g p s).2.store.pendLbl = none ∧
    (beginEarly g p s).2.store.pendCrc = none ∧
    (readFailCounter_ (beginEarly g p s).2.store true).1 = 0 := by
  obtain ⟨f1, f2, f3, f4, f5, f6, f7, f8, f9⟩ := readFailCounter_frame s hw
  obtain ⟨_, _, h3, _, _⟩ := beginEarlyPrelude_facts g p s hw
  have hwf := readRunningLabel_wf p
  rw [hrun] at hwf
  have hpb : (beginEarlyPrelude g p s).pendingBoot = true := by
    rw [h3, hrun]
    exact reconcilePending_match _ _ L hne hwf.1 hwf.2 a ha (by rw [f6, hact])
      (by rw [f7, hlbl]) (by rw [f8, hcrc])
  obtain ⟨b1, _, b3, b4, b5⟩ := beginEarly_of_pendingBoot g p s hopen hw hpb
  refine ⟨b1, ?_, b3.2.1, b3.2.2, ?_⟩
  · rw [readPendingAction_of_clear _ _ b3]
  · rw [readFailCounter_pair _ 0 b4 (by rw [b5]; rfl)]

/-- Witness of C2: after three crashes a rollback to "app1" is pending and the
device comes up in "app1" after a software reset. -/
theorem C2_rollback_round_trip_witness :
    (beginEarly scenarioGuard (scenarioPlatform ResetReason.SW app1)
      { fails := some 3, failsInv := some 0xFFFFFFFC, pendAct := some 1, pendLbl := some app1,
        pendCrc := some 2295226086 }).2.ret = some Decision.None ∧
    (readPendingAction_ (beginEarly scenarioGuard (scenarioPlatform ResetReason.SW app1)
      { fails := some 3, failsInv := some 0xFFFFFFFC, pendAct := some 1, pendLbl := some app1,
        pendCrc := some 2295226086 }).2.store (some CRG_LABEL_BUFFER_SIZE)).1
      = PendingAction.None ∧
    (beginEarly scenarioGuard (scenarioPlatform ResetReason.SW app1)
      { fails := some 3, failsInv := some 0xFFFFFFFC, pendAct := some 1, pendLbl := some app1,
        pendCrc := some 2295226086 }).2.store.pendLbl = none ∧
    (beginEarly scenarioGuard (scenarioPlatform ResetReason.SW app1)
      { fails := some 3, failsInv := some 0xFFFFFFFC, pendAct := some 1, pendLbl := some app1,
        pendCrc := some 2295226086 }).2.store.pendCrc = none ∧
    (readFailCounter_ (beginEarly scenarioGuard (scenarioPlatform ResetReason.SW app1)
      { fails := some 3, failsInv := some 0xFFFFFFFC, pendAct := some 1, pendLbl := some app1,
        pendCrc := some 2295226086 }).2.store true).1 = 0 :=
  C2_rollback_round_trip scenarioGuard (scenarioPlatform ResetReason.SW app1)
    { fails := some 3, failsInv := some 0xFFFFFFFC, pendAct := some 1, pendLbl := some app1,
      pendCrc := some 2295226086 }
    app1 PendingAction.RollbackPrev (Or.inl rfl) rfl rfl (by decide) (by decide) (by decide)
    rfl rfl

/-- C3: after `armControlledRestart` has written its record (on a store that
opens and accepts its writes), for every reset reason, every setting of the
options, every user predicate, every prior content of the store and every
running label (also one that differs from the armed label), the next
`beginEarly` returns `Decision::None`, makes no call besides opening the store,
leaves the fail counter reading 0 (it is reset, not incremented) and leaves the
pending action `None` with `pendLbl` and `pendCrc` absent. -/
theorem C3_controlled_restart (g : Guard) (p0 p : Platform) (s0 : Store)
    (hopen0 : p0.nvsOpen = true) (hw : s0.failAfter = []) (hopen : p.nvsOpen = true) :
    (beginEarly g p (armControlledRestart p0 s0).1).2.ret = some Decision.None ∧
    (beginEarly g p (armControlledRestart p0 s0).1).2.trace = [Event.nvsBegin] ∧
    (readFailCounter_ (beginEarly g p (armControlledRestart p0 s0).1).2.store true).1 = 0 ∧
    (readPendingAction_ (beginEarly g p (armControlledRestart p0 s0).1).2.store
      (some CRG_LABEL_BUFFER_SIZE)).1 = PendingAction.None ∧
    (beginEarly g p (armControlledRestart p0 s0).1).2.store.pendLbl = none ∧
    (beginEarly g p (armControlledRestart p0 s0).1).2.store.pendCrc = none := by
  have harm : (armControlledRestart p0 s0).1.pendAct = some PendingAction.ControlledRestart.code ∧
      (armControlledRestart p0 s0).1.failAfter = [] := by
    simp only [armControlledRestart, hopen0, Bool.not_true, Bool.false_eq_true, if_false]
    rw [storePendingAction_ok _ _ _ hw]
    split
    · simp [hw]
    · split <;> simp [hw]
  obtain ⟨ha1, ha2⟩ := harm
  obtain ⟨f1, f2, f3, f4, f5, f6, f7, f8, f9⟩ := readFailCounter_frame _ ha2
  obtain ⟨_, _, h3, _, _⟩ := beginEarlyPrelude_facts g p _ ha2
  have hpb : (beginEarlyPrelude g p (armControlledRestart p0 s0).1).pendingBoot = true := by
    rw [h3]
    exact reconcilePending_controlled _ _ _ (by rw [f6, ha1])
  obtain ⟨b1, b2, b3, b4, b5⟩ := beginEarly_of_pendingBoot g p _ hopen ha2 hpb
  refine ⟨b1, b2, ?_, ?_, b3.2.1, b3.2.2⟩
  · rw [readFailCounter_pair _ 0 b4 (by rw [b5]; rfl)]
  · rw [readPendingAction_of_clear _ _ b3]

/-- Witness of C3: armed in slot "app0" with `fails = 2`, then a software
reset. -/
theorem C3_controlled_restart_witness :
    (beginEarly scenarioGuard (scenarioPlatform ResetReason.SW app0)
      (armControlledRestart (scenarioPlatform ResetReason.POWERON app0)
        { fails := some 2, failsInv := some 0xFFFFFFFD }).1).2.ret = some Decision.None ∧
    (readFailCounter_ (beginEarly scenarioGuard (scenarioPlatform ResetReason.SW app0)
      (armControlledRestart (scenarioPlatform ResetReason.POWERON app0)
        { fails := some 2, failsInv := some 0xFFFFFFFD }).1).2.store true).1 = 0 :=
  have h := C3_controlled_restart scenarioGuard (scenarioPlatform ResetReason.POWERON app0)
    (scenarioPlatform ResetReason.SW app0) { fails := some 2, failsInv := some 0xFFFFFFFD }
    rfl rfl rfl
  ⟨h.1, h.2.2.1⟩

theorem readFailCounter_reads (s : Store) (hw : s.failAfter = []) :
    FailsPairValid (readFailCounter_ s true).2 ∧
    (readFailCounter_ s true).2.getUInt K_FAILS 0 = (readFailCounter_ s true).1 := by
  unfold readFailCounter_ FailsPairValid
  simp only [writeFailCounter_ok _ _ hw]
  split_ifs with h
  · simp [Store.getUInt, K_FAILS, K_FAILS_INV]
  · simp only [ne_eq, not_not] at h
    exact ⟨h, rfl⟩

theorem readRollbackCount_reads (s : Store) (hw : s.failAfter = []) :
    RollbackPairValid (readRollbackCount_ s true).2 ∧
    (readRollbackCount_ s true).2.getUChar K_ROLL_COUNT 0 = (readRollbackCount_ s true).1 := by
  unfold readRollbackCount_ RollbackPairValid
  simp only [writeRollbackCount_ok _ _ hw]
  split_ifs with h
  · simp [Store.getUChar, K_ROLL_COUNT, K_ROLL_COUNT_INV]
  · simp only [ne_eq, not_not] at h
    exact ⟨h, rfl⟩

theorem FailsPairValid_congr (s t : Store) (h1 : s.fails = t.fails) (h2 : s.failsInv = t.failsInv) :
    FailsPairValid s ↔ FailsPairValid t := by
  simp [FailsPairValid, Store.getUInt, K_FAILS, K_FAILS_INV, h1, h2]

theorem RollbackPairValid_congr (s t : Store) (h1 : s.rbCnt = t.rbCnt)
    (h2 : s.rbCntInv = t.rbCntInv) : RollbackPairValid s ↔ RollbackPairValid t := by
  simp [RollbackPairValid, Store.getUChar, K_ROLL_COUNT, K_ROLL_COUNT_INV, h1, h2]

theorem readFailCounter_of_valid (s : Store) (r : Bool) (h : FailsPairValid s) :
    readFailCounter_ s r = (s.getUInt K_FAILS 0, s) := by
  unfold FailsPairValid at h
  simp [readFailCounter_, h]

theorem readRollbackCount_of_valid (s : Store) (r : Bool) (h : RollbackPairValid s) :
    readRollbackCount_ s r = (s.getUChar K_ROLL_COUNT 0, s) := by
  unfold RollbackPairValid at h
  simp [readRollbackCount_, h]

theorem cleared_counters_read (t : Store) (h1 : t.fails = some 0)
    (h2 : t.failsInv = some 0xFFFFFFFF) (h3 : t.rbCnt = some 0) (h4 : t.rbCntInv = some 0xFF) :
    FailsPairValid t ∧ (readFailCounter_ t true).1 = 0 ∧
    RollbackPairValid t ∧ (readRollbackCount_ t true).1 = 0 := by
  have hf : FailsPairValid t := by
    simp [FailsPairValid, Store.getUInt, K_FAILS, K_FAILS_INV, h1, h2]
  have hr : RollbackPairValid t := by
    simp [RollbackPairValid, Store.getUChar, K_ROLL_COUNT, K_ROLL_COUNT_INV, h3, h4]
  refine ⟨hf, ?_, hr, ?_⟩
  · rw [readFailCounter_of_valid _ _ hf]
    simp [Store.getUInt, K_FAILS, h1]
  · rw [readRollbackCount_of_valid _ _ hr]
    simp [Store.getUChar, K_ROLL_COUNT, h3]


/-- C13: `markHealthyNow` is idempotent. Once a call has opened the store, the
guard is marked healthy, and a later call, on any platform state and any store
contents, returns at once: the guard and the store are unchanged and the trace
is empty (no store open, no store write, no OTA-validate call). -/
theorem C13_markHealthy_idempotent (g : Guard) (p p2 : Platform) (s s2 : Store)
    (hopen : p.nvsOpen = true) :
    (markHealthyNow g p s).1.healthyMarked = true ∧
    markHealthyNow (markHealthyNow g p s).1 p2 s2 = ((markHealthyNow g p s).1, s2, []) := by
  have h : (markHealthyNow g p s).1.healthyMarked = true := by
    unfold markHealthyNow
    by_cases hm : g.healthyMarked = true
    · simp [hm]
    · simp only [hm, hopen]
      simp
      split_ifs <;> simp
  refine ⟨h, ?_⟩
  generalize markHealthyNow g p s = r at h
  simp [markHealthyNow, h]

/-- Witness of C13: a first call on a store with `fails = 2`, then a second call
on a store in which `fails = 7` has been written meanwhile. -/
theorem C13_markHealthy_idempotent_witness :
    (markHealthyNow scenarioGuard (scenarioPlatform ResetReason.POWERON app0)
      { fails := some 2, failsInv := some 0xFFFFFFFD }).1.healthyMarked = true ∧
    markHealthyNow
      (markHealthyNow scenarioGuard (scenarioPlatform ResetReason.POWERON app0)
        { fails := some 2, failsInv := some 0xFFFFFFFD }).1
      (scenarioPlatform ResetReason.TASK_WDT app1) { fails := some 7, failsInv := some 0xFFFFFFF8 }
      = ((markHealthyNow scenarioGuard (scenarioPlatform ResetReason.POWERON app0)
          { fails := some 2, failsInv := some 0xFFFFFFFD }).1,
        { fails := some 7, failsInv := some 0xFFFFFFF8 }, []) :=
  C13_markHealthy_idempotent scenarioGuard (scenarioPlatform ResetReason.POWERON app0)
    (scenarioPlatform ResetReason.TASK_WDT app1)
    { fails := some 2, failsInv := some 0xFFFFFFFD }
    { fails := some 7, failsInv := some 0xFFFFFFF8 } rfl

/-- C14: on a guard not yet marked healthy, with a store that opens and whose
writes succeed, whatever the two counter pairs hold (valid or corrupted):
after `markHealthyNow` the guard is marked, both complement pairs are valid,
both counters read 0, and the trace is the store open followed by the
OTA-validate call exactly when `pendingVerify` was set (by the preceding
`beginEarly`). -/
theorem C14_markHealthy_clears (g : Guard) (p : Platform) (s : Store)
    (hm : g.healthyMarked = false) (hopen : p.nvsOpen = true) (hw : s.failAfter = []) :
    (markHealthyNow g p s).1.healthyMarked = true ∧
    FailsPairValid (markHealthyNow g p s).2.1 ∧
    (readFailCounter_ (markHealthyNow g p s).2.1 true).1 = 0 ∧
    RollbackPairValid (markHealthyNow g p s).2.1 ∧
    (readRollbackCount_ (markHealthyNow g p s).2.1 true).1 = 0 ∧
    (markHealthyNow g p s).2.2 =
      (if g.pendingVerify then [Event.nvsBegin, Event.otaMarkValid] else [Event.nvsBegin]) := by
  obtain ⟨f1, f2, f3, f4, f5, f6, f7, f8, f9⟩ := readFailCounter_frame s hw
  obtain ⟨fv, fr⟩ := readFailCounter_reads s hw
  obtain ⟨r1, r2, r3, r4, r5, r6, r7, r8⟩ := readRollbackCount_frame _ f1
  obtain ⟨rv, rr⟩ := readRollbackCount_reads _ f1
  have hfv : FailsPairValid (readRollbackCount_ (readFailCounter_ s true).2 true).2 :=
    (FailsPairValid_congr _ _ r2 r3).mpr fv
  have hfr : (readRollbackCount_ (readFailCounter_ s true).2 true).2.getUInt K_FAILS 0 =
      (readFailCounter_ s true).1 := by
    rw [← fr]
    simp [Store.getUInt, K_FAILS, r2]
  have hreset : resetRollbackCount_ (resetFailCounter_
      (readRollbackCount_ (readFailCounter_ s true).2 true).2) =
      { (readRollbackCount_ (readFailCounter_ s true).2 true).2 with
        fails := some 0, failsInv := some 0xFFFFFFFF, rbCnt := some 0, rbCntInv := some 0xFF } := by
    simp only [resetRollbackCount_, resetFailCounter_]
    rw [writeFailCounter_ok _ _ r1, writeRollbackCount_ok _ _ (by simpa using r1)]
    simp
  obtain ⟨c1, c2, c3, c4⟩ := cleared_counters_read
    { (readRollbackCount_ (readFailCounter_ s true).2 true).2 with
      fails := some 0, failsInv := some 0xFFFFFFFF, rbCnt := some 0, rbCntInv := some 0xFF }
    rfl rfl rfl rfl
  cases hpv : g.pendingVerify
  · by_cases hz : (readFailCounter_ s true).1 = 0 ∧
        (readRollbackCount_ (readFailCounter_ s true).2 true).1 = 0
    · have hmk : markHealthyNow g p s = ({ g with healthyMarked := true },
          (readRollbackCount_ (readFailCounter_ s true).2 true).2, [Event.nvsBegin]) := by
        simp only [markHealthyNow, hm, hopen, hpv, hz.1, hz.2]
        simp
      rw [hmk]
      refine ⟨rfl, hfv, ?_, rv, ?_, by simp⟩
      · show (readFailCounter_ (readRollbackCount_ (readFailCounter_ s true).2 true).2 true).1 = 0
        rw [readFailCounter_of_valid _ _ hfv, hfr, hz.1]
      · show (readRollbackCount_ (readRollbackCount_ (readFailCounter_ s true).2 true).2 true).1
          = 0
        rw [readRollbackCount_of_valid _ _ rv, rr, hz.2]
    · have hz' : ¬ ((readFailCounter_ s true).1 = 0 ∧
          (readRollbackCount_ (readFailCounter_ s true).2 true).1 = 0 ∧ (!false) = true) := by
        intro h
        exact hz ⟨h.1, h.2.1⟩
      have hmk : markHealthyNow g p s = ({ g with healthyMarked := true },
          { (readRollbackCount_ (readFailCounter_ s true).2 true).2 with
            fails := some 0, failsInv := some 0xFFFFFFFF, rbCnt := some 0,
            rbCntInv := some 0xFF }, [Event.nvsBegin]) := by
        simp only [markHealthyNow, hm, hopen, hpv, hz', hreset]
        simp
      rw [hmk]
      exact ⟨rfl, c1, c2, c3, c4, by simp⟩
  · have hmk : markHealthyNow g p s =
        ({ g with pendingVerify := false, runningImgState := OtaState.VALID,
                  healthyMarked := true },
          { (readRollbackCount_ (readFailCounter_ s true).2 true).2 with
            fails := some 0, failsInv := some 0xFFFFFFFF, rbCnt := some 0,
            rbCntInv := some 0xFF }, [Event.nvsBegin, Event.otaMarkValid]) := by
      simp only [markHealthyNow, hm, hopen, hpv, hreset]
      simp
    rw [hmk]
    exact ⟨rfl, c1, c2, c3, c4, by simp⟩

/-- Witness of C14: a guard with `pendingVerify` set, a fail counter whose
complement is wrong and a rollback counter holding 1. -/
theorem C14_markHealthy_clears_witness :
    (markHealthyNow { pendingVerify := true } (scenarioPlatform ResetReason.POWERON app0)
      { fails := some 2, failsInv := some 0, rbCnt := some 1, rbCntInv := some 0xFE }).1.healthyMarked
      = true ∧
    (readFailCounter_ (markHealthyNow { pendingVerify := true }
      (scenarioPlatform ResetReason.POWERON app0)
      { fails := some 2, failsInv := some 0, rbCnt := some 1, rbCntInv := some 0xFE }).2.1 true).1
      = 0 ∧
    (readRollbackCount_ (markHealthyNow { pendingVerify := true }
      (scenarioPlatform ResetReason.POWERON app0)
      { fails := some 2, failsInv := some 0, rbCnt := some 1, rbCntInv := some 0xFE }).2.1 true).1
      = 0 ∧
    (markHealthyNow { pendingVerify := true } (scenarioPlatform ResetReason.POWERON app0)
      { fails := some 2, failsInv := some 0, rbCnt := some 1, rbCntInv := some 0xFE }).2.2
      = [Event.nvsBegin, Event.otaMarkValid] :=
  have h := C14_markHealthy_clears { pendingVerify := true }
    (scenarioPlatform ResetReason.POWERON app0)
    { fails := some 2, failsInv := some 0, rbCnt := some 1, rbCntInv := some 0xFE } rfl rfl rfl
  ⟨h.1, h.2.2.1, h.2.2.2.2.1, h.2.2.2.2.2⟩

theorem stableElapsed_eq (g : Guard) (p : Platform) (hnow : p.millis < 2 ^ 32)
    (hstart : g.stableStartMs < 2 ^ 32) :
    ((stableElapsed g p : Nat) : Int) = ((p.millis : Int) - (g.stableStartMs : Int)) % 2 ^ 32 := by
  unfold stableElapsed
  rw [Nat.mod_eq_of_lt hnow, Nat.mod_eq_of_lt hstart]
  have h1 : (2 : Nat) ^ 32 = 4294967296 := by norm_num
  have h2 : (2 : Int) ^ 32 = 4294967296 := by norm_num
  rw [h1] at hnow hstart
  rw [h1, h2]
  omega

theorem markHealthyNow_trace (g : Guard) (p : Platform) (s : Store)
    (hm : g.healthyMarked = false) : Event.nvsBegin ∈ (markHealthyNow g p s).2.2 := by
  unfold markHealthyNow
  simp only [hm, Bool.false_eq_true, if_false]
  split_ifs <;> simp


/-- C17: for 32-bit values of `millis()` and `stableStartMs_`, `loopTick` on a
guard not yet marked and with `stableTimeMs > 0` is `markHealthyNow` exactly
when `(now - stableStartMs) mod 2^32 >= stableTimeMs` (the difference taken in
the integers, so also when the clock has wrapped past the start) and does
nothing otherwise; a call of `markHealthyNow` shows as a store open in the
trace. On a marked guard or with `stableTimeMs = 0` it does nothing. -/
theorem C17_loopTick (g : Guard) (p : Platform) (s : Store)
    (hnow : p.millis < 2 ^ 32) (hstart : g.stableStartMs < 2 ^ 32) :
    (g.healthyMarked = false → 0 < g.opt.stableTimeMs →
      loopTick g p s =
        (if ((p.millis : Int) - (g.stableStartMs : Int)) % 2 ^ 32 ≥ (g.opt.stableTimeMs : Int)
          then markHealthyNow g p s else (g, s, [])) ∧
      (Event.nvsBegin ∈ (loopTick g p s).2.2 ↔
        ((p.millis : Int) - (g.stableStartMs : Int)) % 2 ^ 32 ≥ (g.opt.stableTimeMs : Int))) ∧
    (g.healthyMarked = true ∨ g.opt.stableTimeMs = 0 → loopTick g p s = (g, s, [])) := by
  have he := stableElapsed_eq g p hnow hstart
  constructor
  · intro hm hpos
    have hne : g.opt.stableTimeMs ≠ 0 := by omega
    have hl : loopTick g p s =
        (if ((p.millis : Int) - (g.stableStartMs : Int)) % 2 ^ 32 ≥ (g.opt.stableTimeMs : Int)
          then markHealthyNow g p s else (g, s, [])) := by
      rw [← he]
      simp only [loopTick, hm, hne, Bool.false_eq_true, or_self, if_false, ge_iff_le,
        Nat.cast_le]
    refine ⟨hl, ?_⟩
    rw [hl]
    split_ifs with hc
    · simp only [hc, iff_true]
      exact markHealthyNow_trace g p s hm
    · simp only [List.not_mem_nil, false_iff]
      exact hc
  · intro h
    simp [loopTick, h]

/-- Witness of C17: the clock has wrapped, from `0xFFFFFFFE` to 5, which is 7 ms
later; with `stableTimeMs = 6` the guard is marked healthy. -/
theorem C17_loopTick_witness :
    loopTick { opt := { stableTimeMs := 6 }, stableStartMs := 0xFFFFFFFE }
        { scenarioPlatform ResetReason.POWERON app0 with millis := 5 } {}
      = markHealthyNow { opt := { stableTimeMs := 6 }, stableStartMs := 0xFFFFFFFE }
        { scenarioPlatform ResetReason.POWERON app0 with millis := 5 } {} ∧
    Event.nvsBegin ∈
      (loopTick { opt := { stableTimeMs := 6 }, stableStartMs := 0xFFFFFFFE }
        { scenarioPlatform ResetReason.POWERON app0 with millis := 5 } {}).2.2 :=
  have h := (C17_loopTick { opt := { stableTimeMs := 6 }, stableStartMs := 0xFFFFFFFE }
    { scenarioPlatform ResetReason.POWERON app0 with millis := 5 } {}
    (by decide) (by decide)).1 rfl (by decide)
  have hc : ((5 : Int) - 4294967294) % 2 ^ 32 ≥ 6 := by decide
  ⟨h.1.trans (if_pos hc), h.2.mpr hc⟩

/-! ## The pending-action record: reading and writing -/

theorem clearPendingAction_labels (s : Store) :
    (clearPendingAction_ s).pendLbl = none ∧ (clearPendingAction_ s).pendCrc = none := by
  simp [clearPendingAction_, Store.remove, K_PENDING_LABEL, K_PENDING_CRC]


/-- C20: a stored `pendAct` byte above the code of `ControlledRestart` makes
`readPendingAction_` return `None` with an empty label and, the writes
succeeding, leave the record cleared: `pendAct` holds the code of `None`,
`pendLbl` and `pendCrc` are absent, everything else is as before. And for every
store and every outcome of the writes, when `readPendingAction_` returns `None`
the keys `pendLbl` and `pendCrc` are absent afterwards. -/
theorem C20_invalid_pending_cleared (s : Store) (raw : Nat) (buf : Option Nat) :
    (s.pendAct = some raw → PendingAction.ControlledRestart.code < raw → s.failAfter = [] →
      readPendingAction_ s buf =
        (PendingAction.None, [],
          { s with pendAct := some PendingAction.None.code, pendLbl := none, pendCrc := none })) ∧
    ((readPendingAction_ s buf).1 = PendingAction.None →
      (readPendingAction_ s buf).2.2.pendLbl = none ∧
      (readPendingAction_ s buf).2.2.pendCrc = none) := by
  constructor
  · intro h1 h2 hw
    have h0 : PendingAction.None.code = 0 := rfl
    simp [readPendingAction_, Store.getUChar, K_PENDING_ACT, h1, h2, clearPendingAction_ok s hw, h0]
  · obtain ⟨c1, c2⟩ := clearPendingAction_labels s
    intro h
    unfold readPendingAction_ at h ⊢
    by_cases h1 : PendingAction.ControlledRestart.code < s.getUChar K_PENDING_ACT 0
    · simp only [gt_iff_lt, h1, if_true]
      exact ⟨c1, c2⟩
    · simp only [gt_iff_lt, h1, if_false] at h ⊢
      by_cases h2 : PendingAction.ofCode (s.getUChar K_PENDING_ACT 0) = PendingAction.None
      · simp only [h2, if_true]
        split_ifs with h3
        · simp [Store.remove, K_PENDING_LABEL, K_PENDING_CRC]
        · simpa [Store.isKey, K_PENDING_LABEL, K_PENDING_CRC] using h3
      · simp only [h2, if_false] at h ⊢
        split_ifs at h ⊢ <;> first | exact ⟨c1, c2⟩ | exact absurd h h2

/-- Witness of C20: the byte 200 stored as `pendAct`, with a label and a CRC. -/
theorem C20_invalid_pending_cleared_witness :
    readPendingAction_ { pendAct := some 200, pendLbl := some app1, pendCrc := some 7 }
        (some CRG_LABEL_BUFFER_SIZE)
      = (PendingAction.None, [], { pendAct := some 0, pendLbl := none, pendCrc := none }) ∧
    ((readPendingAction_ { pendAct := some 0, pendLbl := some app1 } none).2.2.pendLbl = none ∧
      (readPendingAction_ { pendAct := some 0, pendLbl := some app1 } none).2.2.pendCrc = none) :=
  ⟨(C20_invalid_pending_cleared { pendAct := some 200, pendLbl := some app1, pendCrc := some 7 }
      200 (some CRG_LABEL_BUFFER_SIZE)).1 rfl (by decide) rfl,
    (C20_invalid_pending_cleared { pendAct := some 0, pendLbl := some app1 } 0 none).2
      (by decide)⟩

theorem readPendingAction_of_zero (s : Store) (buf : Option Nat) (h : s.pendAct = some 0) :
    (readPendingAction_ s buf).1 = PendingAction.None ∧ (readPendingAction_ s buf).2.1 = [] := by
  simp only [readPendingAction_, Store.getUChar, K_PENDING_ACT, h, PendingAction.code,
    PendingAction.ofCode, Option.getD_some]
  simp
  split_ifs <;> simp

theorem readPendingAction_valid (s : Store) (L : List Nat)
    (hlen : L.length ≤ 16) (hnul : ∀ b ∈ L, b ≠ 0)
    (a : PendingAction) (ha : a ≠ PendingAction.None)
    (hact : s.pendAct = some a.code)
    (hlbl : s.pendLbl = some L) (hcrc : s.pendCrc = some (crc32_ L)) :
    (readPendingAction_ s (some CRG_LABEL_BUFFER_SIZE)).1 = a ∧
    (readPendingAction_ s (some CRG_LABEL_BUFFER_SIZE)).2.1 = L := by
  cases a with
  | None => exact absurd rfl ha
  | RollbackPrev =>
    rw [readPendingAction_match s L hlen hnul _ (Or.inl rfl) hact hlbl hcrc]
    exact ⟨rfl, rfl⟩
  | RollbackFactory =>
    rw [readPendingAction_match s L hlen hnul _ (Or.inr rfl) hact hlbl hcrc]
    exact ⟨rfl, rfl⟩
  | ControlledRestart =>
    have hload := loadLabelWithCrc_of s K_PENDING_LABEL K_PENDING_CRC L
      (by simp [Store.strRecord, K_PENDING_LABEL, hlbl]) hlen hnul
    simp only [Store.isKey, K_PENDING_CRC, hcrc, Store.getUInt, Option.isSome_some,
      Option.getD_some, and_self, if_true] at hload
    have h17 : 0 < CRG_LABEL_BUFFER_SIZE := by decide
    simp [readPendingAction_, Store.getUChar, K_PENDING_ACT, hact,
      PendingAction.code, PendingAction.ofCode, hload, K_PENDING_CRC, h17]

theorem readPendingAction_unlabelled (s : Store) (a : PendingAction)
    (hact : s.pendAct = some a.code) (hlbl : s.pendLbl = none) :
    ((readPendingAction_ s (some CRG_LABEL_BUFFER_SIZE)).1 = PendingAction.None ∨
      (readPendingAction_ s (some CRG_LABEL_BUFFER_SIZE)).1 = a) ∧
    (readPendingAction_ s (some CRG_LABEL_BUFFER_SIZE)).2.1 = [] := by
  have hload : loadLabelWithCrc_ s K_PENDING_LABEL K_PENDING_CRC CRG_LABEL_BUFFER_SIZE
      = (LabelStatus.Missing, []) := by
    simp [loadLabelWithCrc_, Store.getString, Store.strRecord, K_PENDING_LABEL, hlbl]
  have h17 : 0 < CRG_LABEL_BUFFER_SIZE := by decide
  cases a <;>
    simp [readPendingAction_, Store.getUChar, K_PENDING_ACT, hact, PendingAction.code,
      PendingAction.ofCode, hload, h17]
  all_goals split_ifs
  all_goals simp

theorem storePendingAction_eq_writes (s : Store) (a : PendingAction) (label : Option (List Nat))
    (hw : s.failAfter = []) :
    storePendingAction_ s a label = runWrites (storePendingActionWrites a label) s := by
  rw [storePendingAction_ok s a label hw]
  have hcode : a.code % 256 = a.code := by cases a <;> rfl
  have h0 : PendingAction.None.code = 0 := rfl
  cases label with
  | none =>
    simp [storePendingActionWrites, runWrites, Store.putUChar, Store.tick, hw, K_PENDING_ACT,
      K_PENDING_LABEL, K_PENDING_CRC, Store.remove, hcode, h0]
  | some l =>
    by_cases hl : cstr l = []
    · simp [storePendingActionWrites, runWrites, Store.putUChar, Store.tick, hw, K_PENDING_ACT,
        K_PENDING_LABEL, K_PENDING_CRC, Store.remove, hcode, h0, hl]
    · have hcrc : crc32_ (cstr l) % 4294967296 = crc32_ (cstr l) := Nat.mod_eq_of_lt (crc32_lt _)
      simp [storePendingActionWrites, runWrites, Store.putUChar, Store.putString, Store.putUInt,
        Store.tick, hw, K_PENDING_ACT, K_PENDING_LABEL, K_PENDING_CRC, hcode, h0, hl, hcrc]

theorem storePendingActionWrites_labelled (a : PendingAction) (l : List Nat)
    (h : cstr l ≠ []) :
    storePendingActionWrites a (some l) =
      [fun st => (st.putUChar K_PENDING_ACT PendingAction.None.code).1,
       fun st => (st.putString K_PENDING_LABEL l).1,
       fun st => (st.putUInt K_PENDING_CRC (crc32_ (cstr l))).1,
       fun st => (st.putUChar K_PENDING_ACT a.code).1] := by
  simp [storePendingActionWrites, h]

theorem storePendingActionWrites_unlabelled (a : PendingAction) (label : Option (List Nat))
    (h : label = none ∨ ∃ l, label = some l ∧ cstr l = []) :
    storePendingActionWrites a label =
      [fun st => (st.putUChar K_PENDING_ACT PendingAction.None.code).1,
       fun st => st.remove K_PENDING_LABEL,
       fun st => st.remove K_PENDING_CRC,
       fun st => (st.putUChar K_PENDING_ACT a.code).1] := by
  rcases h with h | ⟨l, h, hl⟩
  · simp [storePendingActionWrites, h]
  · simp [storePendingActionWrites, h, hl]

theorem label_cases (label : Option (List Nat)) :
    (label = none ∨ ∃ l, label = some l ∧ cstr l = []) ∨ (∃ l, label = some l ∧ cstr l ≠ []) := by
  cases label with
  | none => exact Or.inl (Or.inl rfl)
  | some l =>
    by_cases h : cstr l = []
    · exact Or.inl (Or.inr ⟨l, rfl, h⟩)
    · exact Or.inr ⟨l, rfl, h⟩

/-- After one, two or three of the writes of `storePendingAction_` the action
byte is the code of `None`. -/
theorem storePending_cut_zero (s : Store) (a : PendingAction) (label : Option (List Nat))
    (k : Nat) (hw : s.failAfter = []) (hk1 : 1 ≤ k) (hk3 : k ≤ 3) :
    (runWrites ((storePendingActionWrites a label).take k) s).pendAct = some 0 := by
  have h0 : PendingAction.None.code = 0 := rfl
  have hk : k = 1 ∨ k = 2 ∨ k = 3 := by omega
  rcases label_cases label with hl | ⟨l, hl, hne⟩
  · rw [storePendingActionWrites_unlabelled a label hl]
    rcases hk with h | h | h <;> subst h <;>
      simp [runWrites, Store.putUChar, Store.tick, hw, K_PENDING_ACT, K_PENDING_LABEL,
        K_PENDING_CRC, Store.remove, h0]
  · subst hl
    rw [storePendingActionWrites_labelled a l hne]
    rcases hk with h | h | h <;> subst h <;>
      simp [runWrites, Store.putUChar, Store.putString, Store.putUInt, Store.tick, hw,
        K_PENDING_ACT, K_PENDING_LABEL, K_PENDING_CRC, h0]

theorem storePending_cut_all (a : PendingAction) (label : Option (List Nat)) (k : Nat)
    (hk : 4 ≤ k) :
    (storePendingActionWrites a label).take k = storePendingActionWrites a label := by
  apply List.take_of_length_le
  rcases label_cases label with hl | ⟨l, hl, hne⟩
  · rw [storePendingActionWrites_unlabelled a label hl]
    simpa using hk
  · subst hl
    rw [storePendingActionWrites_labelled a l hne]
    simpa using hk



/-- C19: with writes that succeed and a label that fits the label buffer,
`storePendingAction_(action, label)` is the run of its single-key writes, and
after the first `k` of them, for every `k`, `readPendingAction_` returns the
record it returned before the call (only possible for `k = 0`), or `None` with
an empty label, or `action` with exactly the new label (empty for a null or
empty label). -/
theorem C19_pending_write_order (s : Store) (action : PendingAction)
    (label : Option (List Nat)) (k : Nat) (hw : s.failAfter = [])
    (hlen : ∀ l, label = some l → (cstr l).length ≤ 16) :
    storePendingAction_ s action label = runWrites (storePendingActionWrites action label) s ∧
    ((k = 0 ∧
        readPendingAction_ (runWrites ((storePendingActionWrites action label).take k) s)
          (some CRG_LABEL_BUFFER_SIZE) = readPendingAction_ s (some CRG_LABEL_BUFFER_SIZE)) ∨
      ((readPendingAction_ (runWrites ((storePendingActionWrites action label).take k) s)
          (some CRG_LABEL_BUFFER_SIZE)).1 = PendingAction.None ∧
        (readPendingAction_ (runWrites ((storePendingActionWrites action label).take k) s)
          (some CRG_LABEL_BUFFER_SIZE)).2.1 = []) ∨
      ((readPendingAction_ (runWrites ((storePendingActionWrites action label).take k) s)
          (some CRG_LABEL_BUFFER_SIZE)).1 = action ∧
        (readPendingAction_ (runWrites ((storePendingActionWrites action label).take k) s)
          (some CRG_LABEL_BUFFER_SIZE)).2.1 = cstr (label.getD []))) := by
  have heq := storePendingAction_eq_writes s action label hw
  refine ⟨heq, ?_⟩
  by_cases hk0 : k = 0
  · left
    subst hk0
    exact ⟨rfl, by simp [runWrites]⟩
  · by_cases hk3 : k ≤ 3
    · right; left
      exact readPendingAction_of_zero _ _
        (storePending_cut_zero s action label k hw (by omega) hk3)
    · right
      rw [storePending_cut_all action label k (by omega), ← heq,
        storePendingAction_ok s action label hw]
      rcases label_cases label with hl | ⟨l, hl, hne⟩
      · have hstore : (match label with
            | none => { s with pendAct := some action.code, pendLbl := none, pendCrc := none }
            | some l =>
              if cstr l = [] then
                { s with pendAct := some action.code, pendLbl := none, pendCrc := none }
              else { s with pendAct := some action.code, pendLbl := some (cstr l),
                            pendCrc := some (crc32_ (cstr l)) }) =
            { s with pendAct := some action.code, pendLbl := none, pendCrc := none } := by
          rcases hl with h | ⟨l, h, hl⟩
          · subst h; rfl
          · subst h; simp [hl]
        have hlab : cstr (label.getD []) = [] := by
          rcases hl with h | ⟨l, h, hl⟩
          · subst h; rfl
          · subst h; simpa using hl
        rw [hstore, hlab]
        obtain ⟨h1, h2⟩ := readPendingAction_unlabelled
          { s with pendAct := some action.code, pendLbl := none, pendCrc := none } action rfl rfl
        rcases h1 with h1 | h1
        · exact Or.inl ⟨h1, h2⟩
        · exact Or.inr ⟨h1, h2⟩
      · subst hl
        simp only [hne, if_false, Option.getD_some]
        by_cases ha : action = PendingAction.None
        · left
          subst ha
          exact readPendingAction_of_zero _ _ rfl
        · right
          have hnul : ∀ b ∈ cstr l, b ≠ 0 := by
            intro b hb
            have h := List.mem_takeWhile_imp hb
            simpa using h
          exact readPendingAction_valid _ (cstr l) (hlen l rfl) hnul action ha rfl rfl rfl

/-- Witness of C19: an old record (`RollbackFactory`, "app0") overwritten with
(`RollbackPrev`, "app1"), cut after the label and before its CRC. -/
theorem C19_pending_write_order_witness :
    (readPendingAction_ (runWrites
        ((storePendingActionWrites PendingAction.RollbackPrev (some app1)).take 2)
        { pendAct := some 2, pendLbl := some app0, pendCrc := some 4291391088 })
      (some CRG_LABEL_BUFFER_SIZE)).1 = PendingAction.None ∧
    (readPendingAction_ (runWrites
        ((storePendingActionWrites PendingAction.RollbackPrev (some app1)).take 2)
        { pendAct := some 2, pendLbl := some app0, pendCrc := some 4291391088 })
      (some CRG_LABEL_BUFFER_SIZE)).2.1 = [] :=
  (((C19_pending_write_order
      { pendAct := some 2, pendLbl := some app0, pendCrc := some 4291391088 }
      PendingAction.RollbackPrev (some app1) 2 rfl (by decide)).2.resolve_left
      (by decide)).resolve_right (by decide))

/-! ## More claims about the boot decision -/

/-- C15: when the store opens (and its writes succeed) and the reset reason is
not suspicious, `beginEarly` returns `Decision::None`, its only call is the
store open (so neither the boot-partition setter nor the platform reset is
called), and afterwards the fail counter reads 0, whatever it read before.
This holds with or without a pending action in the store. -/
theorem C15_clean_boot (g : Guard) (p : Platform) (s : Store)
    (hopen : p.nvsOpen = true) (hw : s.failAfter = [])
    (hclean : isSuspicious g p.resetReason = false) :
    (beginEarly g p s).2.ret = some Decision.None ∧
    (beginEarly g p s).2.trace = [Event.nvsBegin] ∧
    (readFailCounter_ (beginEarly g p s).2.store true).1 = 0 := by
  obtain ⟨f1, f2, f3, f4, f5, f6, f7, f8, f9⟩ := readFailCounter_frame s hw
  obtain ⟨h1, h2, h3, h4, h5⟩ := beginEarlyPrelude_facts g p s hw
  obtain ⟨_, _, hr⟩ := latchBoot_opt g p
  have hdec : (beginEarly g p s).2 =
      ⟨if (beginEarlyPrelude g p s).fails ≠ 0 then
          writeFailCounter_ (beginEarlyPrelude g p s).store 0
        else (beginEarlyPrelude g p s).store, [Event.nvsBegin], some Decision.None⟩ := by
    simp [beginEarly, hopen, beginEarlyPrelude_latch, beginEarlyDecide, isSuspicious_latch, hr,
      hclean]
  rw [hdec]
  refine ⟨rfl, rfl, ?_⟩
  show (readFailCounter_ (if (beginEarlyPrelude g p s).fails ≠ 0 then
      writeFailCounter_ (beginEarlyPrelude g p s).store 0
    else (beginEarlyPrelude g p s).store) true).1 = 0
  split_ifs with hz
  · rw [writeFailCounter_ok _ _ h2]
    exact congrArg Prod.fst (readFailCounter_pair _ 0 rfl rfl true)
  · simp only [ne_eq, not_not] at hz
    rcases h4 with ⟨_, b2, b3⟩ | ⟨_, _, b3, b4⟩
    · rw [b3, ← b2, hz]
    · exact congrArg Prod.fst (readFailCounter_pair _ 0 b3 (by rw [b4]; rfl) true)

/-- Witness of C15: a fresh store, reset reason POWERON, running slot "app0". -/
theorem C15_clean_boot_witness :
    (beginEarly scenarioGuard (scenarioPlatform ResetReason.POWERON app0) {}).2.ret
      = some Decision.None ∧
    (beginEarly scenarioGuard (scenarioPlatform ResetReason.POWERON app0) {}).2.trace
      = [Event.nvsBegin] ∧
    (readFailCounter_
      (beginEarly scenarioGuard (scenarioPlatform ResetReason.POWERON app0) {}).2.store true).1
      = 0 :=
  C15_clean_boot scenarioGuard (scenarioPlatform ResetReason.POWERON app0) {} rfl rfl rfl

/-! ## Factory fallback and the rollback attempt -/

theorem cstr_idem (l : List Nat) : cstr (cstr l) = cstr l := by
  apply cstr_eq_self
  intro b hb
  have h := List.mem_takeWhile_imp hb
  simpa using h

theorem loadLabelWithCrc_cstr (s : Store) (k c : Key) (n : Nat) :
    cstr (loadLabelWithCrc_ s k c n).2 = (loadLabelWithCrc_ s k c n).2 := by
  have hnil : cstr [] = [] := rfl
  unfold loadLabelWithCrc_
  dsimp only
  repeat' split
  all_goals first | exact hnil | exact cstr_idem _

theorem switch_no_restart (p : Platform) (l : Option (List Nat)) :
    Event.restart ∉ (switchBootPartitionByLabel_ p l).2 := by
  unfold switchBootPartitionByLabel_
  split <;> simp


/-- C18: `tryFactoryFallback_(failureDecision)` returns `failureDecision` with
the store untouched and no platform call when `fallbackToFactory` is false or
the factory label is null or empty. Otherwise its result is the run of its
steps in program order, and the write comes first: after the first step the
store is what `storePendingAction_(RollbackFactory, factory label)` leaves and
no platform call has been made; after the second the calls of the switch have
been made on that same store. The writes succeeding, that store holds the
pending record (`RollbackFactory`, factory label, its CRC): after a successful
switch the routine restarts with that record stored; after a failed switch it
returns `FailedSwitch` without restarting, the record cleared (`pendAct` the
code of `None`, `pendLbl` and `pendCrc` absent). -/
theorem C18_factory_fallback (g : Guard) (p : Platform) (s : Store) (d : Decision)
    (l : List Nat) :
    ((g.opt.fallbackToFactory = false ∨ g.opt.factoryLabel = none ∨
        (g.opt.factoryLabel = some l ∧ cstr l = [])) →
      tryFactoryFallback_ g p s d = ⟨s, [], some d⟩) ∧
    (g.opt.fallbackToFactory = true → g.opt.factoryLabel = some l → cstr l ≠ [] →
      (runSteps (tryFactoryFallbackSteps g p) (s, [])
          = ((tryFactoryFallback_ g p s d).store, (tryFactoryFallback_ g p s d).trace) ∧
        runSteps ((tryFactoryFallbackSteps g p).take 1) (s, [])
          = (storePendingAction_ s PendingAction.RollbackFactory (some l), []) ∧
        runSteps ((tryFactoryFallbackSteps g p).take 2) (s, [])
          = (storePendingAction_ s PendingAction.RollbackFactory (some l),
              (switchBootPartitionByLabel_ p (some l)).2)) ∧
      (s.failAfter = [] →
        storePendingAction_ s PendingAction.RollbackFactory (some l) =
          { s with pendAct := some PendingAction.RollbackFactory.code, pendLbl := some (cstr l),
                   pendCrc := some (crc32_ (cstr l)) } ∧
        ((switchBootPartitionByLabel_ p (some l)).1 = true →
          tryFactoryFallback_ g p s d =
            ⟨storePendingAction_ s PendingAction.RollbackFactory (some l),
              (switchBootPartitionByLabel_ p (some l)).2 ++ [Event.restart], none⟩) ∧
        ((switchBootPartitionByLabel_ p (some l)).1 = false →
          (tryFactoryFallback_ g p s d).ret = some Decision.FailedSwitch ∧
          Event.restart ∉ (tryFactoryFallback_ g p s d).trace ∧
          (tryFactoryFallback_ g p s d).store =
            { s with pendAct := some PendingAction.None.code, pendLbl := none,
                     pendCrc := none }))) := by
  constructor
  · rintro (h | h | ⟨h1, h2⟩)
    · simp [tryFactoryFallback_, h]
    · simp [tryFactoryFallback_, h]
    · simp [tryFactoryFallback_, h1, h2]
  · intro hf hl hne
    constructor
    · refine ⟨?_, ?_, ?_⟩
      · cases hsw : (switchBootPartitionByLabel_ p (some l)).1 with
        | true =>
          simp [tryFactoryFallback_, tryFactoryFallbackSteps, runSteps, hf, hl, hne, hsw]
        | false =>
          simp [tryFactoryFallback_, tryFactoryFallbackSteps, runSteps, hf, hl, hne, hsw]
      · simp [tryFactoryFallbackSteps, runSteps, hl]
      · simp [tryFactoryFallbackSteps, runSteps, hl]
    · intro hw
      have hst := storePendingAction_ok s PendingAction.RollbackFactory (some l) hw
      simp only [hne, if_false] at hst
      refine ⟨hst, ?_, ?_⟩
      · intro hsw
        simp [tryFactoryFallback_, hf, hl, hne, hsw]
      · intro hsw
        have hcl := clearPendingAction_ok
          (storePendingAction_ s PendingAction.RollbackFactory (some l)) (by rw [hst]; exact hw)
        have h0 : PendingAction.None.code = 0 := rfl
        have hres : tryFactoryFallback_ g p s d =
            ⟨clearPendingAction_ (storePendingAction_ s PendingAction.RollbackFactory (some l)),
              (switchBootPartitionByLabel_ p (some l)).2, some Decision.FailedSwitch⟩ := by
          simp [tryFactoryFallback_, hf, hl, hne, hsw]
        rw [hres]
        refine ⟨rfl, switch_no_restart p (some l), ?_⟩
        show clearPendingAction_ (storePendingAction_ s PendingAction.RollbackFactory (some l)) = _
        rw [hcl, hst, h0]

/-- Witness of C18: fallback disabled; and fallback to "app1" on a platform
whose boot-partition setter fails: the record is in the store when the setter
is called, and cleared on return. -/
theorem C18_factory_fallback_witness :
    tryFactoryFallback_ scenarioGuard (scenarioPlatform ResetReason.TASK_WDT app0) {}
        Decision.SkippedNoPrev
      = ⟨{}, [], some Decision.SkippedNoPrev⟩ ∧
    runSteps
        ((tryFactoryFallbackSteps { opt := { fallbackToFactory := true, factoryLabel := some app1 } }
          { scenarioPlatform ResetReason.TASK_WDT app0 with setBootOk := fun _ => false }).take 2)
        ({}, [])
      = ({ pendAct := some 2, pendLbl := some app1, pendCrc := some 2295226086 },
          [Event.setBootPartition ⟨0x150000, app1⟩]) ∧
    (tryFactoryFallback_ { opt := { fallbackToFactory := true, factoryLabel := some app1 } }
        { scenarioPlatform ResetReason.TASK_WDT app0 with setBootOk := fun _ => false } {}
        Decision.SkippedNoPrev).ret = some Decision.FailedSwitch ∧
    (tryFactoryFallback_ { opt := { fallbackToFactory := true, factoryLabel := some app1 } }
        { scenarioPlatform ResetReason.TASK_WDT app0 with setBootOk := fun _ => false } {}
        Decision.SkippedNoPrev).store = { pendAct := some 0 } :=
  have h0 := (C18_factory_fallback
    { opt := { fallbackToFactory := true, factoryLabel := some app1 } }
    { scenarioPlatform ResetReason.TASK_WDT app0 with setBootOk := fun _ => false } {}
    Decision.SkippedNoPrev app1).2 rfl rfl (by decide)
  have h := (h0.2 rfl).2.2 (by decide)
  ⟨(C18_factory_fallback scenarioGuard (scenarioPlatform ResetReason.TASK_WDT app0) {}
      Decision.SkippedNoPrev []).1 (Or.inl rfl), h0.1.2.2.trans (by decide), h.1, h.2.2⟩

/-- The store `attemptRollback_` works on after reading the labels and logging:
a corrupt `prev` record removed, the fail counter repaired. -/
theorem attemptRollback_entry (s : Store) (hw : s.failAfter = []) (hclear : PendingClear s) :
    (readFailCounter_ (if (loadLabelWithCrc_ s K_PREV_LABEL K_PREV_CRC CRG_LABEL_BUFFER_SIZE).1
        = LabelStatus.Corrupted then (s.remove K_PREV_LABEL).remove K_PREV_CRC else s) true).2.failAfter
      = [] ∧
    PendingClear (readFailCounter_
      (if (loadLabelWithCrc_ s K_PREV_LABEL K_PREV_CRC CRG_LABEL_BUFFER_SIZE).1
        = LabelStatus.Corrupted then (s.remove K_PREV_LABEL).remove K_PREV_CRC else s) true).2 ∧
    ((loadLabelWithCrc_ s K_PREV_LABEL K_PREV_CRC CRG_LABEL_BUFFER_SIZE).1 = LabelStatus.Corrupted →
      (readFailCounter_ ((s.remove K_PREV_LABEL).remove K_PREV_CRC) true).2.prev = none ∧
      (readFailCounter_ ((s.remove K_PREV_LABEL).remove K_PREV_CRC) true).2.prevCrc = none) := by
  obtain ⟨h1, h2, h3⟩ := hclear
  have hw2 : ((s.remove K_PREV_LABEL).remove K_PREV_CRC).failAfter = [] := by
    simp [Store.remove, K_PREV_LABEL, K_PREV_CRC, hw]
  obtain ⟨a1, a2, a3, a4, a5, a6, a7, a8, a9⟩ := readFailCounter_frame s hw
  obtain ⟨b1, b2, b3, b4, b5, b6, b7, b8, b9⟩ := readFailCounter_frame _ hw2
  refine ⟨?_, ?_, ?_⟩
  · split_ifs
    · exact b1
    · exact a1
  · split_ifs
    · refine ⟨by rw [b6]; simpa [Store.remove, K_PREV_LABEL, K_PREV_CRC] using h1,
        by rw [b7]; simpa [Store.remove, K_PREV_LABEL, K_PREV_CRC] using h2,
        by rw [b8]; simpa [Store.remove, K_PREV_LABEL, K_PREV_CRC] using h3⟩
    · exact ⟨by rw [a6]; exact h1, by rw [a7]; exact h2, by rw [a8]; exact h3⟩
  · intro _
    exact ⟨by rw [b4]; simp [Store.remove, K_PREV_LABEL, K_PREV_CRC],
      by rw [b5]; simp [Store.remove, K_PREV_LABEL, K_PREV_CRC]⟩

theorem refused_after (g : Guard) (p : Platform) (s : Store) (d : Decision)
    (hff : g.opt.fallbackToFactory = false) (hc : PendingClear s) :
    ((tryFactoryFallback_ g p s d).after [Event.attemptRollback]).refused d ∧
    ((tryFactoryFallback_ g p s d).after [Event.attemptRollback]).store = s := by
  rw [tryFactoryFallback_disabled g p s d hff]
  simp [Res.after, Res.refused, hc]


/-- C11: `attemptRollback_` with factory fallback disabled, writes that succeed
and no pending record at entry (as on every call from `beginEarly`). It gives
up (returns the decision, does not restart, leaves no pending record) with
`SkippedNoPrev` when the stored prev label is missing; with `SkippedNoPrev`
when it is corrupted, `prev` and `prevCrc` then being removed; with
`SkippedSameSlot` when it equals the running label; with `SkippedNoPrev` when
no application partition carries it; with `FailedSwitch` when that partition's
OTA state is INVALID or ABORTED; and with `FailedSwitch` when setting the boot
partition fails, the setter having been called once. -/
theorem C11_attemptRollback_refusals (g : Guard) (p : Platform) (s : Store) (part : Partition)
    (hff : g.opt.fallbackToFactory = false) (hw : s.failAfter = []) (hclear : PendingClear s) :
    ((loadLabelWithCrc_ s K_PREV_LABEL K_PREV_CRC CRG_LABEL_BUFFER_SIZE).1 = LabelStatus.Missing →
      (attemptRollback_ g p s).refused Decision.SkippedNoPrev) ∧
    ((loadLabelWithCrc_ s K_PREV_LABEL K_PREV_CRC CRG_LABEL_BUFFER_SIZE).1 = LabelStatus.Corrupted →
      (attemptRollback_ g p s).refused Decision.SkippedNoPrev ∧
      (attemptRollback_ g p s).store.prev = none ∧
      (attemptRollback_ g p s).store.prevCrc = none) ∧
    ((loadLabelWithCrc_ s K_PREV_LABEL K_PREV_CRC CRG_LABEL_BUFFER_SIZE).1 = LabelStatus.Ok →
      (loadLabelWithCrc_ s K_PREV_LABEL K_PREV_CRC CRG_LABEL_BUFFER_SIZE).2 ≠ [] →
      ((loadLabelWithCrc_ s K_PREV_LABEL K_PREV_CRC CRG_LABEL_BUFFER_SIZE).2
          = (readRunningLabel_ p CRG_LABEL_BUFFER_SIZE).2 →
        (attemptRollback_ g p s).refused Decision.SkippedSameSlot) ∧
      ((loadLabelWithCrc_ s K_PREV_LABEL K_PREV_CRC CRG_LABEL_BUFFER_SIZE).2
          ≠ (readRunningLabel_ p CRG_LABEL_BUFFER_SIZE).2 →
        (findAppPartitionByLabel_ p
            (some (loadLabelWithCrc_ s K_PREV_LABEL K_PREV_CRC CRG_LABEL_BUFFER_SIZE).2) = none →
          (attemptRollback_ g p s).refused Decision.SkippedNoPrev) ∧
        (findAppPartitionByLabel_ p
            (some (loadLabelWithCrc_ s K_PREV_LABEL K_PREV_CRC CRG_LABEL_BUFFER_SIZE).2)
            = some part →
          ((p.otaState part = some OtaState.INVALID ∨ p.otaState part = some OtaState.ABORTED) →
            (attemptRollback_ g p s).refused Decision.FailedSwitch) ∧
          (¬ (p.otaState part = some OtaState.INVALID ∨ p.otaState part = some OtaState.ABORTED) →
            p.setBootOk part = false →
            (attemptRollback_ g p s).refused Decision.FailedSwitch ∧
            (attemptRollback_ g p s).trace
              = [Event.attemptRollback, Event.setBootPartition part])))) := by
  obtain ⟨e1, e2, e3⟩ := attemptRollback_entry s hw hclear
  refine ⟨?_, ?_, ?_⟩
  · intro hL
    have hout : (loadLabelWithCrc_ s K_PREV_LABEL K_PREV_CRC CRG_LABEL_BUFFER_SIZE).2 = [] := by
      revert hL
      unfold loadLabelWithCrc_
      dsimp only
      repeat' split
      all_goals simp
    simp only [hL, reduceCtorEq, if_false] at e1 e2
    unfold attemptRollback_
    simp only [hL, reduceCtorEq, if_false, hout, if_true]
    exact (refused_after g p _ _ hff e2).1
  · intro hL
    simp only [hL, if_true] at e1 e2
    unfold attemptRollback_
    simp only [hL, if_true]
    obtain ⟨r1, r2⟩ := refused_after g p _ Decision.SkippedNoPrev hff e2
    refine ⟨r1, ?_, ?_⟩
    · rw [r2]; exact (e3 hL).1
    · rw [r2]; exact (e3 hL).2
  · intro hL hne
    simp only [hL, reduceCtorEq, if_false] at e1 e2
    refine ⟨?_, ?_⟩
    · intro hsame
      unfold attemptRollback_
      simp only [hL, reduceCtorEq, if_false, hne, ← hsame, if_true]
      exact (refused_after g p _ _ hff e2).1
    · intro hdiff
      refine ⟨?_, ?_⟩
      · intro hfind
        unfold attemptRollback_
        simp only [hL, reduceCtorEq, if_false, hne, hdiff, hfind]
        exact (refused_after g p _ _ hff e2).1
      · intro hfind
        refine ⟨?_, ?_⟩
        · intro hbad
          unfold attemptRollback_
          simp only [hL, reduceCtorEq, if_false, hne, hdiff, hfind, hbad, if_true]
          exact (refused_after g p _ _ hff e2).1
        · intro hgood hboot
          have hsw : switchBootPartitionByLabel_ p
              (some (loadLabelWithCrc_ s K_PREV_LABEL K_PREV_CRC CRG_LABEL_BUFFER_SIZE).2)
              = (false, [Event.setBootPartition part]) := by
            simp [switchBootPartitionByLabel_, hfind, hboot]
          have hst := storePendingAction_ok _ PendingAction.RollbackPrev
            (some (loadLabelWithCrc_ s K_PREV_LABEL K_PREV_CRC CRG_LABEL_BUFFER_SIZE).2) e1
          have hw3 : (storePendingAction_ (readFailCounter_ s true).2 PendingAction.RollbackPrev
              (some (loadLabelWithCrc_ s K_PREV_LABEL K_PREV_CRC CRG_LABEL_BUFFER_SIZE).2)).failAfter
              = [] := by
            rw [hst]
            dsimp only
            split_ifs <;> exact e1
          have hcl := clearPendingAction_ok _ hw3
          unfold attemptRollback_
          simp only [hL, reduceCtorEq, if_false, hne, hdiff, hfind, hgood, hsw,
            Bool.false_eq_true, tryFactoryFallback_disabled _ _ _ _ hff, Res.after]
          refine ⟨⟨rfl, by simp, ?_⟩, by simp⟩
          show PendingClear (clearPendingAction_ _)
          rw [hcl]
          exact ⟨rfl, rfl, rfl⟩

/-- Witness of C11: no prev label stored; and the prev label "app1" on a
platform whose boot-partition setter fails. -/
theorem C11_attemptRollback_refusals_witness :
    (attemptRollback_ scenarioGuard (scenarioPlatform ResetReason.TASK_WDT app0) {}).refused
      Decision.SkippedNoPrev ∧
    (attemptRollback_ scenarioGuard
      { scenarioPlatform ResetReason.TASK_WDT app0 with setBootOk := fun _ => false }
      { prev := some app1, prevCrc := some 2295226086 }).refused Decision.FailedSwitch :=
  ⟨(C11_attemptRollback_refusals scenarioGuard (scenarioPlatform ResetReason.TASK_WDT app0) {}
      ⟨0x150000, app1⟩ rfl rfl (by decide)).1 (by decide),
    ((((C11_attemptRollback_refusals scenarioGuard
      { scenarioPlatform ResetReason.TASK_WDT app0 with setBootOk := fun _ => false }
      { prev := some app1, prevCrc := some 2295226086 }
      ⟨0x150000, app1⟩ rfl rfl (by decide)).2.2 (by decide) (by decide)).2 (by decide)).2
      (by decide)).2 (by decide) rfl |>.1⟩

theorem bumpRollbackCount_reads (s : Store) (hw : s.failAfter = [])
    (hu8 : (readRollbackCount_ s true).1 < 256) :
    (readRollbackCount_ (bumpRollbackCount_ s) true).1 =
      (if (readRollbackCount_ s true).1 = 0xFF then 0xFF else (readRollbackCount_ s true).1 + 1) ∧
    (bumpRollbackCount_ s).pendAct = s.pendAct ∧
    (bumpRollbackCount_ s).pendLbl = s.pendLbl ∧
    (bumpRollbackCount_ s).pendCrc = s.pendCrc ∧
    (bumpRollbackCount_ s).failAfter = [] := by
  obtain ⟨r1, r2, r3, r4, r5, r6, r7, r8⟩ := readRollbackCount_frame s hw
  obtain ⟨rv, rr⟩ := readRollbackCount_reads s hw
  unfold bumpRollbackCount_
  by_cases h : (readRollbackCount_ s true).1 = 0xFF
  · simp only [h, ne_eq, not_true_eq_false, if_false, if_true]
    refine ⟨?_, r6, r7, r8, r1⟩
    rw [readRollbackCount_of_valid _ _ rv, rr, h]
  · have hlt : ((readRollbackCount_ s true).1 + 1) % 256 = (readRollbackCount_ s true).1 + 1 := by
      have : (readRollbackCount_ s true).1 ≠ 255 := h
      omega
    simp only [h, ne_eq, not_false_eq_true, if_true, if_false]
    rw [writeRollbackCount_ok _ _ r1, hlt]
    refine ⟨?_, r6, r7, r8, r1⟩
    have hv : RollbackPairValid
        { (readRollbackCount_ s true).2 with
          rbCnt := some ((readRollbackCount_ s true).1 + 1),
          rbCntInv := some (((readRollbackCount_ s true).1 + 1) ^^^ 0xFF) } := by
      have hx : ((readRollbackCount_ s true).1 + 1 ^^^
          ((readRollbackCount_ s true).1 + 1 ^^^ 255)) = 255 := (xor_mask_iff _ _ _).mpr rfl
      simp [RollbackPairValid, Store.getUChar, K_ROLL_COUNT, K_ROLL_COUNT_INV, hx]
    rw [readRollbackCount_of_valid _ _ hv]
    simp [Store.getUChar, K_ROLL_COUNT]


/-- Counterexample to C12 as stated: with the rollback counter reading `0xFF`
before the call, `attemptRollback_` switches to "app1" and restarts, and the
counter still reads `0xFF`, not one more. -/
theorem C12_counterexample :
    (readRollbackCount_
      { fails := some 3, failsInv := some 0xFFFFFFFC, prev := some app1,
        prevCrc := some 2295226086, rbCnt := some 0xFF, rbCntInv := some 0 } true).1 = 0xFF ∧
    (attemptRollback_ { opt := { failLimit := 3, maxRollbackAttempts := 0 } }
      (scenarioPlatform ResetReason.TASK_WDT app0)
      { fails := some 3, failsInv := some 0xFFFFFFFC, prev := some app1,
        prevCrc := some 2295226086, rbCnt := some 0xFF, rbCntInv := some 0 }).trace
      = [Event.attemptRollback, Event.setBootPartition ⟨0x150000, app1⟩, Event.restart] ∧
    (readRollbackCount_
      (attemptRollback_ { opt := { failLimit := 3, maxRollbackAttempts := 0 } }
        (scenarioPlatform ResetReason.TASK_WDT app0)
        { fails := some 3, failsInv := some 0xFFFFFFFC, prev := some app1,
          prevCrc := some 2295226086, rbCnt := some 0xFF, rbCntInv := some 0 }).store true).1
      = 0xFF := by
  refine ⟨by decide, by decide, by decide⟩

/-- C12 (amended): when `attemptRollback_`, its writes succeeding, finds a
valid non-empty prev label that differs from the running label and names a
partition whose OTA state is neither INVALID nor ABORTED, and the switch
succeeds, then it ends in `esp_restart()` (no return value), having called the
boot-partition setter on that partition just before, and the store then holds
the pending record (`RollbackPrev`, prev, CRC of prev); the rollback counter
(a byte) reads one more than before the call, except that a counter that read
`0xFF` still reads `0xFF`. -/
theorem C12_rollback_commits (g : Guard) (p : Platform) (s : Store) (part : Partition)
    (hw : s.failAfter = [])
    (hL : (loadLabelWithCrc_ s K_PREV_LABEL K_PREV_CRC CRG_LABEL_BUFFER_SIZE).1 = LabelStatus.Ok)
    (hne : (loadLabelWithCrc_ s K_PREV_LABEL K_PREV_CRC CRG_LABEL_BUFFER_SIZE).2 ≠ [])
    (hdiff : (loadLabelWithCrc_ s K_PREV_LABEL K_PREV_CRC CRG_LABEL_BUFFER_SIZE).2
      ≠ (readRunningLabel_ p CRG_LABEL_BUFFER_SIZE).2)
    (hfind : findAppPartitionByLabel_ p
      (some (loadLabelWithCrc_ s K_PREV_LABEL K_PREV_CRC CRG_LABEL_BUFFER_SIZE).2) = some part)
    (hgood : ¬ (p.otaState part = some OtaState.INVALID ∨ p.otaState part = some OtaState.ABORTED))
    (hboot : p.setBootOk part = true)
    (hu8 : (readRollbackCount_ s true).1 < 256) :
    (attemptRollback_ g p s).ret = none ∧
    (attemptRollback_ g p s).trace
      = [Event.attemptRollback, Event.setBootPartition part, Event.restart] ∧
    (attemptRollback_ g p s).store.pendAct = some PendingAction.RollbackPrev.code ∧
    (attemptRollback_ g p s).store.pendLbl
      = some (loadLabelWithCrc_ s K_PREV_LABEL K_PREV_CRC CRG_LABEL_BUFFER_SIZE).2 ∧
    (attemptRollback_ g p s).store.pendCrc
      = some (crc32_ (loadLabelWithCrc_ s K_PREV_LABEL K_PREV_CRC CRG_LABEL_BUFFER_SIZE).2) ∧
    (readRollbackCount_ (attemptRollback_ g p s).store true).1 =
      (if (readRollbackCount_ s true).1 = 0xFF then 0xFF
        else (readRollbackCount_ s true).1 + 1) := by
  obtain ⟨a1, a2, a3, a4, a5, a6, a7, a8, a9⟩ := readFailCounter_frame s hw
  have hcs := loadLabelWithCrc_cstr s K_PREV_LABEL K_PREV_CRC CRG_LABEL_BUFFER_SIZE
  have hne' : cstr (loadLabelWithCrc_ s K_PREV_LABEL K_PREV_CRC CRG_LABEL_BUFFER_SIZE).2 ≠ [] := by
    rw [hcs]; exact hne
  have hsw : switchBootPartitionByLabel_ p
      (some (loadLabelWithCrc_ s K_PREV_LABEL K_PREV_CRC CRG_LABEL_BUFFER_SIZE).2)
      = (true, [Event.setBootPartition part]) := by
    simp [switchBootPartitionByLabel_, hfind, hboot]
  have hst := storePendingAction_ok _ PendingAction.RollbackPrev
    (some (loadLabelWithCrc_ s K_PREV_LABEL K_PREV_CRC CRG_LABEL_BUFFER_SIZE).2) a1
  simp only [hcs, hne, if_false] at hst
  have hres : attemptRollback_ g p s =
      ⟨bumpRollbackCount_ (storePendingAction_ (readFailCounter_ s true).2
          PendingAction.RollbackPrev
          (some (loadLabelWithCrc_ s K_PREV_LABEL K_PREV_CRC CRG_LABEL_BUFFER_SIZE).2)),
        [Event.attemptRollback, Event.setBootPartition part, Event.restart], none⟩ := by
    unfold attemptRollback_
    simp only [hL, reduceCtorEq, if_false, hne, hdiff, hfind, hgood, hsw, if_true]
    simp
  have hw2 : (storePendingAction_ (readFailCounter_ s true).2 PendingAction.RollbackPrev
      (some (loadLabelWithCrc_ s K_PREV_LABEL K_PREV_CRC CRG_LABEL_BUFFER_SIZE).2)).failAfter
      = [] := by
    rw [hst]; exact a1
  have hbefore : (readRollbackCount_ (storePendingAction_ (readFailCounter_ s true).2
      PendingAction.RollbackPrev
      (some (loadLabelWithCrc_ s K_PREV_LABEL K_PREV_CRC CRG_LABEL_BUFFER_SIZE).2)) true).1
      = (readRollbackCount_ s true).1 := by
    apply readRollbackCount_congr
    · rw [hst]; exact a2
    · rw [hst]; exact a3
  obtain ⟨b1, b2, b3, b4, b5⟩ := bumpRollbackCount_reads _ hw2 (by rw [hbefore]; exact hu8)
  rw [hres]
  refine ⟨rfl, rfl, ?_, ?_, ?_, ?_⟩
  · show (bumpRollbackCount_ _).pendAct = _
    rw [b2, hst]
  · show (bumpRollbackCount_ _).pendLbl = _
    rw [b3, hst]
  · show (bumpRollbackCount_ _).pendCrc = _
    rw [b4, hst]
  · show (readRollbackCount_ (bumpRollbackCount_ _) true).1 = _
    rw [b1, hbefore]

/-- Witness of C12: prev label "app1" stored, slot "app0" running, rollback
counter never written: the counter reads 1 at the restart. -/
theorem C12_rollback_commits_witness :
    (attemptRollback_ scenarioGuard (scenarioPlatform ResetReason.TASK_WDT app0)
      { fails := some 3, failsInv := some 0xFFFFFFFC, prev := some app1,
        prevCrc := some 2295226086 }).ret = none ∧
    (attemptRollback_ scenarioGuard (scenarioPlatform ResetReason.TASK_WDT app0)
      { fails := some 3, failsInv := some 0xFFFFFFFC, prev := some app1,
        prevCrc := some 2295226086 }).trace
      = [Event.attemptRollback, Event.setBootPartition ⟨0x150000, app1⟩, Event.restart] ∧
    (readRollbackCount_
      (attemptRollback_ scenarioGuard (scenarioPlatform ResetReason.TASK_WDT app0)
        { fails := some 3, failsInv := some 0xFFFFFFFC, prev := some app1,
          prevCrc := some 2295226086 }).store true).1 = 1 :=
  have h := C12_rollback_commits scenarioGuard (scenarioPlatform ResetReason.TASK_WDT app0)
    { fails := some 3, failsInv := some 0xFFFFFFFC, prev := some app1,
      prevCrc := some 2295226086 }
    ⟨0x150000, app1⟩ rfl (by decide) (by decide) (by decide) (by decide) (by decide) rfl
    (by decide)
  ⟨h.1, h.2.1, h.2.2.2.2.2.trans (by decide)⟩

/-! ## The stored previous slot -/

theorem loadLabelWithCrc_prev_congr (s t : Store) (n : Nat)
    (h1 : s.prev = t.prev) (h2 : s.prevCrc = t.prevCrc) :
    loadLabelWithCrc_ s K_PREV_LABEL K_PREV_CRC n =
      loadLabelWithCrc_ t K_PREV_LABEL K_PREV_CRC n := by
  simp only [loadLabelWithCrc_, Store.getString, Store.strRecord, Store.getUInt, Store.isKey,
    K_PREV_LABEL, K_PREV_CRC, h1, h2]

theorem loadLabelWithCrc_prev_gone (t : Store) (n : Nat) (h : t.prev = none) :
    loadLabelWithCrc_ t K_PREV_LABEL K_PREV_CRC n = (LabelStatus.Missing, []) := by
  simp [loadLabelWithCrc_, Store.getString, Store.strRecord, K_PREV_LABEL, h]

theorem loadLabelWithCrc_not_ok (t : Store) (k c : Key) (n : Nat)
    (h : (loadLabelWithCrc_ t k c n).1 ≠ LabelStatus.Ok) :
    (loadLabelWithCrc_ t k c n).2 = [] := by
  revert h
  unfold loadLabelWithCrc_
  dsimp only
  repeat' split
  all_goals simp

theorem tryFactoryFallback_prev (g : Guard) (p : Platform) (s : Store) (d : Decision)
    (hw : s.failAfter = []) :
    (tryFactoryFallback_ g p s d).store.prev = s.prev ∧
    (tryFactoryFallback_ g p s d).store.prevCrc = s.prevCrc ∧
    Event.attemptRollback ∉ (tryFactoryFallback_ g p s d).trace := by
  have hsw : Event.attemptRollback ∉ (switchBootPartitionByLabel_ p g.opt.factoryLabel).2 := by
    unfold switchBootPartitionByLabel_
    split <;> simp
  have hst : (storePendingAction_ s PendingAction.RollbackFactory g.opt.factoryLabel).prev = s.prev ∧
      (storePendingAction_ s PendingAction.RollbackFactory g.opt.factoryLabel).prevCrc = s.prevCrc ∧
      (storePendingAction_ s PendingAction.RollbackFactory g.opt.factoryLabel).failAfter = [] := by
    rw [storePendingAction_ok s _ _ hw]
    cases g.opt.factoryLabel with
    | none => exact ⟨rfl, rfl, hw⟩
    | some l =>
      dsimp only
      split_ifs
      · exact ⟨rfl, rfl, hw⟩
      · exact ⟨rfl, rfl, hw⟩
  obtain ⟨c1, c2, c3⟩ := hst
  unfold tryFactoryFallback_
  dsimp only
  split_ifs
  · exact ⟨rfl, rfl, by simp⟩
  · exact ⟨c1, c2, by simpa using hsw⟩
  · rw [clearPendingAction_ok _ c3]
    exact ⟨c1, c2, hsw⟩

theorem attemptRollback_prev (g : Guard) (p : Platform) (s : Store) (hw : s.failAfter = [])
    (h : (loadLabelWithCrc_ s K_PREV_LABEL K_PREV_CRC CRG_LABEL_BUFFER_SIZE).1 ≠ LabelStatus.Ok) :
    ((loadLabelWithCrc_ s K_PREV_LABEL K_PREV_CRC CRG_LABEL_BUFFER_SIZE).1 = LabelStatus.Corrupted →
      (attemptRollback_ g p s).store.prev = none ∧ (attemptRollback_ g p s).store.prevCrc = none) ∧
    ((loadLabelWithCrc_ s K_PREV_LABEL K_PREV_CRC CRG_LABEL_BUFFER_SIZE).1 ≠ LabelStatus.Corrupted →
      (attemptRollback_ g p s).store.prev = s.prev ∧
      (attemptRollback_ g p s).store.prevCrc = s.prevCrc) := by
  have hnil := loadLabelWithCrc_not_ok s K_PREV_LABEL K_PREV_CRC CRG_LABEL_BUFFER_SIZE h
  have hw2 : ((s.remove K_PREV_LABEL).remove K_PREV_CRC).failAfter = [] := by
    simp [Store.remove, K_PREV_LABEL, K_PREV_CRC, hw]
  obtain ⟨a1, _, _, a4, a5, _⟩ := readFailCounter_frame s hw
  obtain ⟨b1, _, _, b4, b5, _⟩ := readFailCounter_frame _ hw2
  constructor
  · intro hc
    have hres : attemptRollback_ g p s =
        (tryFactoryFallback_ g p (readFailCounter_ ((s.remove K_PREV_LABEL).remove K_PREV_CRC)
          true).2 Decision.SkippedNoPrev).after [Event.attemptRollback] := by
      simp [attemptRollback_, hc]
    obtain ⟨t1, t2, _⟩ := tryFactoryFallback_prev g p _ Decision.SkippedNoPrev b1
    rw [hres]
    simp only [Res.after]
    exact ⟨by rw [t1, b4]; simp [Store.remove, K_PREV_LABEL, K_PREV_CRC],
      by rw [t2, b5]; simp [Store.remove, K_PREV_LABEL, K_PREV_CRC]⟩
  · intro hc
    have hres : attemptRollback_ g p s =
        (tryFactoryFallback_ g p (readFailCounter_ s true).2
          Decision.SkippedNoPrev).after [Event.attemptRollback] := by
      simp [attemptRollback_, hc, hnil]
    obtain ⟨t1, t2, _⟩ := tryFactoryFallback_prev g p _ Decision.SkippedNoPrev a1
    rw [hres]
    simp only [Res.after]
    exact ⟨by rw [t1, a4], by rw [t2, a5]⟩

/-- Where `beginEarly`, past the prelude, leaves the `prev` record: untouched
unless `attemptRollback_` is entered, which then runs last, on a store with the
same `prev` record and the same pending record. -/
theorem beginEarlyDecide_prev (g : Guard) (p : Platform) (st : Prelude)
    (hw : st.store.failAfter = []) :
    (Event.attemptRollback ∉ (beginEarlyDecide g p st).trace ∧
      (beginEarlyDecide g p st).store.prev = st.store.prev ∧
      (beginEarlyDecide g p st).store.prevCrc = st.store.prevCrc) ∨
    (Event.attemptRollback ∈ (beginEarlyDecide g p st).trace ∧
      ∃ x : Store, x.failAfter = [] ∧ x.prev = st.store.prev ∧ x.prevCrc = st.store.prevCrc ∧
        x.pendAct = st.store.pendAct ∧ x.pendLbl = st.store.pendLbl ∧
        x.pendCrc = st.store.pendCrc ∧
        beginEarlyDecide g p st = (attemptRollback_ g p x).after [Event.nvsBegin]) := by
  obtain ⟨c1, _, _, c4, c5, c6, c7, c8⟩ := countCrash_frame g st.fails st.store hw
  obtain ⟨r1, _, _, r4, r5, r6, r7, r8⟩ := readRollbackCount_frame _ c1
  obtain ⟨t1, t2, t3⟩ := tryFactoryFallback_prev g p _ Decision.SkippedNoPrev r1
  have hin : ∀ x : Store, Event.attemptRollback ∈
      ((attemptRollback_ g p x).after [Event.nvsBegin]).trace := by
    intro x
    simp only [Res.after]
    exact List.mem_append_right _ (attemptRollback_trace g p x)
  unfold beginEarlyDecide
  dsimp only
  split_ifs
  · left
    refine ⟨by simp, ?_, ?_⟩ <;> simp [writeFailCounter_ok _ _ hw]
  · left
    exact ⟨by simp, rfl, rfl⟩
  · right
    exact ⟨hin _, st.store, hw, rfl, rfl, rfl, rfl, rfl, rfl⟩
  · left
    refine ⟨by simpa [Res.after] using t3, ?_, ?_⟩
    · simp only [Res.after]; rw [t1, r4, c4]
    · simp only [Res.after]; rw [t2, r5, c5]
  · right
    exact ⟨hin _, _, r1, by rw [r4, c4], by rw [r5, c5], by rw [r6, c6], by rw [r7, c7],
      by rw [r8, c8], rfl⟩
  · right
    exact ⟨hin _, _, c1, c4, c5, c6, c7, c8, rfl⟩
  · left
    exact ⟨by simp, c4, c5⟩

theorem beginEarlyPrelude_prev (g : Guard) (p : Platform) (s : Store) (hw : s.failAfter = [])
    (hcor : (loadLabelWithCrc_ s K_PREV_LABEL K_PREV_CRC CRG_LABEL_BUFFER_SIZE).1
      = LabelStatus.Corrupted) :
    (beginEarlyPrelude g p s).store.failAfter = [] ∧
    (g.opt.autoSavePrevSlot = true →
      (beginEarlyPrelude g p s).store.prev = none ∧
      (beginEarlyPrelude g p s).store.prevCrc = none) ∧
    (g.opt.autoSavePrevSlot = false →
      (beginEarlyPrelude g p s).store.prev = s.prev ∧
      (beginEarlyPrelude g p s).store.prevCrc = s.prevCrc) := by
  obtain ⟨a1, _, _, a4, a5, _⟩ := readFailCounter_frame s hw
  obtain ⟨_, q2, _, _, q5, q6, _⟩ :=
    reconcilePending_clear (readRunningLabel_ p CRG_LABEL_BUFFER_SIZE).2
      (readFailCounter_ s true).1 (readFailCounter_ s true).2 a1
  have hsame := loadLabelWithCrc_prev_congr
    (reconcilePending (readRunningLabel_ p CRG_LABEL_BUFFER_SIZE).2
      (readFailCounter_ s true).1 (readFailCounter_ s true).2).store s CRG_LABEL_BUFFER_SIZE
    (by rw [q5, a4]) (by rw [q6, a5])
  refine ⟨(beginEarlyPrelude_facts g p s hw).2.1, ?_, ?_⟩
  · intro ha
    simp only [beginEarlyPrelude, autoSavePrev, ha, if_true, hsame, hcor]
    simp [Store.remove, K_PREV_LABEL, K_PREV_CRC]
  · intro ha
    simp only [beginEarlyPrelude, autoSavePrev, ha]
    exact ⟨by rw [← a4, ← q5]; rfl, by rw [← a5, ← q6]; rfl⟩

theorem getPreviousSlot_of_status (p2 : Platform) (t : Store)
    (hst : (loadLabelWithCrc_ t K_PREV_LABEL K_PREV_CRC CRG_LABEL_BUFFER_SIZE).1
        = LabelStatus.Corrupted ∨
      ((loadLabelWithCrc_ t K_PREV_LABEL K_PREV_CRC CRG_LABEL_BUFFER_SIZE).1
        = LabelStatus.Missing ∧ t.prev = none ∧ t.prevCrc = none)) :
    (getPreviousSlot p2 t CRG_LABEL_BUFFER_SIZE).1 = false ∧
    (getPreviousSlot p2 t CRG_LABEL_BUFFER_SIZE).2.1 = [] ∧
    (p2.nvsOpen = true →
      (getPreviousSlot p2 t CRG_LABEL_BUFFER_SIZE).2.2.1.prev = none ∧
      (getPreviousSlot p2 t CRG_LABEL_BUFFER_SIZE).2.2.1.prevCrc = none) := by
  have h17 : CRG_LABEL_BUFFER_SIZE ≠ 0 := by decide
  cases ho : p2.nvsOpen with
  | false =>
    simp [getPreviousSlot, ho, h17]
  | true =>
    rcases hst with hst | ⟨hst, z1, z2⟩
    · simp only [getPreviousSlot, ho, h17, hst]
      simp [Store.remove, K_PREV_LABEL, K_PREV_CRC]
    · simp only [getPreviousSlot, ho, h17, hst]
      simp [z1, z2]


/-- Every call of `attemptRollback_` from `beginEarly` finds no pending record
in the store: the precondition under which C11 is stated. -/
theorem beginEarly_attempt_entry (g : Guard) (p : Platform) (s : Store)
    (hopen : p.nvsOpen = true) (hw : s.failAfter = [])
    (h : Event.attemptRollback ∈ (beginEarly g p s).2.trace) :
    ∃ x : Store, x.failAfter = [] ∧ PendingClear x ∧
      (beginEarly g p s).2 = (attemptRollback_ (latchBoot g p) p x).after [Event.nvsBegin] := by
  have hbe : (beginEarly g p s).2 =
      beginEarlyDecide (latchBoot g p) p (beginEarlyPrelude (latchBoot g p) p s) := by
    simp [beginEarly, hopen]
  obtain ⟨⟨q1, q2, q3⟩, pw, _⟩ := beginEarlyPrelude_facts (latchBoot g p) p s hw
  rw [hbe] at h ⊢
  rcases beginEarlyDecide_prev (latchBoot g p) p (beginEarlyPrelude (latchBoot g p) p s) pw with
    ⟨hno, _, _⟩ | ⟨_, x, xw, _, _, x3, x4, x5, xe⟩
  · exact absurd h hno
  · exact ⟨x, xw, ⟨by rw [x3]; exact q1, by rw [x4]; exact q2, by rw [x5]; exact q3⟩, xe⟩

/-- Counterexample to C16 as stated: with the default options
(`autoSavePrevSlot` off) and a clean boot, `beginEarly` returns `None` and the
store still holds `prev = "app1"` with the wrong `prevCrc = 5`. -/
theorem C16_counterexample :
    (beginEarly scenarioGuard (scenarioPlatform ResetReason.POWERON app0)
        { prev := some app1, prevCrc := some 5 }).2.ret = some Decision.None ∧
    (beginEarly scenarioGuard (scenarioPlatform ResetReason.POWERON app0)
        { prev := some app1, prevCrc := some 5 }).2.store.prev = some app1 ∧
    (beginEarly scenarioGuard (scenarioPlatform ResetReason.POWERON app0)
        { prev := some app1, prevCrc := some 5 }).2.store.prevCrc = some 5 ∧
    crc32_ app1 ≠ 5 := by
  decide

/-- C16 (amended): for a store whose prev label fails its CRC check, opened by
a `beginEarly` whose writes succeed: `prev` and `prevCrc` are absent afterwards
when `autoSavePrevSlot` is on or the boot reached `attemptRollback_`, and they
are as before otherwise. In both cases `getPreviousSlot`, called afterwards on
whatever platform state, returns false with an empty label, and when it can
open the store `prev` and `prevCrc` are absent after it. -/
theorem C16_corrupt_prev (g : Guard) (p p2 : Platform) (s : Store)
    (hcor : (loadLabelWithCrc_ s K_PREV_LABEL K_PREV_CRC CRG_LABEL_BUFFER_SIZE).1
      = LabelStatus.Corrupted)
    (hopen : p.nvsOpen = true) (hw : s.failAfter = []) :
    ((g.opt.autoSavePrevSlot = true ∨ Event.attemptRollback ∈ (beginEarly g p s).2.trace) →
      (beginEarly g p s).2.store.prev = none ∧ (beginEarly g p s).2.store.prevCrc = none) ∧
    ((g.opt.autoSavePrevSlot = false ∧ Event.attemptRollback ∉ (beginEarly g p s).2.trace) →
      (beginEarly g p s).2.store.prev = s.prev ∧
      (beginEarly g p s).2.store.prevCrc = s.prevCrc) ∧
    (getPreviousSlot p2 (beginEarly g p s).2.store CRG_LABEL_BUFFER_SIZE).1 = false ∧
    (getPreviousSlot p2 (beginEarly g p s).2.store CRG_LABEL_BUFFER_SIZE).2.1 = [] ∧
    (p2.nvsOpen = true →
      (getPreviousSlot p2 (beginEarly g p s).2.store CRG_LABEL_BUFFER_SIZE).2.2.1.prev = none ∧
      (getPreviousSlot p2 (beginEarly g p s).2.store CRG_LABEL_BUFFER_SIZE).2.2.1.prevCrc = none) := by
  have hbe : (beginEarly g p s).2 =
      beginEarlyDecide (latchBoot g p) p (beginEarlyPrelude (latchBoot g p) p s) := by
    simp [beginEarly, hopen]
  have hopt : (latchBoot g p).opt = g.opt := (latchBoot_opt g p).1
  obtain ⟨pw, pa, pb⟩ := beginEarlyPrelude_prev (latchBoot g p) p s hw hcor
  rw [hopt] at pa pb
  rw [hbe]
  -- the final store keeps the `prev` record or has lost it
  have hfin :
      ((g.opt.autoSavePrevSlot = true ∨ Event.attemptRollback ∈
          (beginEarlyDecide (latchBoot g p) p (beginEarlyPrelude (latchBoot g p) p s)).trace) →
        (beginEarlyDecide (latchBoot g p) p (beginEarlyPrelude (latchBoot g p) p s)).store.prev
          = none ∧
        (beginEarlyDecide (latchBoot g p) p (beginEarlyPrelude (latchBoot g p) p s)).store.prevCrc
          = none) ∧
      ((g.opt.autoSavePrevSlot = false ∧ Event.attemptRollback ∉
          (beginEarlyDecide (latchBoot g p) p (beginEarlyPrelude (latchBoot g p) p s)).trace) →
        (beginEarlyDecide (latchBoot g p) p (beginEarlyPrelude (latchBoot g p) p s)).store.prev
          = s.prev ∧
        (beginEarlyDecide (latchBoot g p) p (beginEarlyPrelude (latchBoot g p) p s)).store.prevCrc
          = s.prevCrc) := by
    rcases beginEarlyDecide_prev (latchBoot g p) p (beginEarlyPrelude (latchBoot g p) p s) pw with
      ⟨hno, e1, e2⟩ | ⟨hyes, x, xw, x1, x2, _, _, _, xe⟩
    · constructor
      · rintro (ha | ha)
        · obtain ⟨z1, z2⟩ := pa ha
          exact ⟨by rw [e1, z1], by rw [e2, z2]⟩
        · exact absurd ha hno
      · rintro ⟨ha, _⟩
        obtain ⟨z1, z2⟩ := pb ha
        exact ⟨by rw [e1, z1], by rw [e2, z2]⟩
    · constructor
      · intro _
        rw [xe]
        show (attemptRollback_ (latchBoot g p) p x).store.prev = none ∧
          (attemptRollback_ (latchBoot g p) p x).store.prevCrc = none
        cases ha : g.opt.autoSavePrevSlot with
        | true =>
          obtain ⟨z1, z2⟩ := pa ha
          have hx : loadLabelWithCrc_ x K_PREV_LABEL K_PREV_CRC CRG_LABEL_BUFFER_SIZE
              = (LabelStatus.Missing, []) :=
            loadLabelWithCrc_prev_gone x _ (by rw [x1, z1])
          obtain ⟨_, k2⟩ := attemptRollback_prev (latchBoot g p) p x xw (by rw [hx]; decide)
          obtain ⟨k3, k4⟩ := k2 (by rw [hx]; decide)
          exact ⟨by rw [k3, x1, z1], by rw [k4, x2, z2]⟩
        | false =>
          obtain ⟨z1, z2⟩ := pb ha
          have hx : loadLabelWithCrc_ x K_PREV_LABEL K_PREV_CRC CRG_LABEL_BUFFER_SIZE
              = loadLabelWithCrc_ s K_PREV_LABEL K_PREV_CRC CRG_LABEL_BUFFER_SIZE :=
            loadLabelWithCrc_prev_congr x s _ (by rw [x1, z1]) (by rw [x2, z2])
          obtain ⟨k1, _⟩ := attemptRollback_prev (latchBoot g p) p x xw
            (by rw [hx, hcor]; decide)
          exact k1 (by rw [hx, hcor])
      · rintro ⟨_, hno⟩
        exact absurd hyes hno
  refine ⟨hfin.1, hfin.2, ?_⟩
  -- what `getPreviousSlot` sees
  have hst : (loadLabelWithCrc_
        (beginEarlyDecide (latchBoot g p) p (beginEarlyPrelude (latchBoot g p) p s)).store
        K_PREV_LABEL K_PREV_CRC CRG_LABEL_BUFFER_SIZE).1 = LabelStatus.Corrupted ∨
      ((loadLabelWithCrc_
        (beginEarlyDecide (latchBoot g p) p (beginEarlyPrelude (latchBoot g p) p s)).store
        K_PREV_LABEL K_PREV_CRC CRG_LABEL_BUFFER_SIZE).1 = LabelStatus.Missing ∧
       (beginEarlyDecide (latchBoot g p) p (beginEarlyPrelude (latchBoot g p) p s)).store.prev
          = none ∧
       (beginEarlyDecide (latchBoot g p) p (beginEarlyPrelude (latchBoot g p) p s)).store.prevCrc
          = none) := by
    by_cases hc : g.opt.autoSavePrevSlot = true ∨ Event.attemptRollback ∈
        (beginEarlyDecide (latchBoot g p) p (beginEarlyPrelude (latchBoot g p) p s)).trace
    · obtain ⟨z1, z2⟩ := hfin.1 hc
      right
      exact ⟨by rw [loadLabelWithCrc_prev_gone _ _ z1], z1, z2⟩
    · have hc2 : g.opt.autoSavePrevSlot = false ∧ Event.attemptRollback ∉
          (beginEarlyDecide (latchBoot g p) p (beginEarlyPrelude (latchBoot g p) p s)).trace := by
        constructor
        · cases ha : g.opt.autoSavePrevSlot with
          | true => exact absurd (Or.inl ha) hc
          | false => rfl
        · exact fun hm => hc (Or.inr hm)
      obtain ⟨z1, z2⟩ := hfin.2 hc2
      left
      rw [loadLabelWithCrc_prev_congr _ s _ z1 z2, hcor]
  exact getPreviousSlot_of_status p2 _ hst

/-- Witness of C16: `prev = "app1"` with the wrong `prevCrc = 5`, auto-save of
the previous slot switched on, a clean boot. -/
theorem C16_corrupt_prev_witness :
    ((beginEarly { opt := { autoSavePrevSlot := true } }
        (scenarioPlatform ResetReason.POWERON app0)
        { prev := some app1, prevCrc := some 5 }).2.store.prev = none ∧
      (beginEarly { opt := { autoSavePrevSlot := true } }
        (scenarioPlatform ResetReason.POWERON app0)
        { prev := some app1, prevCrc := some 5 }).2.store.prevCrc = none) ∧
    (getPreviousSlot (scenarioPlatform ResetReason.POWERON app0)
      (beginEarly { opt := { autoSavePrevSlot := true } }
        (scenarioPlatform ResetReason.POWERON app0)
        { prev := some app1, prevCrc := some 5 }).2.store CRG_LABEL_BUFFER_SIZE).1 = false :=
  have h := C16_corrupt_prev { opt := { autoSavePrevSlot := true } }
    (scenarioPlatform ResetReason.POWERON app0) (scenarioPlatform ResetReason.POWERON app0)
    { prev := some app1, prevCrc := some 5 } (by decide) rfl rfl
  ⟨h.1 (Or.inl rfl), h.2.2.1⟩

/-! ## The rollback counter bump and the label policy of `readPendingAction_` -/

/-- Counterexample to C22 as stated: a rollback counter that reads `0xFE` is
bumped to `0xFF`, where saturation at `0xFE` would leave `0xFE`. -/
theorem C22_counterexample :
    (readRollbackCount_ { rbCnt := some 0xFE, rbCntInv := some 1 } true).1 = 0xFE ∧
    (bumpRollbackCount_ { rbCnt := some 0xFE, rbCntInv := some 1 }).rbCnt = some 0xFF ∧
    min (0xFE + 1) 0xFE ≠ 0xFF := by
  decide

/-- C22 (amended): `bumpRollbackCount_` saturates at `0xFF`. With writes that
succeed and a prior count of byte width (what `readRollbackCount_` returns
before the call), the stored `rbCnt` afterwards is `min(prior + 1, 0xFF)`, its
complement is valid, and the counter reads that value; so a prior count of
`0xFE` becomes `0xFF`. -/
theorem C22_bump_saturates (s : Store) (hw : s.failAfter = [])
    (hu8 : (readRollbackCount_ s true).1 < 256) :
    (bumpRollbackCount_ s).rbCnt = some (min ((readRollbackCount_ s true).1 + 1) 0xFF) ∧
    RollbackPairValid (bumpRollbackCount_ s) ∧
    (readRollbackCount_ (bumpRollbackCount_ s) true).1
      = min ((readRollbackCount_ s true).1 + 1) 0xFF := by
  obtain ⟨r1, _⟩ := readRollbackCount_frame s hw
  obtain ⟨rv, rr⟩ := readRollbackCount_reads s hw
  by_cases h : (readRollbackCount_ s true).1 = 0xFF
  · have hb : bumpRollbackCount_ s = (readRollbackCount_ s true).2 := by
      simp [bumpRollbackCount_, h]
    have hmin : min ((readRollbackCount_ s true).1 + 1) 0xFF = 0xFF := by rw [h]; rfl
    have hcnt : (readRollbackCount_ s true).2.rbCnt = some 0xFF := by
      have h1 := rr
      rw [h] at h1
      simp only [Store.getUChar, K_ROLL_COUNT] at h1
      cases hc : (readRollbackCount_ s true).2.rbCnt with
      | none => rw [hc] at h1; simp at h1
      | some v => rw [hc] at h1; simpa using h1
    rw [hb, hmin]
    refine ⟨hcnt, rv, ?_⟩
    rw [readRollbackCount_of_valid _ _ rv, rr, h]
  · have hlt : ((readRollbackCount_ s true).1 + 1) % 256 = (readRollbackCount_ s true).1 + 1 := by
      have : (readRollbackCount_ s true).1 ≠ 255 := h
      omega
    have hmin : min ((readRollbackCount_ s true).1 + 1) 0xFF = (readRollbackCount_ s true).1 + 1 := by
      have : (readRollbackCount_ s true).1 ≠ 255 := h
      omega
    have hb : bumpRollbackCount_ s =
        { (readRollbackCount_ s true).2 with
          rbCnt := some ((readRollbackCount_ s true).1 + 1),
          rbCntInv := some (((readRollbackCount_ s true).1 + 1) ^^^ 0xFF) } := by
      simp only [bumpRollbackCount_, h, ne_eq, not_false_eq_true, if_true]
      rw [writeRollbackCount_ok _ _ r1, hlt]
    have hv : RollbackPairValid
        { (readRollbackCount_ s true).2 with
          rbCnt := some ((readRollbackCount_ s true).1 + 1),
          rbCntInv := some (((readRollbackCount_ s true).1 + 1) ^^^ 0xFF) } := by
      have hx : ((readRollbackCount_ s true).1 + 1 ^^^
          ((readRollbackCount_ s true).1 + 1 ^^^ 255)) = 255 := (xor_mask_iff _ _ _).mpr rfl
      simp [RollbackPairValid, Store.getUChar, K_ROLL_COUNT, K_ROLL_COUNT_INV, hx]
    rw [hb, hmin]
    refine ⟨rfl, hv, ?_⟩
    rw [readRollbackCount_of_valid _ _ hv]
    simp [Store.getUChar, K_ROLL_COUNT]

/-- Witness of C22: a rollback counter holding 3 is bumped to 4. -/
theorem C22_bump_saturates_witness :
    (bumpRollbackCount_ { rbCnt := some 3, rbCntInv := some 0xFC }).rbCnt = some 4 ∧
    (readRollbackCount_ (bumpRollbackCount_ { rbCnt := some 3, rbCntInv := some 0xFC }) true).1
      = 4 :=
  have h := C22_bump_saturates { rbCnt := some 3, rbCntInv := some 0xFC } rfl (by decide)
  ⟨h.1.trans (by decide), h.2.2.trans (by decide)⟩

/-- C21: `readPendingAction_` on a store whose `pendAct` holds the code of the
action `a`, read into a label buffer of `n > 0` bytes. For `a` one of
`RollbackPrev`, `RollbackFactory`: when the pending label loads with status Ok
(present, CRC matching) the result is `a` with that label and the store is
untouched; when it does not (missing or corrupted) the result is `None` with an
empty label and the record is cleared by `clearPendingAction_`, as it is when
no label buffer is passed; the cleared store has no pending record when the
write succeeds. For `a = ControlledRestart` the result is `ControlledRestart`
with the store untouched for every state of the label and every buffer
argument, the label being empty unless it loads with status Ok. -/
theorem C21_pending_label_policy (s : Store) (a : PendingAction) (n : Nat) (hn : 0 < n)
    (hact : s.pendAct = some a.code) :
    ((a = PendingAction.RollbackPrev ∨ a = PendingAction.RollbackFactory) →
      ((loadLabelWithCrc_ s K_PENDING_LABEL K_PENDING_CRC n).1 = LabelStatus.Ok →
        readPendingAction_ s (some n)
          = (a, (loadLabelWithCrc_ s K_PENDING_LABEL K_PENDING_CRC n).2, s)) ∧
      ((loadLabelWithCrc_ s K_PENDING_LABEL K_PENDING_CRC n).1 ≠ LabelStatus.Ok →
        readPendingAction_ s (some n) = (PendingAction.None, [], clearPendingAction_ s)) ∧
      readPendingAction_ s none = (PendingAction.None, [], clearPendingAction_ s) ∧
      (s.failAfter = [] → PendingClear (clearPendingAction_ s))) ∧
    (a = PendingAction.ControlledRestart →
      (∀ buf, (readPendingAction_ s buf).1 = PendingAction.ControlledRestart ∧
        (readPendingAction_ s buf).2.2 = s) ∧
      ((loadLabelWithCrc_ s K_PENDING_LABEL K_PENDING_CRC n).1 ≠ LabelStatus.Ok →
        (readPendingAction_ s (some n)).2.1 = []) ∧
      ((loadLabelWithCrc_ s K_PENDING_LABEL K_PENDING_CRC n).1 = LabelStatus.Ok →
        (readPendingAction_ s (some n)).2.1
          = (loadLabelWithCrc_ s K_PENDING_LABEL K_PENDING_CRC n).2)) := by
  constructor
  · intro ha
    refine ⟨?_, ?_, ?_, ?_⟩
    · intro hok
      rcases ha with ha | ha <;> subst ha <;>
        simp [readPendingAction_, Store.getUChar, K_PENDING_ACT, hact, PendingAction.code,
          PendingAction.ofCode, hn, hok]
    · intro hbad
      rcases ha with ha | ha <;> subst ha <;>
        simp [readPendingAction_, Store.getUChar, K_PENDING_ACT, hact, PendingAction.code,
          PendingAction.ofCode, hn, hbad]
    · rcases ha with ha | ha <;> subst ha <;>
        simp [readPendingAction_, Store.getUChar, K_PENDING_ACT, hact, PendingAction.code,
          PendingAction.ofCode]
    · intro hw
      rw [clearPendingAction_ok s hw]
      exact ⟨rfl, rfl, rfl⟩
  · intro ha
    subst ha
    refine ⟨fun buf => readPendingAction_controlled s buf hact, ?_, ?_⟩
    · intro hbad
      simp [readPendingAction_, Store.getUChar, K_PENDING_ACT, hact, PendingAction.code,
        PendingAction.ofCode, hn, hbad]
    · intro hok
      simp [readPendingAction_, Store.getUChar, K_PENDING_ACT, hact, PendingAction.code,
        PendingAction.ofCode, hn, hok]

/-- Witness of C21: a `RollbackPrev` record whose CRC is wrong, and a
`ControlledRestart` record without a label. -/
theorem C21_pending_label_policy_witness :
    readPendingAction_ { pendAct := some 1, pendLbl := some app1, pendCrc := some 5 }
        (some CRG_LABEL_BUFFER_SIZE)
      = (PendingAction.None, [],
          clearPendingAction_ { pendAct := some 1, pendLbl := some app1, pendCrc := some 5 }) ∧
    (readPendingAction_ { pendAct := some 3 } (some CRG_LABEL_BUFFER_SIZE)).1
      = PendingAction.ControlledRestart ∧
    (readPendingAction_ { pendAct := some 3 } (some CRG_LABEL_BUFFER_SIZE)).2.1 = [] :=
  have h := (C21_pending_label_policy { pendAct := some 3 } PendingAction.ControlledRestart
    CRG_LABEL_BUFFER_SIZE (by decide) rfl).2 rfl
  ⟨((C21_pending_label_policy { pendAct := some 1, pendLbl := some app1, pendCrc := some 5 }
      PendingAction.RollbackPrev CRG_LABEL_BUFFER_SIZE (by decide) rfl).1 (Or.inl rfl)).2.1
      (by decide),
    (h.1 (some CRG_LABEL_BUFFER_SIZE)).1, h.2.1 (by decide)⟩

/-! ## What the boot decision leaves in the store -/

theorem storePendingAction_frame (s : Store) (a : PendingAction) (label : Option (List Nat))
    (hw : s.failAfter = []) :
    (storePendingAction_ s a label).failAfter = [] ∧
    (storePendingAction_ s a label).fails = s.fails ∧
    (storePendingAction_ s a label).failsInv = s.failsInv ∧
    (storePendingAction_ s a label).rbCnt = s.rbCnt ∧
    (storePendingAction_ s a label).rbCntInv = s.rbCntInv ∧
    (storePendingAction_ s a label).pendAct = some a.code := by
  rw [storePendingAction_ok s a label hw]
  cases label with
  | none => exact ⟨hw, rfl, rfl, rfl, rfl, rfl⟩
  | some l =>
    dsimp only
    split_ifs
    · exact ⟨hw, rfl, rfl, rfl, rfl, rfl⟩
    · exact ⟨hw, rfl, rfl, rfl, rfl, rfl⟩

theorem bumpRollbackCount_frame (s : Store) (hw : s.failAfter = []) :
    (bumpRollbackCount_ s).failAfter = [] ∧
    (bumpRollbackCount_ s).fails = s.fails ∧
    (bumpRollbackCount_ s).failsInv = s.failsInv ∧
    (bumpRollbackCount_ s).pendAct = s.pendAct := by
  obtain ⟨r1, r2, r3, _, _, r6, _⟩ := readRollbackCount_frame s hw
  unfold bumpRollbackCount_
  dsimp only
  split_ifs
  · rw [writeRollbackCount_ok _ _ r1]
    exact ⟨r1, r2, r3, r6⟩
  · exact ⟨r1, r2, r3, r6⟩

/-- What `tryFactoryFallback_` leaves of the counters and of the pending
record, when its writes succeed. -/
theorem tryFactoryFallback_frame (g : Guard) (p : Platform) (s : Store) (d : Decision)
    (hw : s.failAfter = []) :
    (tryFactoryFallback_ g p s d).store.failAfter = [] ∧
    (tryFactoryFallback_ g p s d).store.fails = s.fails ∧
    (tryFactoryFallback_ g p s d).store.failsInv = s.failsInv ∧
    ((tryFactoryFallback_ g p s d).ret ≠ none → PendingClear s →
      PendingClear (tryFactoryFallback_ g p s d).store) ∧
    ((tryFactoryFallback_ g p s d).ret = none →
      (tryFactoryFallback_ g p s d).store.pendAct
        = some PendingAction.RollbackFactory.code) := by
  obtain ⟨c1, c2, c3, _, _, c6⟩ :=
    storePendingAction_frame s PendingAction.RollbackFactory g.opt.factoryLabel hw
  unfold tryFactoryFallback_
  dsimp only
  split_ifs
  · exact ⟨hw, rfl, rfl, fun _ h => h, fun h => by simp at h⟩
  · exact ⟨c1, c2, c3, fun h => by simp at h, fun _ => c6⟩
  · rw [clearPendingAction_ok _ c1]
    exact ⟨c1, c2, c3, fun _ _ => ⟨rfl, rfl, rfl⟩, fun h => by simp at h⟩

/-- What `attemptRollback_` leaves of the fail counter and of the pending
record, when its writes succeed. -/
theorem attemptRollback_frame (g : Guard) (p : Platform) (s : Store) (hw : s.failAfter = []) :
    (attemptRollback_ g p s).store.failAfter = [] ∧
    (readFailCounter_ (attemptRollback_ g p s).store true).1 = (readFailCounter_ s true).1 ∧
    ((attemptRollback_ g p s).ret ≠ none → PendingClear s →
      PendingClear (attemptRollback_ g p s).store) ∧
    ((attemptRollback_ g p s).ret = none →
      (attemptRollback_ g p s).store.pendAct = some PendingAction.RollbackPrev.code ∨
      (attemptRollback_ g p s).store.pendAct = some PendingAction.RollbackFactory.code) := by
  -- the store after the labels are read and the entry is logged
  have hE : (readFailCounter_ (if (loadLabelWithCrc_ s K_PREV_LABEL K_PREV_CRC
        CRG_LABEL_BUFFER_SIZE).1 = LabelStatus.Corrupted
        then (s.remove K_PREV_LABEL).remove K_PREV_CRC else s) true).2.failAfter = [] ∧
      (readFailCounter_ (readFailCounter_ (if (loadLabelWithCrc_ s K_PREV_LABEL K_PREV_CRC
        CRG_LABEL_BUFFER_SIZE).1 = LabelStatus.Corrupted
        then (s.remove K_PREV_LABEL).remove K_PREV_CRC else s) true).2 true).1
        = (readFailCounter_ s true).1 ∧
      (PendingClear s → PendingClear (readFailCounter_ (if (loadLabelWithCrc_ s K_PREV_LABEL
        K_PREV_CRC CRG_LABEL_BUFFER_SIZE).1 = LabelStatus.Corrupted
        then (s.remove K_PREV_LABEL).remove K_PREV_CRC else s) true).2) := by
    have hw2 : ((s.remove K_PREV_LABEL).remove K_PREV_CRC).failAfter = [] := by
      simp [Store.remove, K_PREV_LABEL, K_PREV_CRC, hw]
    obtain ⟨a1, _, _, _, _, a6, a7, a8, a9⟩ := readFailCounter_frame s hw
    obtain ⟨b1, _, _, _, _, b6, b7, b8, b9⟩ := readFailCounter_frame _ hw2
    have hb : (readFailCounter_ ((s.remove K_PREV_LABEL).remove K_PREV_CRC) true).1
        = (readFailCounter_ s true).1 :=
      readFailCounter_congr _ _ true true (by simp [Store.remove, K_PREV_LABEL, K_PREV_CRC])
        (by simp [Store.remove, K_PREV_LABEL, K_PREV_CRC])
    split_ifs
    · refine ⟨b1, by rw [b9, hb], ?_⟩
      rintro ⟨h1, h2, h3⟩
      exact ⟨by rw [b6]; simpa [Store.remove, K_PREV_LABEL, K_PREV_CRC] using h1,
        by rw [b7]; simpa [Store.remove, K_PREV_LABEL, K_PREV_CRC] using h2,
        by rw [b8]; simpa [Store.remove, K_PREV_LABEL, K_PREV_CRC] using h3⟩
    · refine ⟨a1, a9, ?_⟩
      rintro ⟨h1, h2, h3⟩
      exact ⟨by rw [a6]; exact h1, by rw [a7]; exact h2, by rw [a8]; exact h3⟩
  unfold attemptRollback_
  dsimp only
  generalize (readFailCounter_ (if (loadLabelWithCrc_ s K_PREV_LABEL K_PREV_CRC
        CRG_LABEL_BUFFER_SIZE).1 = LabelStatus.Corrupted
        then (s.remove K_PREV_LABEL).remove K_PREV_CRC else s) true).2 = e at hE ⊢
  generalize (if (loadLabelWithCrc_ s K_PREV_LABEL K_PREV_CRC CRG_LABEL_BUFFER_SIZE).1
        = LabelStatus.Corrupted then ([] : List Nat)
      else (loadLabelWithCrc_ s K_PREV_LABEL K_PREV_CRC CRG_LABEL_BUFFER_SIZE).2) = prev
  obtain ⟨e1, e2, e3⟩ := hE
  -- a give-up through `tryFactoryFallback_` on the entry store
  have hgive : ∀ (d : Decision) (pre : List Event),
      ((tryFactoryFallback_ g p e d).after pre).store.failAfter = [] ∧
      (readFailCounter_ ((tryFactoryFallback_ g p e d).after pre).store true).1
        = (readFailCounter_ s true).1 ∧
      (((tryFactoryFallback_ g p e d).after pre).ret ≠ none → PendingClear s →
        PendingClear ((tryFactoryFallback_ g p e d).after pre).store) ∧
      (((tryFactoryFallback_ g p e d).after pre).ret = none →
        ((tryFactoryFallback_ g p e d).after pre).store.pendAct
          = some PendingAction.RollbackPrev.code ∨
        ((tryFactoryFallback_ g p e d).after pre).store.pendAct
          = some PendingAction.RollbackFactory.code) := by
    intro d pre
    obtain ⟨t1, t2, t3, t4, t5⟩ := tryFactoryFallback_frame g p e d e1
    refine ⟨t1, ?_, fun h hc => t4 h (e3 hc), fun h => Or.inr (t5 h)⟩
    rw [← e2]
    exact readFailCounter_congr _ _ true true t2 t3
  obtain ⟨c1, c2, c3, _, _, c6⟩ :=
    storePendingAction_frame e PendingAction.RollbackPrev (some prev) e1
  have hbump : ∀ tr : List Event,
      (Res.mk (bumpRollbackCount_ (storePendingAction_ e PendingAction.RollbackPrev (some prev)))
        tr none).store.failAfter = [] ∧
      (readFailCounter_ (Res.mk (bumpRollbackCount_
        (storePendingAction_ e PendingAction.RollbackPrev (some prev))) tr none).store true).1
        = (readFailCounter_ s true).1 ∧
      ((Res.mk (bumpRollbackCount_ (storePendingAction_ e PendingAction.RollbackPrev (some prev)))
        tr none).ret ≠ none → PendingClear s →
        PendingClear (Res.mk (bumpRollbackCount_
          (storePendingAction_ e PendingAction.RollbackPrev (some prev))) tr none).store) ∧
      ((Res.mk (bumpRollbackCount_ (storePendingAction_ e PendingAction.RollbackPrev (some prev)))
        tr none).ret = none →
        (Res.mk (bumpRollbackCount_ (storePendingAction_ e PendingAction.RollbackPrev
          (some prev))) tr none).store.pendAct = some PendingAction.RollbackPrev.code ∨
        (Res.mk (bumpRollbackCount_ (storePendingAction_ e PendingAction.RollbackPrev
          (some prev))) tr none).store.pendAct = some PendingAction.RollbackFactory.code) := by
    intro tr
    obtain ⟨b1, b2, b3, b4⟩ := bumpRollbackCount_frame _ c1
    refine ⟨b1, ?_, fun h => absurd rfl h, fun _ => Or.inl (by rw [← c6]; exact b4)⟩
    rw [← e2]
    exact readFailCounter_congr _ _ true true (by rw [← c2]; exact b2) (by rw [← c3]; exact b3)
  have hfail : ∀ pre : List Event,
      ((tryFactoryFallback_ g p (clearPendingAction_
        (storePendingAction_ e PendingAction.RollbackPrev (some prev)))
        Decision.FailedSwitch).after pre).store.failAfter = [] ∧
      (readFailCounter_ ((tryFactoryFallback_ g p (clearPendingAction_
        (storePendingAction_ e PendingAction.RollbackPrev (some prev)))
        Decision.FailedSwitch).after pre).store true).1 = (readFailCounter_ s true).1 ∧
      (((tryFactoryFallback_ g p (clearPendingAction_
        (storePendingAction_ e PendingAction.RollbackPrev (some prev)))
        Decision.FailedSwitch).after pre).ret ≠ none → PendingClear s →
        PendingClear ((tryFactoryFallback_ g p (clearPendingAction_
          (storePendingAction_ e PendingAction.RollbackPrev (some prev)))
          Decision.FailedSwitch).after pre).store) ∧
      (((tryFactoryFallback_ g p (clearPendingAction_
        (storePendingAction_ e PendingAction.RollbackPrev (some prev)))
        Decision.FailedSwitch).after pre).ret = none →
        ((tryFactoryFallback_ g p (clearPendingAction_
          (storePendingAction_ e PendingAction.RollbackPrev (some prev)))
          Decision.FailedSwitch).after pre).store.pendAct
          = some PendingAction.RollbackPrev.code ∨
        ((tryFactoryFallback_ g p (clearPendingAction_
          (storePendingAction_ e PendingAction.RollbackPrev (some prev)))
          Decision.FailedSwitch).after pre).store.pendAct
          = some PendingAction.RollbackFactory.code) := by
    intro pre
    have hcl := clearPendingAction_ok _ c1
    have hw3 : (clearPendingAction_
        (storePendingAction_ e PendingAction.RollbackPrev (some prev))).failAfter = [] := by
      rw [hcl]; exact c1
    have hc3 : PendingClear (clearPendingAction_
        (storePendingAction_ e PendingAction.RollbackPrev (some prev))) := by
      rw [hcl]; exact ⟨rfl, rfl, rfl⟩
    have hf1 : (clearPendingAction_
        (storePendingAction_ e PendingAction.RollbackPrev (some prev))).fails = e.fails := by
      rw [hcl]; exact c2
    have hf2 : (clearPendingAction_
        (storePendingAction_ e PendingAction.RollbackPrev (some prev))).failsInv
        = e.failsInv := by
      rw [hcl]; exact c3
    obtain ⟨t1, t2, t3, t4, t5⟩ := tryFactoryFallback_frame g p _ Decision.FailedSwitch hw3
    refine ⟨t1, ?_, fun h _ => t4 h hc3, fun h => Or.inr (t5 h)⟩
    rw [← e2]
    exact readFailCounter_congr _ _ true true (t2.trans hf1) (t3.trans hf2)
  repeat' split
  all_goals first | exact hgive _ _ | exact hbump _ | exact hfail _

theorem after_store (pre : List Event) (r : Res) : (r.after pre).store = r.store := rfl

theorem PendingClear_congr (s t : Store) (h1 : t.pendAct = s.pendAct) (h2 : t.pendLbl = s.pendLbl)
    (h3 : t.pendCrc = s.pendCrc) (h : PendingClear s) : PendingClear t :=
  ⟨by rw [h1]; exact h.1, by rw [h2]; exact h.2.1, by rw [h3]; exact h.2.2⟩

/-- What `beginEarly`, past the prelude, leaves of the pending record. -/
theorem beginEarlyDecide_pending (g : Guard) (p : Platform) (st : Prelude)
    (hw : st.store.failAfter = []) (hclear : PendingClear st.store) :
    ((beginEarlyDecide g p st).ret ≠ none → PendingClear (beginEarlyDecide g p st).store) ∧
    ((beginEarlyDecide g p st).ret = none →
      (beginEarlyDecide g p st).store.pendAct = some PendingAction.RollbackPrev.code ∨
      (beginEarlyDecide g p st).store.pendAct = some PendingAction.RollbackFactory.code) := by
  obtain ⟨c1, _, _, _, _, c6, c7, c8⟩ := countCrash_frame g st.fails st.store hw
  have hcc : PendingClear (countCrash g st.fails st.store).2 :=
    PendingClear_congr _ _ c6 c7 c8 hclear
  obtain ⟨r1, _, _, _, _, r6, r7, r8⟩ := readRollbackCount_frame _ c1
  have hrc : PendingClear (readRollbackCount_ (countCrash g st.fails st.store).2 true).2 :=
    PendingClear_congr _ _ r6 r7 r8 hcc
  have hatt : ∀ x : Store, x.failAfter = [] → PendingClear x →
      (((attemptRollback_ g p x).after [Event.nvsBegin]).ret ≠ none →
        PendingClear ((attemptRollback_ g p x).after [Event.nvsBegin]).store) ∧
      (((attemptRollback_ g p x).after [Event.nvsBegin]).ret = none →
        ((attemptRollback_ g p x).after [Event.nvsBegin]).store.pendAct
          = some PendingAction.RollbackPrev.code ∨
        ((attemptRollback_ g p x).after [Event.nvsBegin]).store.pendAct
          = some PendingAction.RollbackFactory.code) := by
    intro x xw xc
    obtain ⟨_, _, a3, a4⟩ := attemptRollback_frame g p x xw
    exact ⟨fun h => a3 h xc, a4⟩
  obtain ⟨_, _, _, t4, t5⟩ := tryFactoryFallback_frame g p _ Decision.SkippedNoPrev r1
  unfold beginEarlyDecide
  dsimp only
  split_ifs
  · refine ⟨fun _ => ?_, fun h => by simp at h⟩
    show PendingClear (writeFailCounter_ st.store 0)
    rw [writeFailCounter_ok _ _ hw]
    exact hclear
  · exact ⟨fun _ => hclear, fun h => by simp at h⟩
  · exact hatt _ hw hclear
  · exact ⟨fun h => t4 h hrc, fun h => Or.inr (t5 h)⟩
  · exact hatt _ r1 hrc
  · exact hatt _ c1 hcc
  · exact ⟨fun _ => hcc, fun h => by simp at h⟩

/-- C26: when `beginEarly` opens the store and all writes succeed, for every
guard (options, predicate), platform state and initial store: if it returns to
its caller, no pending record is left (`pendAct` absent or `None`, `pendLbl`
and `pendCrc` absent) and `readPendingAction_` yields `None`; if instead it
ends in `esp_restart()`, `pendAct` holds `RollbackPrev` or `RollbackFactory`,
the record the guard armed for that reset. -/
theorem C26_no_pending_on_return (g : Guard) (p : Platform) (s : Store)
    (hopen : p.nvsOpen = true) (hw : s.failAfter = []) :
    ((beginEarly g p s).2.ret ≠ none →
      PendingClear (beginEarly g p s).2.store ∧
      (readPendingAction_ (beginEarly g p s).2.store (some CRG_LABEL_BUFFER_SIZE)).1
        = PendingAction.None) ∧
    ((beginEarly g p s).2.ret = none →
      (beginEarly g p s).2.store.pendAct = some PendingAction.RollbackPrev.code ∨
      (beginEarly g p s).2.store.pendAct = some PendingAction.RollbackFactory.code) := by
  have hbe : (beginEarly g p s).2 =
      beginEarlyDecide (latchBoot g p) p (beginEarlyPrelude (latchBoot g p) p s) := by
    simp [beginEarly, hopen]
  obtain ⟨q, pw, _⟩ := beginEarlyPrelude_facts (latchBoot g p) p s hw
  obtain ⟨d1, d2⟩ := beginEarlyDecide_pending (latchBoot g p) p _ pw q
  rw [hbe]
  refine ⟨fun h => ⟨d1 h, ?_⟩, d2⟩
  rw [readPendingAction_of_clear _ _ (d1 h)]

/-- Witness of C26: a watchdog reset with a stale `RollbackPrev` record whose
CRC is wrong; `beginEarly` returns and no pending record is left. -/
theorem C26_no_pending_on_return_witness :
    PendingClear (beginEarly scenarioGuard (scenarioPlatform ResetReason.TASK_WDT app0)
      { pendAct := some 1, pendLbl := some app1, pendCrc := some 5 }).2.store ∧
    (readPendingAction_ (beginEarly scenarioGuard (scenarioPlatform ResetReason.TASK_WDT app0)
      { pendAct := some 1, pendLbl := some app1, pendCrc := some 5 }).2.store
      (some CRG_LABEL_BUFFER_SIZE)).1 = PendingAction.None :=
  (C26_no_pending_on_return scenarioGuard (scenarioPlatform ResetReason.TASK_WDT app0)
    { pendAct := some 1, pendLbl := some app1, pendCrc := some 5 } rfl rfl).1 (by decide)

/-! ## Crash counting -/

/-- The crash-counting block on a prelude store whose fail counter reads the
value held in `fails`: the counter then reads the new value of `fails`, which
is `fails + 1` below the cap and `fails` from the cap on. -/
theorem countCrash_reads (g : Guard) (f : Nat) (st : Store) (hw : st.failAfter = [])
    (hread : (readFailCounter_ st true).1 = f) (h32 : g.opt.failLimit < 2 ^ 32) :
    (readFailCounter_ (countCrash g f st).2 true).1 = (countCrash g f st).1 ∧
    (countCrash g f st).1 =
      (if f < (if g.opt.failLimit > 0 then g.opt.failLimit else 0xFFFFFFFF) then f + 1
        else f) := by
  have h2 : (2 : Nat) ^ 32 = 4294967296 := by norm_num
  rw [h2] at h32
  by_cases hc : f < (if g.opt.failLimit > 0 then g.opt.failLimit else 0xFFFFFFFF)
  · have hlt : f < 4294967295 := by
      split_ifs at hc <;> omega
    have hmod : (f + 1) % 4294967296 = f + 1 := Nat.mod_eq_of_lt (by omega)
    have hcc : countCrash g f st =
        (f + 1, { st with fails := some (f + 1), failsInv := some ((f + 1) ^^^ 0xFFFFFFFF) }) := by
      simp only [countCrash, hlt, if_true, hc, h2, hmod, writeFailCounter_ok _ _ hw]
    rw [hcc, if_pos hc]
    exact ⟨congrArg Prod.fst (readFailCounter_pair _ (f + 1) rfl rfl true), rfl⟩
  · have hcc : countCrash g f st = (f, st) := by
      simp only [countCrash, hc, if_false, ite_self]
    rw [hcc, if_neg hc]
    exact ⟨hread, rfl⟩

/-- The fail counter after a `beginEarly` that reaches crash counting. -/
theorem beginEarly_fail_count (g : Guard) (p : Platform) (s : Store)
    (hopen : p.nvsOpen = true) (hw : s.failAfter = [])
    (hpb : (beginEarlyPrelude g p s).pendingBoot = false)
    (hsusp : isSuspicious g p.resetReason = true)
    (hvalid : (latchBoot g p).runningImgState ≠ OtaState.INVALID)
    (h32 : g.opt.failLimit < 2 ^ 32) :
    (readFailCounter_ (beginEarly g p s).2.store true).1 =
      (if (readFailCounter_ s true).1
          < (if g.opt.failLimit > 0 then g.opt.failLimit else 0xFFFFFFFF)
        then (readFailCounter_ s true).1 + 1 else (readFailCounter_ s true).1) := by
  obtain ⟨_, pw, _, h4, _⟩ := beginEarlyPrelude_facts g p s hw
  have hfl : (beginEarlyPrelude g p s).fails = (readFailCounter_ s true).1 ∧
      (readFailCounter_ (beginEarlyPrelude g p s).store true).1 = (readFailCounter_ s true).1 := by
    rcases h4 with ⟨_, b2, b3⟩ | ⟨b1, _⟩
    · exact ⟨b2, b3⟩
    · rw [hpb] at b1; exact absurd b1 (by decide)
  obtain ⟨k1, k2⟩ := countCrash_reads g (beginEarlyPrelude g p s).fails
    (beginEarlyPrelude g p s).store pw (by rw [hfl.2, hfl.1]) h32
  have hk : (if (readFailCounter_ s true).1
        < (if g.opt.failLimit > 0 then g.opt.failLimit else 0xFFFFFFFF)
      then (readFailCounter_ s true).1 + 1 else (readFailCounter_ s true).1)
      = (countCrash g (beginEarlyPrelude g p s).fails (beginEarlyPrelude g p s).store).1 := by
    rw [k2, hfl.1]
  obtain ⟨c1, _⟩ := countCrash_frame g (beginEarlyPrelude g p s).fails
    (beginEarlyPrelude g p s).store pw
  obtain ⟨r1, r2, r3, _⟩ := readRollbackCount_frame _ c1
  have hr : (readFailCounter_ (readRollbackCount_
      (countCrash g (beginEarlyPrelude g p s).fails (beginEarlyPrelude g p s).store).2
      true).2 true).1
      = (countCrash g (beginEarlyPrelude g p s).fails (beginEarlyPrelude g p s).store).1 := by
    rw [← k1]
    exact readFailCounter_congr _ _ true true r2 r3
  rw [beginEarly_counted g p s hopen hpb hsusp hvalid, hk]
  split_ifs
  · obtain ⟨_, t2, t3, _⟩ :=
      tryFactoryFallback_frame (latchBoot g p) p _ Decision.SkippedNoPrev r1
    rw [after_store, ← hr]
    exact readFailCounter_congr _ _ true true t2 t3
  · obtain ⟨_, a2, _⟩ := attemptRollback_frame (latchBoot g p) p _ r1
    rw [after_store, ← hr]
    exact a2
  · obtain ⟨_, a2, _⟩ := attemptRollback_frame (latchBoot g p) p _ c1
    rw [after_store, ← k1]
    exact a2
  · exact k1

/-- Counterexample to C23 as stated: with `failLimit = 0` and `fails` reading
`0xFFFFFFFE`, a watchdog reset is counted and `0xFFFFFFFF` is stored, above the
cap of `2^32 - 2` the claim names. -/
theorem C23_counterexample :
    isSuspicious { opt := { failLimit := 0 } } ResetReason.TASK_WDT = true ∧
    (readFailCounter_ { fails := some 0xFFFFFFFE, failsInv := some 1 } true).1 = 0xFFFFFFFE ∧
    (beginEarly { opt := { failLimit := 0 } } (scenarioPlatform ResetReason.TASK_WDT app0)
      { fails := some 0xFFFFFFFE, failsInv := some 1 }).2.ret = some Decision.None ∧
    (beginEarly { opt := { failLimit := 0 } } (scenarioPlatform ResetReason.TASK_WDT app0)
      { fails := some 0xFFFFFFFE, failsInv := some 1 }).2.store.fails = some 0xFFFFFFFF ∧
    min (0xFFFFFFFE + 1) (2 ^ 32 - 2) ≠ 0xFFFFFFFF := by
  decide

/-- C23 (amended): in a `beginEarly` that reaches crash counting (store open,
writes succeeding, nothing pending consumed, reset reason suspicious, running
image not INVALID), with `failLimit` a `uint32_t` and `cap` being `failLimit`
when `failLimit > 0` and `0xFFFFFFFF` otherwise: the fail counter afterwards
reads `fails + 1` when `fails < cap` and `fails` otherwise, which is
`min(fails + 1, cap)` whenever `fails <= cap`; it is never 0 and never below
the value before. -/
theorem C23_fail_counter_saturates (g : Guard) (p : Platform) (s : Store)
    (hopen : p.nvsOpen = true) (hw : s.failAfter = [])
    (hpb : (beginEarlyPrelude g p s).pendingBoot = false)
    (hsusp : isSuspicious g p.resetReason = true)
    (hvalid : (latchBoot g p).runningImgState ≠ OtaState.INVALID)
    (h32 : g.opt.failLimit < 2 ^ 32) :
    (readFailCounter_ (beginEarly g p s).2.store true).1 =
      (if (readFailCounter_ s true).1
          < (if g.opt.failLimit > 0 then g.opt.failLimit else 0xFFFFFFFF)
        then (readFailCounter_ s true).1 + 1 else (readFailCounter_ s true).1) ∧
    ((readFailCounter_ s true).1 ≤ (if g.opt.failLimit > 0 then g.opt.failLimit else 0xFFFFFFFF) →
      (readFailCounter_ (beginEarly g p s).2.store true).1 =
        min ((readFailCounter_ s true).1 + 1)
          (if g.opt.failLimit > 0 then g.opt.failLimit else 0xFFFFFFFF)) ∧
    0 < (readFailCounter_ (beginEarly g p s).2.store true).1 ∧
    (readFailCounter_ s true).1 ≤ (readFailCounter_ (beginEarly g p s).2.store true).1 := by
  have h := beginEarly_fail_count g p s hopen hw hpb hsusp hvalid h32
  rw [h]
  refine ⟨rfl, ?_, ?_, ?_⟩
  · intro hle
    split_ifs at hle ⊢ <;> omega
  · split_ifs <;> omega
  · split_ifs <;> omega

/-- Witness of C23: the scenario configuration (`failLimit = 3`), a watchdog
reset with `fails = 1` stored: the counter reads 2 afterwards. -/
theorem C23_fail_counter_saturates_witness :
    (readFailCounter_ (beginEarly scenarioGuard (scenarioPlatform ResetReason.TASK_WDT app0)
      { fails := some 1, failsInv := some 0xFFFFFFFE }).2.store true).1 = 2 :=
  (C23_fail_counter_saturates scenarioGuard (scenarioPlatform ResetReason.TASK_WDT app0)
    { fails := some 1, failsInv := some 0xFFFFFFFE } rfl rfl (by decide) (by decide)
    (by decide) (by decide)).1.trans (by decide)

/-! ## A pending rollback that did not take effect, and the boot loop at the limit -/

theorem readPendingAction_labelled (s : Store) (a : PendingAction) (n : Nat) (hn : 0 < n)
    (ha : a = PendingAction.RollbackPrev ∨ a = PendingAction.RollbackFactory)
    (hact : s.pendAct = some a.code)
    (hok : (loadLabelWithCrc_ s K_PENDING_LABEL K_PENDING_CRC n).1 = LabelStatus.Ok) :
    readPendingAction_ s (some n)
      = (a, (loadLabelWithCrc_ s K_PENDING_LABEL K_PENDING_CRC n).2, s) := by
  rcases ha with ha | ha <;> subst ha <;>
    simp [readPendingAction_, Store.getUChar, K_PENDING_ACT, hact, PendingAction.code,
      PendingAction.ofCode, hn, hok]

/-- The pending-action block of `beginEarly` on a rollback record whose valid
label is not the running label: the record is cleared, `fails` is kept. -/
theorem reconcilePending_mismatch (rl : List Nat) (f : Nat) (s : Store) (a : PendingAction)
    (ha : a = PendingAction.RollbackPrev ∨ a = PendingAction.RollbackFactory)
    (hact : s.pendAct = some a.code)
    (hok : (loadLabelWithCrc_ s K_PENDING_LABEL K_PENDING_CRC CRG_LABEL_BUFFER_SIZE).1
      = LabelStatus.Ok)
    (hdiff : (loadLabelWithCrc_ s K_PENDING_LABEL K_PENDING_CRC CRG_LABEL_BUFFER_SIZE).2 ≠ rl) :
    reconcilePending rl f s = ⟨f, false, clearPendingAction_ s⟩ := by
  have hrp := readPendingAction_labelled s a CRG_LABEL_BUFFER_SIZE (by decide) ha hact hok
  have hn : a ≠ PendingAction.None := by rcases ha with h | h <;> subst h <;> decide
  have hc : a ≠ PendingAction.ControlledRestart := by
    rcases ha with h | h <;> subst h <;> decide
  simp only [reconcilePending, hrp, ne_eq, hn, not_false_eq_true, if_true, hc, if_false, hdiff,
    decide_False, Bool.and_false, Bool.false_eq_true]

theorem reconcilePending_of_clear (rl : List Nat) (f : Nat) (t : Store) (h : PendingClear t) :
    reconcilePending rl f t = ⟨f, false, t⟩ := by
  simp [reconcilePending, readPendingAction_of_clear _ _ h]

theorem readFailCounter_pend_update (s : Store) (x : Option Nat) (y : Option (List Nat))
    (z : Option Nat) (hw : s.failAfter = []) :
    readFailCounter_ { s with pendAct := x, pendLbl := y, pendCrc := z } true =
      ((readFailCounter_ s true).1,
        { (readFailCounter_ s true).2 with pendAct := x, pendLbl := y, pendCrc := z }) := by
  have hw2 : ({ s with pendAct := x, pendLbl := y, pendCrc := z } : Store).failAfter = [] := hw
  unfold readFailCounter_
  simp only [writeFailCounter_ok _ _ hw, writeFailCounter_ok _ _ hw2, Store.getUInt, K_FAILS,
    K_FAILS_INV]
  split_ifs <;> rfl

/-- C24: `beginEarly` (store open, writes succeeding, `failLimit` a `uint32_t`)
on a pending `RollbackPrev` or `RollbackFactory` record whose label loads with
status Ok and is not the running label. The pending-action block consumes
nothing (`pendingBoot` false), keeps the value of `fails` it read, and after
the prelude no pending record is left and the fail counter reads that same
value. The whole call then does what it does on the same store with the
pending record cleared beforehand; in particular, for a suspicious reset reason
with a running image that is not INVALID, the fail counter afterwards reads
`fails + 1` (below the cap; `fails` from the cap on), not a count restarted
from 0. -/
theorem C24_pending_mismatch (g : Guard) (p : Platform) (s : Store) (a : PendingAction)
    (ha : a = PendingAction.RollbackPrev ∨ a = PendingAction.RollbackFactory)
    (hact : s.pendAct = some a.code)
    (hok : (loadLabelWithCrc_ s K_PENDING_LABEL K_PENDING_CRC CRG_LABEL_BUFFER_SIZE).1
      = LabelStatus.Ok)
    (hdiff : (loadLabelWithCrc_ s K_PENDING_LABEL K_PENDING_CRC CRG_LABEL_BUFFER_SIZE).2
      ≠ (readRunningLabel_ p CRG_LABEL_BUFFER_SIZE).2)
    (hopen : p.nvsOpen = true) (hw : s.failAfter = []) (h32 : g.opt.failLimit < 2 ^ 32) :
    (beginEarlyPrelude g p s).pendingBoot = false ∧
    (beginEarlyPrelude g p s).fails = (readFailCounter_ s true).1 ∧
    PendingClear (beginEarlyPrelude g p s).store ∧
    (readFailCounter_ (beginEarlyPrelude g p s).store true).1 = (readFailCounter_ s true).1 ∧
    (beginEarly g p s).2 =
      (beginEarly g p { s with pendAct := some PendingAction.None.code, pendLbl := none,
                               pendCrc := none }).2 ∧
    (isSuspicious g p.resetReason = true →
      (latchBoot g p).runningImgState ≠ OtaState.INVALID →
      (readFailCounter_ (beginEarly g p s).2.store true).1 =
        (if (readFailCounter_ s true).1
            < (if g.opt.failLimit > 0 then g.opt.failLimit else 0xFFFFFFFF)
          then (readFailCounter_ s true).1 + 1 else (readFailCounter_ s true).1)) := by
  obtain ⟨f1, _, _, _, _, f6, f7, f8, _⟩ := readFailCounter_frame s hw
  have hload := loadLabelWithCrc_pend_congr (readFailCounter_ s true).2 s CRG_LABEL_BUFFER_SIZE
    f7 f8
  have hrec := reconcilePending_mismatch (readRunningLabel_ p CRG_LABEL_BUFFER_SIZE).2
    (readFailCounter_ s true).1 (readFailCounter_ s true).2 a ha (by rw [f6]; exact hact)
    (by rw [hload]; exact hok) (by rw [hload]; exact hdiff)
  have hpre : ∀ g2 : Guard, beginEarlyPrelude g2 p s =
      ⟨(readFailCounter_ s true).1, false,
        autoSavePrev g2 (readRunningLabel_ p CRG_LABEL_BUFFER_SIZE).2
          (clearPendingAction_ (readFailCounter_ s true).2)⟩ := by
    intro g2
    simp only [beginEarlyPrelude, hrec]
  have hpre2 : ∀ g2 : Guard,
      beginEarlyPrelude g2 p { s with pendAct := some PendingAction.None.code, pendLbl := none,
                                      pendCrc := none } = beginEarlyPrelude g2 p s := by
    intro g2
    have h0 : PendingAction.None.code = 0 := rfl
    have hclr : PendingClear { (readFailCounter_ s true).2 with
        pendAct := some PendingAction.None.code, pendLbl := none, pendCrc := none } :=
      ⟨rfl, rfl, rfl⟩
    have hrf := readFailCounter_pend_update s (some PendingAction.None.code) none none hw
    rw [hpre g2]
    unfold beginEarlyPrelude
    dsimp only
    rw [hrf]
    dsimp only
    rw [reconcilePending_of_clear _ _ _ hclr, clearPendingAction_ok _ f1, h0]
  obtain ⟨q, _, _, h4, _⟩ := beginEarlyPrelude_facts g p s hw
  have hpb : (beginEarlyPrelude g p s).pendingBoot = false := by rw [hpre g]
  have hfl : (beginEarlyPrelude g p s).fails = (readFailCounter_ s true).1 := by rw [hpre g]
  refine ⟨hpb, hfl, q, ?_, ?_, ?_⟩
  · rcases h4 with ⟨_, _, b3⟩ | ⟨b1, _⟩
    · exact b3
    · rw [hpb] at b1; exact absurd b1 (by decide)
  · simp only [beginEarly, hopen, hpre2 (latchBoot g p), Bool.not_true, Bool.false_eq_true,
      if_false]
  · intro hsusp hvalid
    exact beginEarly_fail_count g p s hopen hw hpb hsusp hvalid h32

/-- Witness of C24: a pending (`RollbackPrev`, "app1") after which "app0" is
running, `fails = 1`, a watchdog reset: the counter reads 2 afterwards. -/
theorem C24_pending_mismatch_witness :
    (beginEarlyPrelude scenarioGuard (scenarioPlatform ResetReason.TASK_WDT app0)
      { fails := some 1, failsInv := some 0xFFFFFFFE, pendAct := some 1, pendLbl := some app1,
        pendCrc := some 2295226086 }).pendingBoot = false ∧
    PendingClear (beginEarlyPrelude scenarioGuard (scenarioPlatform ResetReason.TASK_WDT app0)
      { fails := some 1, failsInv := some 0xFFFFFFFE, pendAct := some 1, pendLbl := some app1,
        pendCrc := some 2295226086 }).store ∧
    (readFailCounter_ (beginEarly scenarioGuard (scenarioPlatform ResetReason.TASK_WDT app0)
      { fails := some 1, failsInv := some 0xFFFFFFFE, pendAct := some 1, pendLbl := some app1,
        pendCrc := some 2295226086 }).2.store true).1 = 2 :=
  have h := C24_pending_mismatch scenarioGuard (scenarioPlatform ResetReason.TASK_WDT app0)
    { fails := some 1, failsInv := some 0xFFFFFFFE, pendAct := some 1, pendLbl := some app1,
      pendCrc := some 2295226086 }
    PendingAction.RollbackPrev (Or.inl rfl) rfl (by decide) (by decide) rfl rfl (by decide)
  ⟨h.1, h.2.2.1, (h.2.2.2.2.2 (by decide) (by decide)).trans (by decide)⟩

theorem tryFactoryFallback_unavailable (g : Guard) (p : Platform) (s : Store) (d : Decision)
    (h : g.opt.fallbackToFactory = false ∨ cstr (g.opt.factoryLabel.getD []) = []) :
    tryFactoryFallback_ g p s d = ⟨s, [], some d⟩ := by
  rcases h with h | h
  · simp [tryFactoryFallback_, h]
  · cases hl : g.opt.factoryLabel with
    | none => simp [tryFactoryFallback_, hl]
    | some l =>
      rw [hl] at h
      simp only [Option.getD_some] at h
      simp [tryFactoryFallback_, hl, h]

theorem autoSavePrev_id (g : Guard) (rl : List Nat) (t : Store)
    (h : g.opt.autoSavePrevSlot = false ∨
      (loadLabelWithCrc_ t K_PREV_LABEL K_PREV_CRC CRG_LABEL_BUFFER_SIZE).1 = LabelStatus.Ok) :
    autoSavePrev g rl t = t := by
  rcases h with h | h
  · simp [autoSavePrev, h]
  · simp [autoSavePrev, h]

/-- One suspicious boot at the limit with the rollback guard tripped: the boot
gives up with `SkippedNoPrev` and leaves the store as it needs to be for the
next boot to do the same. -/
theorem limit_step (g : Guard) (p : Platform) (s : Store) (N : Nat)
    (hN : g.opt.failLimit = N) (hpos : 0 < N)
    (hmax : 0 < g.opt.maxRollbackAttempts)
    (hff : g.opt.fallbackToFactory = false ∨ cstr (g.opt.factoryLabel.getD []) = [])
    (hopen : p.nvsOpen = true) (hsusp : isSuspicious g p.resetReason = true)
    (hvalid : (latchBoot g p).runningImgState ≠ OtaState.INVALID)
    (hw : s.failAfter = [])
    (hpend : (readPendingAction_ s (some CRG_LABEL_BUFFER_SIZE)).1 = PendingAction.None)
    (hfails : (readFailCounter_ s true).1 = N)
    (hguard : g.opt.maxRollbackAttempts ≤ (readRollbackCount_ s true).1)
    (hauto : g.opt.autoSavePrevSlot = false ∨
      (loadLabelWithCrc_ s K_PREV_LABEL K_PREV_CRC CRG_LABEL_BUFFER_SIZE).1 = LabelStatus.Ok) :
    (beginEarly g p s).2.ret = some Decision.SkippedNoPrev ∧
    (beginEarly g p s).2.trace = [Event.nvsBegin] ∧
    (beginEarly g p s).2.store.failAfter = [] ∧
    (readPendingAction_ (beginEarly g p s).2.store (some CRG_LABEL_BUFFER_SIZE)).1
      = PendingAction.None ∧
    (readFailCounter_ (beginEarly g p s).2.store true).1 = N ∧
    g.opt.maxRollbackAttempts ≤ (readRollbackCount_ (beginEarly g p s).2.store true).1 ∧
    (g.opt.autoSavePrevSlot = false ∨
      (loadLabelWithCrc_ (beginEarly g p s).2.store K_PREV_LABEL K_PREV_CRC
        CRG_LABEL_BUFFER_SIZE).1 = LabelStatus.Ok) := by
  obtain ⟨f1, f2, f3, f4, f5, f6, f7, f8, f9⟩ := readFailCounter_frame s hw
  obtain ⟨h1, h2, h3, h4, _⟩ := beginEarlyPrelude_facts g p s hw
  obtain ⟨_, _, q3, q4, q5, q6, _⟩ :=
    reconcilePending_clear (readRunningLabel_ p CRG_LABEL_BUFFER_SIZE).2
      (readFailCounter_ s true).1 (readFailCounter_ s true).2 f1
  have hpb : (beginEarlyPrelude g p s).pendingBoot = false := by
    rw [h3]
    apply reconcilePending_none
    rw [(readPendingAction_congr _ s _ f6 f7 f8).1]
    exact hpend
  have hfl : (beginEarlyPrelude g p s).fails = N ∧
      (readFailCounter_ (beginEarlyPrelude g p s).store true).1 = N := by
    rcases h4 with ⟨_, b2, b3⟩ | ⟨b1, _⟩
    · exact ⟨by rw [b2, hfails], by rw [b3, hfails]⟩
    · rw [hpb] at b1; exact absurd b1 (by decide)
  -- the auto-save block leaves the store alone
  have hsame := loadLabelWithCrc_prev_congr
    (reconcilePending (readRunningLabel_ p CRG_LABEL_BUFFER_SIZE).2
      (readFailCounter_ s true).1 (readFailCounter_ s true).2).store s CRG_LABEL_BUFFER_SIZE
    (by rw [q5, f4]) (by rw [q6, f5])
  have hst : (beginEarlyPrelude g p s).store =
      (reconcilePending (readRunningLabel_ p CRG_LABEL_BUFFER_SIZE).2
        (readFailCounter_ s true).1 (readFailCounter_ s true).2).store := by
    show autoSavePrev g _ _ = _
    exact autoSavePrev_id g _ _ (by rw [hsame]; exact hauto)
  have hrb : (readRollbackCount_ (beginEarlyPrelude g p s).store true).1
      = (readRollbackCount_ s true).1 :=
    readRollbackCount_congr _ _ true true (by rw [hst, q3, f2]) (by rw [hst, q4, f3])
  have hcc : countCrash g N (beginEarlyPrelude g p s).store = (N, (beginEarlyPrelude g p s).store) := by
    have hn : ¬ (N < N) := by omega
    simp only [countCrash, hN, gt_iff_lt, hpos, if_true, hn, if_false, ite_self]
  obtain ⟨r1, r2, r3, r4, r5, r6, r7, r8⟩ := readRollbackCount_frame _ h2
  obtain ⟨rv, rr⟩ := readRollbackCount_reads (beginEarlyPrelude g p s).store h2
  have hff2 : (latchBoot g p).opt.fallbackToFactory = false ∨
      cstr ((latchBoot g p).opt.factoryLabel.getD []) = [] := by
    rw [(latchBoot_opt g p).1]; exact hff
  have hres : (beginEarly g p s).2 =
      ⟨(readRollbackCount_ (beginEarlyPrelude g p s).store true).2, [Event.nvsBegin],
        some Decision.SkippedNoPrev⟩ := by
    have hge : g.opt.maxRollbackAttempts ≤
        (readRollbackCount_ (beginEarlyPrelude g p s).store true).1 := by rw [hrb]; exact hguard
    have hlim : N ≥ N ∧ N > 0 := ⟨le_refl N, hpos⟩
    rw [beginEarly_counted g p s hopen hpb hsusp hvalid, hfl.1, hcc]
    simp only [hN, hlim, and_self, if_true, gt_iff_lt, hmax, ge_iff_le, hge,
      tryFactoryFallback_unavailable _ _ _ _ hff2, Res.after, List.append_nil]
  rw [hres]
  refine ⟨rfl, rfl, r1, ?_, ?_, ?_, ?_⟩
  · exact congrArg Prod.fst (readPendingAction_of_clear _ _
      (PendingClear_congr _ _ r6 r7 r8 h1))
  · show (readFailCounter_ (readRollbackCount_ (beginEarlyPrelude g p s).store true).2 true).1 = N
    rw [← hfl.2]
    exact readFailCounter_congr _ _ true true r2 r3
  · show g.opt.maxRollbackAttempts ≤
      (readRollbackCount_ (readRollbackCount_ (beginEarlyPrelude g p s).store true).2 true).1
    rw [readRollbackCount_of_valid _ _ rv, rr, hrb]
    exact hguard
  · rcases hauto with h | h
    · exact Or.inl h
    · right
      show (loadLabelWithCrc_ (readRollbackCount_ (beginEarlyPrelude g p s).store true).2
        K_PREV_LABEL K_PREV_CRC CRG_LABEL_BUFFER_SIZE).1 = LabelStatus.Ok
      rw [loadLabelWithCrc_prev_congr _ s _ (by rw [r4, hst, q5, f4]) (by rw [r5, hst, q6, f5])]
      exact h

/-- Counterexample to C25 as stated: the default options with
`autoSavePrevSlot` on (`failLimit = 3`, `maxRollbackAttempts = 1`, no factory
fallback), `fails = 3`, the rollback counter at 1 (guard tripped) and no prev
label stored. The auto-save block stores the running label as prev and resets
the rollback counter, so the guard no longer trips and the boot returns
`SkippedSameSlot`, not `SkippedNoPrev`. -/
theorem C25_counterexample :
    (readFailCounter_
      { fails := some 3, failsInv := some 0xFFFFFFFC, rbCnt := some 1, rbCntInv := some 0xFE }
      true).1 = 3 ∧
    (readRollbackCount_
      { fails := some 3, failsInv := some 0xFFFFFFFC, rbCnt := some 1, rbCntInv := some 0xFE }
      true).1 = 1 ∧
    ({ autoSavePrevSlot := true } : Options).failLimit = 3 ∧
    ({ autoSavePrevSlot := true } : Options).maxRollbackAttempts = 1 ∧
    ({ autoSavePrevSlot := true } : Options).fallbackToFactory = false ∧
    isSuspicious { opt := { autoSavePrevSlot := true } } ResetReason.TASK_WDT = true ∧
    (beginEarly { opt := { autoSavePrevSlot := true } }
      (scenarioPlatform ResetReason.TASK_WDT app0)
      { fails := some 3, failsInv := some 0xFFFFFFFC, rbCnt := some 1,
        rbCntInv := some 0xFE }).2.ret = some Decision.SkippedSameSlot := by
  decide

/-- C25 (amended): with `failLimit = N > 0`, `maxRollbackAttempts > 0`, factory
fallback off or without a label, and `autoSavePrevSlot` off or a valid prev
label stored: from a store in which `fails` reads `N`, the rollback counter
reads at least `maxRollbackAttempts` and nothing is pending, in a run of
suspicious boots (store opening, writes succeeding, running image not INVALID)
every boot, whatever its number `k`, finds `fails` reading `N`, returns
`SkippedNoPrev` having made no call besides opening the store, and leaves
`fails` reading `N`. -/
theorem C25_stuck_at_limit (g : Guard) (boots : Nat → Platform) (s0 : Store) (N : Nat)
    (hN : g.opt.failLimit = N) (hpos : 0 < N)
    (hmax : 0 < g.opt.maxRollbackAttempts)
    (hguard : g.opt.maxRollbackAttempts ≤ (readRollbackCount_ s0 true).1)
    (hff : g.opt.fallbackToFactory = false ∨ cstr (g.opt.factoryLabel.getD []) = [])
    (hauto : g.opt.autoSavePrevSlot = false ∨
      (loadLabelWithCrc_ s0 K_PREV_LABEL K_PREV_CRC CRG_LABEL_BUFFER_SIZE).1 = LabelStatus.Ok)
    (hfails : (readFailCounter_ s0 true).1 = N)
    (hpend : (readPendingAction_ s0 (some CRG_LABEL_BUFFER_SIZE)).1 = PendingAction.None)
    (hw : s0.failAfter = [])
    (hboots : ∀ i, (boots i).nvsOpen = true ∧ isSuspicious g (boots i).resetReason = true ∧
      (latchBoot g (boots i)).runningImgState ≠ OtaState.INVALID) :
    ∀ k,
      (readFailCounter_ (bootRun g boots k s0) true).1 = N ∧
      (beginEarly g (boots k) (bootRun g boots k s0)).2.ret = some Decision.SkippedNoPrev ∧
      (beginEarly g (boots k) (bootRun g boots k s0)).2.trace = [Event.nvsBegin] ∧
      (readFailCounter_ (beginEarly g (boots k) (bootRun g boots k s0)).2.store true).1 = N := by
  have inv : ∀ k,
      (bootRun g boots k s0).failAfter = [] ∧
      (readPendingAction_ (bootRun g boots k s0) (some CRG_LABEL_BUFFER_SIZE)).1
        = PendingAction.None ∧
      (readFailCounter_ (bootRun g boots k s0) true).1 = N ∧
      g.opt.maxRollbackAttempts ≤ (readRollbackCount_ (bootRun g boots k s0) true).1 ∧
      (g.opt.autoSavePrevSlot = false ∨
        (loadLabelWithCrc_ (bootRun g boots k s0) K_PREV_LABEL K_PREV_CRC
          CRG_LABEL_BUFFER_SIZE).1 = LabelStatus.Ok) := by
    intro k
    induction k with
    | zero => exact ⟨hw, hpend, hfails, hguard, hauto⟩
    | succ k ih =>
      obtain ⟨i1, i2, i3, i4, i5⟩ := ih
      obtain ⟨b1, b2, b3⟩ := hboots k
      obtain ⟨_, _, s3, s4, s5, s6, s7⟩ :=
        limit_step g (boots k) (bootRun g boots k s0) N hN hpos hmax hff b1 b2 b3 i1 i2 i3 i4 i5
      exact ⟨s3, s4, s5, s6, s7⟩
  intro k
  obtain ⟨i1, i2, i3, i4, i5⟩ := inv k
  obtain ⟨b1, b2, b3⟩ := hboots k
  obtain ⟨s1, s2, _, _, s5, _⟩ :=
    limit_step g (boots k) (bootRun g boots k s0) N hN hpos hmax hff b1 b2 b3 i1 i2 i3 i4 i5
  exact ⟨i3, s1, s2, s5⟩

/-- Witness of C25: the scenario configuration, `fails = 3` and the rollback
counter at 1; the third watchdog reset in a row still gives `SkippedNoPrev`. -/
theorem C25_stuck_at_limit_witness :
    (beginEarly scenarioGuard (scenarioPlatform ResetReason.TASK_WDT app0)
      (bootRun scenarioGuard (fun _ => scenarioPlatform ResetReason.TASK_WDT app0) 2
        { fails := some 3, failsInv := some 0xFFFFFFFC, rbCnt := some 1,
          rbCntInv := some 0xFE })).2.ret = some Decision.SkippedNoPrev ∧
    (readFailCounter_ (beginEarly scenarioGuard (scenarioPlatform ResetReason.TASK_WDT app0)
      (bootRun scenarioGuard (fun _ => scenarioPlatform ResetReason.TASK_WDT app0) 2
        { fails := some 3, failsInv := some 0xFFFFFFFC, rbCnt := some 1,
          rbCntInv := some 0xFE })).2.store true).1 = 3 :=
  have hs : isSuspicious scenarioGuard
      (scenarioPlatform ResetReason.TASK_WDT app0).resetReason = true := by decide
  have hv : (latchBoot scenarioGuard (scenarioPlatform ResetReason.TASK_WDT app0)).runningImgState
      ≠ OtaState.INVALID := by decide
  have h := C25_stuck_at_limit scenarioGuard
    (fun _ => scenarioPlatform ResetReason.TASK_WDT app0)
    { fails := some 3, failsInv := some 0xFFFFFFFC, rbCnt := some 1, rbCntInv := some 0xFE }
    3 rfl (by decide) (by decide) (by decide) (Or.inl rfl) (Or.inl rfl) (by decide) (by decide)
    rfl (fun _ => ⟨rfl, hs, hv⟩) 2
  ⟨h.2.1, h.2.2.2⟩

end crg
